import Mathlib

/-!
# ja-rule bootloader: flash command sequencer (`firmware/src/flash.c`)

The first part of this file is a shallow embedding of the flash sequencer; the
USB transport (`firmware/src/usb_transport.c`) follows it with a world record
of its own.  The C globals `g_flash_state`,
`cmd_buffer` and `g_input` become fields of one `World` record that every
function takes and returns.  Everything the sequencer does to the outside
(pin writes, bus transfers handed to `SPI_QueueTransfer`, completion callbacks
that are invoked) is appended to `World.trace`, so "nothing happened" is the
statement that the world is unchanged.

Conventions:
* bytes and words are `Nat`; a value stored into a `uint8_t` is reduced
  `% 256`, a `uint32_t` product is reduced `% 2 ^ 32`;
* a `const uint8_t *` is the view of memory from that pointer: `data i` is the
  C expression `data[i]`;
* a `Flash_Callback` is `Option Nat`: `none` is `NULL`, `some c` is the
  function with identifier `c`.  Calling it is recorded as an effect; the body
  of the callback is outside the sequencer and is not run by the model;
* `SysLog_Message` / `SysLog_Print` calls only log and are left out.
-/

namespace JaRule

/-! ## Constants of flash.c -/

def OP_WRITE_STATUS_REGISTER : Nat := 0x01
def OP_BYTE_PROGRAM : Nat := 0x02
def OP_READ : Nat := 0x03
def OP_WRITE_DISABLE : Nat := 0x04
def OP_STATUS_READ : Nat := 0x05
def OP_WRITE_ENABLE : Nat := 0x06
def OP_HS_READ : Nat := 0x0b
def OP_SECTOR_ERASE : Nat := 0x20
def OP_SOFTWARE_STATUS_READ : Nat := 0x35
def OP_ENABLE_WRITE_STATUS_REGISTER : Nat := 0x50
def OP_ENABLE_SOFTWARE_EOW : Nat := 0x70
def OP_DISBLE_SOFTWARE_EOW : Nat := 0x80
def OP_AUTO_INCREMENT_WRITE : Nat := 0xad

/-- The `Action` enum: what the sequencer is doing. -/
inductive Action where
  | ACTION_IDLE
  | ACTION_READ
  | ACTION_UNLOCK
  | ACTION_ERASE
  | ACTION_WRITE
  | ACTION_STATUS_READ
  | ACTION_STATUS1_READ
  deriving DecidableEq, Repr

def BUSY : Nat := 0x01
def WRITE_ENABLED : Nat := 0x02
def BLOCK_PROTECT_0 : Nat := 0x04
def BLOCK_PROTECT_1 : Nat := 0x08
def AUTO_ADDRESS_INCREMENT : Nat := 0x40
def BLOCK_PROTECT_LOCK_DOWN : Nat := 0x80

def CMD_MAX_LENGTH : Nat := 6

def SECTOR_SIZE : Nat := 1 <<< 12
def FLASH_SIZE : Nat := 1 <<< 18

/-- The `FlashHardwareSettings` struct of flash.h. -/
structure FlashHardwareSettings where
  ce_port : Nat
  ce_bit : Nat
  hold_port : Nat
  hold_bit : Nat
  wp_port : Nat
  wp_bit : Nat

/-- The `FlashState` struct (`g_flash_state`). -/
structure FlashState where
  ce_port : Nat
  ce_bit : Nat
  wp_port : Nat
  wp_bit : Nat
  hold_port : Nat
  hold_bit : Nat
  flash_sectors : Nat
  is_unlocked : Bool
  action : Action
  callback : Option Nat
  sector : Nat
  data : Nat → Nat
  data_size : Nat

/-- The six bytes of `cmd_buffer`. -/
structure CmdBuffer where
  b0 : Nat
  b1 : Nat
  b2 : Nat
  b3 : Nat
  b4 : Nat
  b5 : Nat
  deriving DecidableEq, Repr

def CmdBuffer.toList (c : CmdBuffer) : List Nat :=
  [c.b0, c.b1, c.b2, c.b3, c.b4, c.b5]

/-- The four bytes of `g_input`. -/
structure InputBuffer where
  i0 : Nat
  i1 : Nat
  i2 : Nat
  i3 : Nat
  deriving DecidableEq, Repr

/-- The `input` pointer handed to `SPI_QueueTransfer`: `NULL`, the static
`g_input`, or a buffer of the caller (identified by its pointer value). -/
inductive InputDest where
  | null
  | g_input
  | caller (ptr : Nat)
  deriving DecidableEq, Repr

/-- A bus transfer as handed to `SPI_QueueTransfer`: the first `length` bytes
of the output buffer, the input pointer and the number of bytes to read. -/
structure Transfer where
  output : List Nat
  input : InputDest
  input_length : Nat
  deriving DecidableEq, Repr

/-- What the sequencer and the bus do to the outside, in order. -/
inductive Effect where
  | pinDirectionOutput (port bit : Nat)
  | pinSet (port bit : Nat)
  | pinClear (port bit : Nat)
  | spiQueue (t : Transfer) (accepted : Bool)
  | spiReceived (dest : InputDest) (bytes : List Nat)
  | callback (cb : Nat) (ok : Bool)
  deriving DecidableEq, Repr

/-- The event passed to a bus completion handler (spi.h). -/
inductive SPIEventType where
  | SPI_BEGIN_TRANSFER
  | SPI_COMPLETE_TRANSFER
  deriving DecidableEq, Repr

/-- The globals of flash.c, the transfers the bus has accepted and not yet
completed, and the log of effects. -/
structure World where
  g_flash_state : FlashState
  cmd_buffer : CmdBuffer
  g_input : InputBuffer
  spi_queue : List Transfer
  trace : List Effect

/-! ## Collaborators that are not in the sources under study -/

/-- Modelled from the spec: `UInt32Byte1` of utils.h (not among the sources),
the first of the "3-byte big-endian-ordered address bytes": bits 16 to 23. -/
def UInt32Byte1 (s : Nat) : Nat := s / 65536 % 256

/-- Modelled from the spec: `UInt32Byte2` of utils.h (not among the sources),
the middle address byte: bits 8 to 15. -/
def UInt32Byte2 (s : Nat) : Nat := s / 256 % 256

/-- Modelled from the spec: `UInt32Byte3` of utils.h (not among the sources),
the last address byte: bits 0 to 7. -/
def UInt32Byte3 (s : Nat) : Nat := s % 256

/-- Harmony `PLIB_PORTS_PinDirectionOutputSet`: recorded as an effect. -/
def PLIB_PORTS_PinDirectionOutputSet (w : World) (port bit : Nat) : World :=
  { w with trace := w.trace ++ [Effect.pinDirectionOutput port bit] }

/-- Harmony `PLIB_PORTS_PinSet`: recorded as an effect. -/
def PLIB_PORTS_PinSet (w : World) (port bit : Nat) : World :=
  { w with trace := w.trace ++ [Effect.pinSet port bit] }

/-- Harmony `PLIB_PORTS_PinClear`: recorded as an effect. -/
def PLIB_PORTS_PinClear (w : World) (port bit : Nat) : World :=
  { w with trace := w.trace ++ [Effect.pinClear port bit] }

/-- Modelled from the spec: `SPI_QueueTransfer` of spi.c (not among the
sources), the bus transaction queue that "accepts one transfer (write bytes
out, optionally read bytes in)" or rejects it.  Whether it accepts is the
argument `q`, chosen by the environment.  The call is logged with the first
`length` bytes of `cmd_buffer`; an accepted transfer joins `spi_queue`. -/
def SPI_QueueTransfer (w : World) (length : Nat) (input : InputDest)
    (input_length : Nat) (q : Bool) : Bool × World :=
  let t : Transfer :=
    { output := w.cmd_buffer.toList.take length, input := input, input_length := input_length }
  (q, { w with
          spi_queue := if q then w.spi_queue ++ [t] else w.spi_queue,
          trace := w.trace ++ [Effect.spiQueue t q] })

/-! ## Private functions of flash.c -/

def DisableHold (w : World) : World :=
  PLIB_PORTS_PinSet w w.g_flash_state.hold_port w.g_flash_state.hold_bit

def EnableHold (w : World) : World :=
  PLIB_PORTS_PinClear w w.g_flash_state.hold_port w.g_flash_state.hold_bit

/-- The function `DisableWP`: the source passes `wp_port` both as the port and
as the bit position. -/
def DisableWP (w : World) : World :=
  PLIB_PORTS_PinSet w w.g_flash_state.wp_port w.g_flash_state.wp_port

/-- The function `EnableWP`: the source passes `wp_port` both as the port and
as the bit position. -/
def EnableWP (w : World) : World :=
  PLIB_PORTS_PinClear w w.g_flash_state.wp_port w.g_flash_state.wp_port

def ChipEnable (w : World) : World :=
  PLIB_PORTS_PinClear w w.g_flash_state.ce_port w.g_flash_state.ce_bit

def ChipDisable (w : World) : World :=
  PLIB_PORTS_PinSet w w.g_flash_state.ce_port w.g_flash_state.ce_bit

def RunCallback (w : World) (result : Bool) : World :=
  match w.g_flash_state.callback with
  | some cb =>
    { w with
        trace := w.trace ++ [Effect.callback cb result],
        g_flash_state := { w.g_flash_state with callback := none } }
  | none => w

/-- The assignment `g_flash_state.action = a`. -/
def setAction (w : World) (a : Action) : World :=
  { w with g_flash_state := { w.g_flash_state with action := a } }

def BeginErase (w : World) (q : Bool) : Bool × World :=
  let w := setAction w Action.ACTION_ERASE
  let w := { w with cmd_buffer := { w.cmd_buffer with b0 := OP_WRITE_ENABLE } }
  SPI_QueueTransfer w 1 InputDest.null 0 q

def SendReadStatus (w : World) (q : Bool) : Bool × World :=
  let w := { w with cmd_buffer := { w.cmd_buffer with b0 := OP_STATUS_READ } }
  SPI_QueueTransfer w 1 InputDest.g_input 1 q

/-- The tail `if (!ok) { action = ACTION_IDLE; RunCallback(false); }` of the
unlock and erase branches of `Flash_SPIComplete`. -/
def abortUnlessOk (r : Bool × World) : World :=
  if r.1 then r.2 else RunCallback (setAction r.2 Action.ACTION_IDLE) false

/-- The handler `Flash_SPIComplete`.  It calls `SPI_QueueTransfer` at most
once, so one answer `q` of the queue is enough. -/
def Flash_SPIComplete (w : World) (event : SPIEventType) (q : Bool) : World :=
  if event = SPIEventType.SPI_BEGIN_TRANSFER then
    ChipEnable w
  else
    let w := ChipDisable w
    match w.g_flash_state.action with
    | Action.ACTION_READ =>
      RunCallback (setAction w Action.ACTION_IDLE) true
    | Action.ACTION_UNLOCK =>
      abortUnlessOk
        (if w.cmd_buffer.b0 = OP_ENABLE_WRITE_STATUS_REGISTER then
          let w := { w with cmd_buffer :=
            { w.cmd_buffer with b0 := OP_WRITE_STATUS_REGISTER, b1 := 0 } }
          SPI_QueueTransfer w 2 InputDest.null 0 q
        else if w.cmd_buffer.b0 = OP_WRITE_STATUS_REGISTER then
          SendReadStatus w q
        else
          let w := EnableWP w
          if ¬ (w.g_input.i0 &&& BLOCK_PROTECT_0 ≠ 0 ∨ w.g_input.i0 &&& BLOCK_PROTECT_1 ≠ 0) then
            let w := { w with g_flash_state := { w.g_flash_state with is_unlocked := true } }
            BeginErase w q
          else
            (false, w))
    | Action.ACTION_ERASE =>
      abortUnlessOk
        (if w.cmd_buffer.b0 = OP_WRITE_ENABLE then
          let address := (w.g_flash_state.sector * SECTOR_SIZE) % 2 ^ 32
          let w := { w with cmd_buffer :=
            { w.cmd_buffer with
                b0 := OP_SECTOR_ERASE,
                b1 := UInt32Byte1 address,
                b2 := UInt32Byte2 address,
                b3 := UInt32Byte3 address } }
          SPI_QueueTransfer w 4 InputDest.null 0 q
        else if w.cmd_buffer.b0 = OP_SECTOR_ERASE then
          SendReadStatus w q
        else if w.cmd_buffer.b0 = OP_STATUS_READ then
          if w.g_input.i0 &&& BUSY ≠ 0 then
            SendReadStatus w q
          else
            let w := setAction w Action.ACTION_WRITE
            let w := { w with cmd_buffer := { w.cmd_buffer with b0 := OP_WRITE_ENABLE } }
            SPI_QueueTransfer w 1 InputDest.null 0 q
        else
          (false, w))
    | Action.ACTION_WRITE =>
      if w.cmd_buffer.b0 = OP_ENABLE_SOFTWARE_EOW then
        let w := { w with cmd_buffer := { w.cmd_buffer with b0 := OP_WRITE_ENABLE } }
        (SPI_QueueTransfer w 1 InputDest.null 0 q).2
      else if w.cmd_buffer.b0 = OP_WRITE_ENABLE then
        let address := (w.g_flash_state.sector * SECTOR_SIZE) % 2 ^ 32
        let w := { w with cmd_buffer :=
          { b0 := OP_AUTO_INCREMENT_WRITE,
            b1 := UInt32Byte1 address,
            b2 := UInt32Byte2 address,
            b3 := UInt32Byte3 address,
            b4 := w.g_flash_state.data 0 % 256,
            b5 := w.g_flash_state.data 1 % 256 } }
        (SPI_QueueTransfer w 6 InputDest.null 0 q).2
      else if w.cmd_buffer.b0 = OP_AUTO_INCREMENT_WRITE then
        let w := { w with cmd_buffer := { w.cmd_buffer with b0 := OP_STATUS_READ } }
        (SPI_QueueTransfer w 1 InputDest.g_input 1 q).2
      else if w.cmd_buffer.b0 = OP_WRITE_DISABLE then
        RunCallback (setAction w Action.ACTION_IDLE) true
      else if w.cmd_buffer.b0 = OP_DISBLE_SOFTWARE_EOW then
        let w := { w with cmd_buffer := { w.cmd_buffer with b0 := OP_STATUS_READ } }
        let w := setAction w Action.ACTION_STATUS_READ
        (SPI_QueueTransfer w 1 InputDest.g_input 1 q).2
      else if w.cmd_buffer.b0 = OP_STATUS_READ then
        if w.g_input.i0 &&& BUSY ≠ 0 then
          (SendReadStatus w q).2
        else
          let w := { w with cmd_buffer := { w.cmd_buffer with b0 := OP_WRITE_DISABLE } }
          (SPI_QueueTransfer w 1 InputDest.null 0 q).2
      else
        w
    | Action.ACTION_STATUS_READ =>
      setAction w Action.ACTION_IDLE
    | Action.ACTION_STATUS1_READ =>
      setAction w Action.ACTION_IDLE
    | Action.ACTION_IDLE =>
      w

/-! ## Public functions of flash.c -/

def Flash_Initialize (w : World) (settings : FlashHardwareSettings) : World :=
  let w := { w with g_flash_state :=
    { w.g_flash_state with
        ce_port := settings.ce_port,
        ce_bit := settings.ce_bit,
        wp_port := settings.wp_port,
        wp_bit := settings.wp_bit,
        hold_port := settings.hold_port,
        hold_bit := settings.hold_bit,
        flash_sectors := FLASH_SIZE / SECTOR_SIZE,
        is_unlocked := false,
        action := Action.ACTION_IDLE,
        callback := none } }
  let w := PLIB_PORTS_PinDirectionOutputSet w settings.ce_port settings.ce_bit
  let w := PLIB_PORTS_PinDirectionOutputSet w settings.hold_port settings.hold_bit
  let w := PLIB_PORTS_PinDirectionOutputSet w settings.wp_port settings.wp_bit
  let w := PLIB_PORTS_PinSet w settings.ce_port settings.ce_bit
  let w := DisableHold w
  EnableWP w

def Flash_SectorSize : Nat := SECTOR_SIZE

def Flash_Read (w : World) (sector : Nat) (input : Nat) (size : Nat)
    (callback : Option Nat) (q : Bool) : Bool × World :=
  if w.g_flash_state.action ≠ Action.ACTION_IDLE ∨
      sector ≥ w.g_flash_state.flash_sectors then
    (false, w)
  else
    let address := (sector * SECTOR_SIZE) % 2 ^ 32
    let w := { w with cmd_buffer :=
      { w.cmd_buffer with
          b0 := OP_READ,
          b1 := UInt32Byte1 address,
          b2 := UInt32Byte2 address,
          b3 := UInt32Byte3 address } }
    let w := { w with g_flash_state := { w.g_flash_state with callback := callback } }
    let w := setAction w Action.ACTION_READ
    let r := SPI_QueueTransfer w 4 (InputDest.caller input) size q
    if ¬ r.1 then (r.1, setAction r.2 Action.ACTION_IDLE) else r

/-- The function `Flash_Write`; its `callback` argument is not used by the
body, exactly as in the source. -/
def Flash_Write (w : World) (sector : Nat) (output : Nat → Nat) (size : Nat)
    (_callback : Option Nat) (q : Bool) : Bool × World :=
  if w.g_flash_state.action ≠ Action.ACTION_IDLE ∨
      sector ≥ w.g_flash_state.flash_sectors ∨
      size > SECTOR_SIZE then
    (false, w)
  else
    let w := { w with g_flash_state :=
      { w.g_flash_state with sector := sector, data := output, data_size := size } }
    let r :=
      if w.g_flash_state.is_unlocked then
        BeginErase w q
      else
        let w := DisableWP w
        let w := { w with cmd_buffer := { w.cmd_buffer with b0 := OP_ENABLE_WRITE_STATUS_REGISTER } }
        let w := setAction w Action.ACTION_UNLOCK
        SPI_QueueTransfer w 1 InputDest.null 0 q
    if ¬ r.1 then (r.1, setAction r.2 Action.ACTION_IDLE) else r

def Flash_ReadStatus (w : World) (q : Bool) : Bool × World :=
  if w.g_flash_state.action ≠ Action.ACTION_IDLE then
    (false, w)
  else
    let w := { w with cmd_buffer := { w.cmd_buffer with b0 := OP_STATUS_READ } }
    let w := setAction w Action.ACTION_STATUS_READ
    SPI_QueueTransfer w 1 InputDest.g_input 1 q

def Flash_ReadStatus1 (w : World) (q : Bool) : Bool × World :=
  if w.g_flash_state.action ≠ Action.ACTION_IDLE then
    (false, w)
  else
    let w := { w with cmd_buffer := { w.cmd_buffer with b0 := OP_SOFTWARE_STATUS_READ } }
    let w := setAction w Action.ACTION_STATUS1_READ
    SPI_QueueTransfer w 1 InputDest.g_input 1 q

/-! ## The bus and the program start -/

/-- Store received bytes at the start of `g_input` (at most four). -/
def InputBuffer.store (b : InputBuffer) (bytes : List Nat) : InputBuffer :=
  match bytes with
  | [] => b
  | [x0] => { b with i0 := x0 }
  | [x0, x1] => { b with i0 := x0, i1 := x1 }
  | [x0, x1, x2] => { b with i0 := x0, i1 := x1, i2 := x2 }
  | x0 :: x1 :: x2 :: x3 :: _ => { i0 := x0, i1 := x1, i2 := x2, i3 := x3 }

/-- Modelled from the spec: the first half of a bus transfer run by the
transaction queue of spi.c (not among the sources), which "invokes a
completion callback with begin/end phase markers".  The oldest pending
transfer is taken off the queue, the handler gets `SPI_BEGIN_TRANSFER`, the
device answers `rx i` as the `i`-th received byte and the `input_length`
received bytes are stored at the transfer's input pointer. -/
def SPI_Receive (w : World) (rx : Nat → Nat) : World :=
  match w.spi_queue with
  | [] => w
  | t :: rest =>
    let w := { w with spi_queue := rest }
    let w := Flash_SPIComplete w SPIEventType.SPI_BEGIN_TRANSFER false
    let bytes := (List.range t.input_length).map (fun i => rx i % 256)
    { w with
      g_input := if t.input = InputDest.g_input then w.g_input.store bytes else w.g_input,
      trace := if t.input = InputDest.null then w.trace
               else w.trace ++ [Effect.spiReceived t.input bytes] }

/-- Modelled from the spec: one whole bus transfer of the transaction queue
of spi.c (not among the sources): `SPI_Receive`, then the handler gets
`SPI_COMPLETE_TRANSFER`.  `q` is the queue's answer if that handler queues the
next transfer.  With nothing pending there is nothing to complete. -/
def SPI_Complete (w : World) (rx : Nat → Nat) (q : Bool) : World :=
  match w.spi_queue with
  | [] => w
  | _ :: _ => Flash_SPIComplete (SPI_Receive w rx) SPIEventType.SPI_COMPLETE_TRANSFER q

/-- Run the bus: one completion per element, each with the bytes the device
answers and the queue's answer to the transfer queued from that completion. -/
def runBus (w : World) (rs : List ((Nat → Nat) × Bool)) : World :=
  rs.foldl (fun w r => SPI_Complete w r.1 r.2) w

/-- The zero-initialised statics of flash.c at program start. -/
def initialWorld : World :=
  { g_flash_state :=
      { ce_port := 0, ce_bit := 0, wp_port := 0, wp_bit := 0, hold_port := 0, hold_bit := 0,
        flash_sectors := 0, is_unlocked := false, action := Action.ACTION_IDLE,
        callback := none, sector := 0, data := fun _ => 0, data_size := 0 },
    cmd_buffer := { b0 := 0, b1 := 0, b2 := 0, b3 := 0, b4 := 0, b5 := 0 },
    g_input := { i0 := 0, i1 := 0, i2 := 0, i3 := 0 },
    spi_queue := [],
    trace := [] }

/-- A board wiring used for concrete runs. -/
def sampleSettings : FlashHardwareSettings :=
  { ce_port := 1, ce_bit := 2, hold_port := 3, hold_bit := 4, wp_port := 5, wp_bit := 6 }

/-- The transfers the bus accepted, in order. -/
def queuedTransfers (tr : List Effect) : List Transfer :=
  tr.filterMap (fun e => match e with
    | Effect.spiQueue t true => some t
    | _ => none)

/-- The transfers handed to `SPI_QueueTransfer`, accepted or not, in order. -/
def attemptedTransfers (tr : List Effect) : List Transfer :=
  tr.filterMap (fun e => match e with
    | Effect.spiQueue t _ => some t
    | _ => none)

/-- The callback invocations, in order. -/
def callbacksRun (tr : List Effect) : List (Nat × Bool) :=
  tr.filterMap (fun e => match e with
    | Effect.callback cb ok => some (cb, ok)
    | _ => none)

/-! ## Concrete runs -/

/-- The state right after `Flash_Initialize` at program start. -/
def sampleInit : World := Flash_Initialize initialWorld sampleSettings

/-- A device answer whose every byte is `b`. -/
def reply (b : Nat) : Nat → Nat := fun _ => b

/-- Caller data 0x11, 0x22, 0x33 (0xFF beyond). -/
def sampleData : Nat → Nat := fun i => [0x11, 0x22, 0x33].getD i 0xFF

/-- An accepted write to sector 3 after initialisation, run until the status
byte `u` that ends the unlock sub-protocol has been received and its
completion handler is about to run. -/
def sampleUnlockStatus (u : Nat) : World :=
  SPI_Receive
    (runBus (Flash_Write sampleInit 3 sampleData 3 (some 9) true).2
      [(reply 0, true), (reply 0, true)])
    (reply u)

/-- The same write with the unlock passed, run until the status byte `e` of
the first erase poll has been received and its completion handler is about to
run. -/
def sampleErasePoll (e : Nat) : World :=
  SPI_Receive
    (runBus (Flash_Write sampleInit 3 sampleData 3 (some 9) true).2
      [(reply 0, true), (reply 0, true), (reply 0, true), (reply 0, true), (reply 0, true)])
    (reply e)

/-- The same write with the erase finished, run until the status byte `p` of
the first program poll has been received and its completion handler is about
to run. -/
def sampleProgramPoll (p : Nat) : World :=
  SPI_Receive
    (runBus (Flash_Write sampleInit 3 sampleData 3 (some 9) true).2
      [(reply 0, true), (reply 0, true), (reply 0, true), (reply 0, true), (reply 0, true),
       (reply 0, true), (reply 0, true), (reply 0, true)])
    (reply p)

/-- A state that is Idle and unlocked: after one complete write. -/
def sampleUnlocked : World :=
  runBus (Flash_Write sampleInit 3 sampleData 3 (some 9) true).2
    [(reply 0, true), (reply 0, true), (reply 0, true), (reply 0, true), (reply 0, true),
     (reply 0, true), (reply 0, true), (reply 0, true), (reply 0, true), (reply 0, true)]

/-- The status read [0x05] into `g_input`. -/
def statusRead : Transfer :=
  { output := [0x05], input := InputDest.g_input, input_length := 1 }

/-- A command transfer that reads nothing back. -/
def command (bytes : List Nat) : Transfer :=
  { output := bytes, input := InputDest.null, input_length := 0 }

/-- The answers of a device during one write with unlock, the queue accepting
every transfer: unlock status `u`, erase polls `es` then `e`, program polls
`ps` then `p`; transfers that read nothing are answered with zeros. -/
def writeBusAnswers (u : Nat) (es : List Nat) (e : Nat) (ps : List Nat) (p : Nat) :
    List ((Nat → Nat) × Bool) :=
  [(reply 0, true), (reply 0, true), (reply u, true), (reply 0, true), (reply 0, true)]
    ++ es.map (fun x => (reply x, true))
    ++ [(reply e, true), (reply 0, true), (reply 0, true)]
    ++ ps.map (fun x => (reply x, true))
    ++ [(reply p, true), (reply 0, true)]

/-- The transfer sequence of claim C5 for a write with unlock: `nErase` and
`nProgram` are the numbers of status polls of the two phases. -/
def writeTransfers (sector d0 d1 nErase nProgram : Nat) : List Transfer :=
  [command [0x50], command [0x01, 0x00], statusRead, command [0x06],
   command [0x20, UInt32Byte1 (sector * 4096), UInt32Byte2 (sector * 4096),
            UInt32Byte3 (sector * 4096)]]
    ++ List.replicate nErase statusRead
    ++ [command [0x06],
        command [0xAD, UInt32Byte1 (sector * 4096), UInt32Byte2 (sector * 4096),
                 UInt32Byte3 (sector * 4096), d0, d1]]
    ++ List.replicate nProgram statusRead
    ++ [command [0x04]]

/-! ## A serial flash on the bus -/

/-- Modelled from the spec: the serial flash device of the round-trip
property, which "executes the issued bus transfers (erase sets the sector to
0xFF, program stores the bytes carried by the program command, read returns
the stored bytes)".  `mem` is the byte at each address, `status` the status
register (never busy: every operation finishes at once), `wel` the
write-enable latch and `ewsr` the status-register write enable. -/
structure FlashDevice where
  mem : Nat → Nat
  status : Nat
  wel : Bool
  ewsr : Bool

/-- The address carried by three big-endian address bytes. -/
def deviceAddress (a1 a2 a3 : Nat) : Nat := a1 * 65536 + a2 * 256 + a3

/-- Modelled from the spec: what the serial flash does with one transfer and
the bytes it answers.  Status-register write 0x01 needs a preceding 0x50;
erase 0x20 and program 0xAD need the write-enable latch and clear
block-protect bits; erase sets the 4096-byte sector of the address to 0xFF
and drops the latch; program stores the two data bytes of the command at the
address; read 0x03 answers the stored bytes from the address on. -/
def FlashDevice.exec (d : FlashDevice) (t : Transfer) : FlashDevice × (Nat → Nat) :=
  match t.output with
  | [op] =>
    if op = OP_ENABLE_WRITE_STATUS_REGISTER then ({ d with ewsr := true }, reply 0)
    else if op = OP_STATUS_READ then (d, reply d.status)
    else if op = OP_WRITE_ENABLE then ({ d with wel := true }, reply 0)
    else if op = OP_WRITE_DISABLE then ({ d with wel := false }, reply 0)
    else (d, reply 0)
  | [op, v] =>
    if op = OP_WRITE_STATUS_REGISTER ∧ d.ewsr = true then
      ({ d with status := v, ewsr := false }, reply 0)
    else (d, reply 0)
  | [op, a1, a2, a3] =>
    if op = OP_READ then (d, fun i => d.mem (deviceAddress a1 a2 a3 + i))
    else if op = OP_SECTOR_ERASE ∧ d.wel = true ∧ d.status &&& 0x0C = 0 then
      ({ d with
          mem := fun x => if x / 4096 = deviceAddress a1 a2 a3 / 4096 then 0xFF else d.mem x,
          wel := false }, reply 0)
    else (d, reply 0)
  | [op, a1, a2, a3, d0, d1] =>
    if op = OP_AUTO_INCREMENT_WRITE ∧ d.wel = true ∧ d.status &&& 0x0C = 0 then
      ({ d with
          mem := fun x =>
            if x = deviceAddress a1 a2 a3 then d0
            else if x = deviceAddress a1 a2 a3 + 1 then d1
            else d.mem x }, reply 0)
    else (d, reply 0)
  | _ => (d, reply 0)

/-- The sequencer together with the serial flash on its bus. -/
structure System where
  w : World
  dev : FlashDevice

/-- The device executes the oldest pending transfer and the bus completes it;
the queue accepts whatever the completion handler queues next. -/
def System.step (s : System) : System :=
  match s.w.spi_queue with
  | [] => s
  | t :: _ => { w := SPI_Complete s.w (s.dev.exec t).2 true, dev := (s.dev.exec t).1 }

/-- Run the system until nothing is pending on the bus (at most `fuel`
transfers). -/
def System.run (s : System) (fuel : Nat) : System :=
  match fuel with
  | 0 => s
  | n + 1 => if s.w.spi_queue = [] then s else System.run (System.step s) n

/-- The last bytes the bus stored into the caller buffer at `ptr`. -/
def callerBuffer (tr : List Effect) (ptr : Nat) : Option (List Nat) :=
  (tr.filterMap (fun e => match e with
    | Effect.spiReceived (InputDest.caller p) bytes => if p = ptr then some bytes else none
    | _ => none)).getLast?

/-- A powered-up device: memory zero, block-protect bits set. -/
def sampleDevice : FlashDevice :=
  { mem := fun _ => 0, status := 0x0C, wel := false, ewsr := false }

/-- The caller array `data` seen from its pointer (zero beyond its end). -/
def arrayView (data : List Nat) : Nat → Nat := fun i => data.getD i 0

/-- The round trip of the spec: after initialisation, `Flash_Write(sector,
data, size, 1)` with size the length of `data`, run to completion against the
device, then `Flash_Read(sector, buf, size, 2)` into the buffer at 100, run to
completion.  The result is: both calls accepted, the sequencer Idle after
each, and the bytes left in the buffer. -/
def roundTrip (sector : Nat) (data : List Nat) : Bool × Bool × Option (List Nat) :=
  let wr := Flash_Write sampleInit sector (arrayView data) data.length (some 1) true
  let s1 := System.run { w := wr.2, dev := sampleDevice } 64
  let rd := Flash_Read s1.w sector 100 data.length (some 2) true
  let s2 := System.run { w := rd.2, dev := s1.dev } 64
  (wr.1 && decide (s1.w.g_flash_state.action = Action.ACTION_IDLE),
   rd.1 && decide (s2.w.g_flash_state.action = Action.ACTION_IDLE),
   callerBuffer s2.w.trace 100)

/-- An accepted write to sector 3 after initialisation whose program command
is rejected by the queue: six completions are answered and accepted, and the
transfer queued from the seventh (the write-enable of the program phase) is
refused. -/
def sampleProgramRejected : World :=
  runBus (Flash_Write sampleInit 3 sampleData 3 (some 9) true).2
    [(reply 0, true), (reply 0, true), (reply 0, true), (reply 0, true), (reply 0, true),
     (reply 0, true), (reply 0, false)]

/-! # USB transport (`firmware/src/usb_transport.c`)

The globals `g_usb_transport_data`, `receivedDataBuffer`, `transmitDataBuffer`
and `g_status_response` become fields of one `USBWorld` record; calls into
the USB device stack, the board support package, the boot options and the
reset module are appended to `USBWorld.trace`.  A byte buffer is the view of
memory from its first byte: `buf i` is the C expression `buf[i]`, also beyond
the end of the array.  Constants of headers that are not among the sources
are the fields of a `TransportConstants` record that every function takes. -/

/-- Constants and macros of headers that are not among the sources
(constants.h, transport.h, dfu_spec.h, dfu_properties.h, bootloader_options.h,
system_pipeline.h); `PIPELINE_TRANSPORT_RX` says whether that macro is
defined. -/
structure TransportConstants where
  START_OF_MESSAGE_ID : Nat
  END_OF_MESSAGE_ID : Nat
  PAYLOAD_SIZE : Nat
  USB_READ_BUFFER_SIZE : Nat
  TRANSPORT_FLAGS_CHANGED : Nat
  TRANSPORT_MSG_TRUNCATED : Nat
  DFU_DETATCH : Nat
  DFU_GETSTATUS : Nat
  RUNTIME_MODE_DFU_INTERFACE_INDEX : Nat
  GET_STATUS_RESPONSE_SIZE : Nat
  DFU_STATUS_OK : Nat
  APP_STATE_IDLE : Nat
  BOOT_BOOTLOADER : Nat
  PIPELINE_TRANSPORT_RX : Bool

/-! ## Values of the USB device stack (USB 2.0 chapter 9) -/

def USB_SETUP_REQUEST_TYPE_STANDARD : Nat := 0
def USB_SETUP_REQUEST_TYPE_CLASS : Nat := 1
def USB_SETUP_REQUEST_TYPE_VENDOR : Nat := 2
def USB_SETUP_REQUEST_RECIPIENT_DEVICE : Nat := 0
def USB_SETUP_REQUEST_RECIPIENT_INTERFACE : Nat := 1
def USB_SETUP_REQUEST_RECIPIENT_ENDPOINT : Nat := 2
def USB_SETUP_REQUEST_DIRECTION_HOST_TO_DEVICE : Nat := 0
def USB_SETUP_REQUEST_DIRECTION_DEVICE_TO_HOST : Nat := 1
def USB_REQUEST_GET_INTERFACE : Nat := 10
def USB_REQUEST_SET_INTERFACE : Nat := 11

/-- The invalid device handle, `(USB_DEVICE_HANDLE)(-1)`. -/
def USB_DEVICE_HANDLE_INVALID : Nat := 2 ^ 32 - 1

/-- The board LEDs toggled by the transport. -/
def BSP_LED_2 : Nat := 2
def BSP_LED_3 : Nat := 3

/-- The `USBTransportState` enum. -/
inductive USBTransportState where
  | USB_STATE_INIT
  | USB_STATE_WAIT_FOR_CONFIGURATION
  | USB_STATE_MAIN_TASK
  | USB_STATE_ERROR
  deriving DecidableEq, Repr

/-- The bus speed the stack reports. -/
inductive USB_SPEED where
  | USB_SPEED_ERROR
  | USB_SPEED_HIGH
  | USB_SPEED_FULL
  | USB_SPEED_LOW
  deriving DecidableEq, Repr

/-- The argument of `USB_DEVICE_ControlStatus`. -/
inductive USB_DEVICE_CONTROL_STATUS where
  | USB_DEVICE_CONTROL_STATUS_OK
  | USB_DEVICE_CONTROL_STATUS_ERROR
  deriving DecidableEq, Repr

/-- The endpoint transfer types; the transport only uses bulk. -/
inductive USB_TRANSFER_TYPE where
  | USB_TRANSFER_TYPE_CONTROL
  | USB_TRANSFER_TYPE_ISOCHRONOUS
  | USB_TRANSFER_TYPE_BULK
  | USB_TRANSFER_TYPE_INTERRUPT
  deriving DecidableEq, Repr

/-- The fields of a setup packet the handler reads. -/
structure USB_SETUP_PACKET where
  RequestType : Nat
  Recipient : Nat
  DataDir : Nat
  bRequest : Nat
  wIndex : Nat
  wLength : Nat
  deriving DecidableEq, Repr

/-- A device event together with the event data the handler reads for it: the
configuration value of `CONFIGURED`, the setup packet of a setup request.
`OTHER` is any event the handler has no case for. -/
inductive USB_DEVICE_EVENT where
  | USB_DEVICE_EVENT_RESET
  | USB_DEVICE_EVENT_DECONFIGURED
  | USB_DEVICE_EVENT_CONFIGURED (configurationValue : Nat)
  | USB_DEVICE_EVENT_SUSPENDED
  | USB_DEVICE_EVENT_POWER_DETECTED
  | USB_DEVICE_EVENT_POWER_REMOVED
  | USB_DEVICE_EVENT_CONTROL_TRANSFER_SETUP_REQUEST (setup_packet : USB_SETUP_PACKET)
  | USB_DEVICE_EVENT_ENDPOINT_READ_COMPLETE
  | USB_DEVICE_EVENT_ENDPOINT_WRITE_COMPLETE
  | USB_DEVICE_EVENT_CONTROL_TRANSFER_DATA_RECEIVED
  | USB_DEVICE_EVENT_CONTROL_TRANSFER_DATA_SENT
  | USB_DEVICE_EVENT_CONTROL_TRANSFER_ABORTED
  | USB_DEVICE_EVENT_RESUMED
  | USB_DEVICE_EVENT_ERROR
  | OTHER
  deriving DecidableEq, Repr

/-- The `USBTransportData` struct (`g_usb_transport_data`). -/
structure USBTransportData where
  rx_cb : Option Nat
  usb_device : Nat
  state : USBTransportState
  is_configured : Bool
  tx_data_pending : Nat
  tx_in_progress : Bool
  rx_in_progress : Bool
  dfu_detach : Bool
  tx_endpoint : Nat
  rx_endpoint : Nat
  altSetting : Nat
  rx_data_size : Nat
  deriving DecidableEq, Repr

/-- What the transport does to the outside, in order.  A control send is
logged with the bytes it sends, a delivery with the length it passes.  The
effect `fault` is a call through a NULL function pointer: the program does not
run on from there. -/
inductive USBEffect where
  | deviceOpen
  | eventHandlerSet (handle : Nat)
  | attach (handle : Nat)
  | detach (handle : Nat)
  | controlStatus (handle : Nat) (status : USB_DEVICE_CONTROL_STATUS)
  | controlSend (handle : Nat) (bytes : List Nat)
  | controlReceive (handle : Nat) (length : Nat)
  | endpointEnable (handle : Nat) (endpoint : Nat) (type : USB_TRANSFER_TYPE) (size : Nat)
  | endpointDisable (handle : Nat) (endpoint : Nat)
  | setBootOption (option : Nat)
  | softReset
  | rxCallback (cb : Option Nat) (size : Nat)
  | pipelineRx (size : Nat)
  | ledToggle (led : Nat)
  | fault
  deriving DecidableEq, Repr

/-- The globals of usb_transport.c and the log of effects. -/
structure USBWorld where
  g_usb_transport_data : USBTransportData
  receivedDataBuffer : Nat → Nat
  transmitDataBuffer : Nat → Nat
  g_status_response : Nat → Nat
  trace : List USBEffect

/-- What the collaborators answer during one call of `USBTransport_Tasks`:
the handle `USB_DEVICE_Open` returns, the active speed, whether the stack
reports the receive and the transmit endpoint as enabled, and whether
`Reset_SoftReset` returns to its caller (on the device it resets the
processor and does not). -/
structure USBStackAnswers where
  open_handle : Nat
  speed : USB_SPEED
  rx_endpoint_enabled : Bool
  tx_endpoint_enabled : Bool
  reset_returns : Bool

/-- An entry of the `IOVec` array of transport.h: a base pointer and a 32-bit
unsigned length. -/
structure IOVec where
  base : Nat → Nat
  length : Nat

/-- Modelled from the spec: `ShortLSB` of utils.h (not among the sources), the
low byte of a "little-endian 16-bit" value. -/
def ShortLSB (s : Nat) : Nat := s % 256

/-- Modelled from the spec: `ShortMSB` of utils.h (not among the sources), the
high byte of a "little-endian 16-bit" value. -/
def ShortMSB (s : Nat) : Nat := s / 256 % 256

/-- Append one effect to the log. -/
def USBWorld.emit (w : USBWorld) (e : USBEffect) : USBWorld :=
  { w with trace := w.trace ++ [e] }

/-- The assignment `buf[i] = v` to a byte buffer. -/
def setByte (buf : Nat → Nat) (i v : Nat) : Nat → Nat :=
  fun j => if j = i then v % 256 else buf j

/-- The call `memcpy(dst + start, src, n)`. -/
def memcpy (dst : Nat → Nat) (start : Nat) (src : Nat → Nat) (n : Nat) : Nat → Nat :=
  fun j => if start ≤ j ∧ j < start + n then src (j - start) else dst j

/-- The first `n` bytes of a buffer. -/
def bufferBytes (buf : Nat → Nat) (n : Nat) : List Nat :=
  (List.range n).map buf

/-! ## Functions of usb_transport.c -/

def DFUGetStatus (k : TransportConstants) (w : USBWorld) : USBWorld :=
  let r := setByte w.g_status_response 0 k.DFU_STATUS_OK
  let r := setByte r 1 0
  let r := setByte r 2 0
  let r := setByte r 3 0
  let r := setByte r 4 k.APP_STATE_IDLE
  let r := setByte r 5 0
  let w := { w with g_status_response := r }
  w.emit (USBEffect.controlSend w.g_usb_transport_data.usb_device
    (bufferBytes w.g_status_response k.GET_STATUS_RESPONSE_SIZE))

def USBTransport_EventHandler (k : TransportConstants) (w : USBWorld)
    (event : USB_DEVICE_EVENT) : USBWorld :=
  match event with
  | USB_DEVICE_EVENT.USB_DEVICE_EVENT_RESET
  | USB_DEVICE_EVENT.USB_DEVICE_EVENT_DECONFIGURED =>
    { w with g_usb_transport_data := { w.g_usb_transport_data with is_configured := false } }
  | USB_DEVICE_EVENT.USB_DEVICE_EVENT_CONFIGURED configurationValue =>
    if configurationValue = 1 then
      { w with g_usb_transport_data := { w.g_usb_transport_data with is_configured := true } }
    else w
  | USB_DEVICE_EVENT.USB_DEVICE_EVENT_SUSPENDED => w
  | USB_DEVICE_EVENT.USB_DEVICE_EVENT_POWER_DETECTED =>
    w.emit (USBEffect.attach w.g_usb_transport_data.usb_device)
  | USB_DEVICE_EVENT.USB_DEVICE_EVENT_POWER_REMOVED =>
    w.emit (USBEffect.detach w.g_usb_transport_data.usb_device)
  | USB_DEVICE_EVENT.USB_DEVICE_EVENT_CONTROL_TRANSFER_SETUP_REQUEST setup_packet =>
    if setup_packet.RequestType = USB_SETUP_REQUEST_TYPE_CLASS ∧
        setup_packet.Recipient = USB_SETUP_REQUEST_RECIPIENT_INTERFACE ∧
        setup_packet.DataDir = USB_SETUP_REQUEST_DIRECTION_HOST_TO_DEVICE ∧
        setup_packet.bRequest = k.DFU_DETATCH ∧
        setup_packet.wIndex = k.RUNTIME_MODE_DFU_INTERFACE_INDEX then
      let w := { w with g_usb_transport_data := { w.g_usb_transport_data with dfu_detach := true } }
      w.emit (USBEffect.controlStatus w.g_usb_transport_data.usb_device
        USB_DEVICE_CONTROL_STATUS.USB_DEVICE_CONTROL_STATUS_OK)
    else if setup_packet.RequestType = USB_SETUP_REQUEST_TYPE_CLASS ∧
        setup_packet.Recipient = USB_SETUP_REQUEST_RECIPIENT_INTERFACE ∧
        setup_packet.DataDir = USB_SETUP_REQUEST_DIRECTION_DEVICE_TO_HOST ∧
        setup_packet.bRequest = k.DFU_GETSTATUS ∧
        setup_packet.wIndex = k.RUNTIME_MODE_DFU_INTERFACE_INDEX ∧
        setup_packet.wLength = k.GET_STATUS_RESPONSE_SIZE then
      DFUGetStatus k w
    else if setup_packet.bRequest = USB_REQUEST_SET_INTERFACE then
      w.emit (USBEffect.controlStatus w.g_usb_transport_data.usb_device
        USB_DEVICE_CONTROL_STATUS.USB_DEVICE_CONTROL_STATUS_OK)
    else if setup_packet.bRequest = USB_REQUEST_GET_INTERFACE then
      w.emit (USBEffect.controlSend w.g_usb_transport_data.usb_device
        [w.g_usb_transport_data.altSetting])
    else if setup_packet.bRequest = 0x20 then
      let w := { w with g_usb_transport_data :=
        { w.g_usb_transport_data with rx_data_size := setup_packet.wLength } }
      let w := { w with g_usb_transport_data :=
        { w.g_usb_transport_data with rx_in_progress := true } }
      w.emit (USBEffect.controlReceive w.g_usb_transport_data.usb_device setup_packet.wLength)
    else if setup_packet.bRequest = 0x21 then
      { w with g_usb_transport_data := { w.g_usb_transport_data with tx_in_progress := true } }
    else
      w.emit (USBEffect.controlStatus w.g_usb_transport_data.usb_device
        USB_DEVICE_CONTROL_STATUS.USB_DEVICE_CONTROL_STATUS_ERROR)
  | USB_DEVICE_EVENT.USB_DEVICE_EVENT_ENDPOINT_READ_COMPLETE => w
  | USB_DEVICE_EVENT.USB_DEVICE_EVENT_ENDPOINT_WRITE_COMPLETE => w
  | USB_DEVICE_EVENT.USB_DEVICE_EVENT_CONTROL_TRANSFER_DATA_RECEIVED =>
    let w := w.emit (USBEffect.ledToggle BSP_LED_2)
    let w := w.emit (USBEffect.controlStatus w.g_usb_transport_data.usb_device
      USB_DEVICE_CONTROL_STATUS.USB_DEVICE_CONTROL_STATUS_OK)
    { w with g_usb_transport_data := { w.g_usb_transport_data with rx_in_progress := false } }
  | USB_DEVICE_EVENT.USB_DEVICE_EVENT_CONTROL_TRANSFER_DATA_SENT =>
    { w with g_usb_transport_data := { w.g_usb_transport_data with tx_data_pending := 0 } }
  | USB_DEVICE_EVENT.USB_DEVICE_EVENT_CONTROL_TRANSFER_ABORTED =>
    { w with g_usb_transport_data := { w.g_usb_transport_data with tx_in_progress := false } }
  | USB_DEVICE_EVENT.USB_DEVICE_EVENT_RESUMED => w
  | USB_DEVICE_EVENT.USB_DEVICE_EVENT_ERROR => w
  | USB_DEVICE_EVENT.OTHER => w

def USBTransport_Initialize (w : USBWorld) (rx_cb : Option Nat) : USBWorld :=
  { w with g_usb_transport_data :=
    { rx_cb := rx_cb,
      state := USBTransportState.USB_STATE_INIT,
      usb_device := USB_DEVICE_HANDLE_INVALID,
      is_configured := false,
      rx_endpoint := 0x01,
      tx_endpoint := 0x81,
      rx_in_progress := false,
      tx_in_progress := false,
      tx_data_pending := 0,
      dfu_detach := false,
      altSetting := 0,
      rx_data_size := 0 } }

/-- The last part of the `USB_STATE_MAIN_TASK` case: a pending frame the host
has asked for is handed to `USB_DEVICE_ControlSend`. -/
def USBTransport_Tasks_send (w : USBWorld) : USBWorld :=
  if w.g_usb_transport_data.tx_in_progress = true ∧
      w.g_usb_transport_data.tx_data_pending ≠ 0 then
    let w := w.emit (USBEffect.controlSend w.g_usb_transport_data.usb_device
      (bufferBytes w.transmitDataBuffer w.g_usb_transport_data.tx_data_pending))
    { w with g_usb_transport_data := { w.g_usb_transport_data with tx_in_progress := false } }
  else w

/-- The body of the `USB_STATE_MAIN_TASK` case after the detach test.  The
call `g_usb_transport_data.rx_cb(receivedDataBuffer, rx_data_size)` is made
without a NULL test: with `rx_cb` NULL the call is logged and faults, and
nothing after it in the function runs. -/
def USBTransport_Tasks_main (k : TransportConstants) (w : USBWorld) : USBWorld :=
  if ¬ (w.g_usb_transport_data.is_configured = true) then
    let w := { w with g_usb_transport_data :=
      { w.g_usb_transport_data with state := USBTransportState.USB_STATE_WAIT_FOR_CONFIGURATION } }
    let w := w.emit (USBEffect.endpointDisable w.g_usb_transport_data.usb_device
      w.g_usb_transport_data.rx_endpoint)
    let w := w.emit (USBEffect.endpointDisable w.g_usb_transport_data.usb_device
      w.g_usb_transport_data.tx_endpoint)
    { w with g_usb_transport_data := { w.g_usb_transport_data with rx_in_progress := false } }
  else if w.g_usb_transport_data.rx_in_progress = false then
    if w.g_usb_transport_data.rx_in_progress = false ∧
        w.g_usb_transport_data.rx_data_size ≠ 0 then
      if k.PIPELINE_TRANSPORT_RX then
        let w := w.emit (USBEffect.pipelineRx w.g_usb_transport_data.rx_data_size)
        let w := { w with g_usb_transport_data :=
          { w.g_usb_transport_data with rx_data_size := 0 } }
        USBTransport_Tasks_send w
      else
        let w := w.emit (USBEffect.rxCallback w.g_usb_transport_data.rx_cb
          w.g_usb_transport_data.rx_data_size)
        match w.g_usb_transport_data.rx_cb with
        | none => w.emit USBEffect.fault
        | some _ =>
          let w := { w with g_usb_transport_data :=
            { w.g_usb_transport_data with rx_data_size := 0 } }
          USBTransport_Tasks_send w
    else USBTransport_Tasks_send w
  else w

/-- The function `USBTransport_Tasks`.  In the main task a requested detach
calls `BootloaderOptions_SetBootOption(BOOT_BOOTLOADER)` and
`Reset_SoftReset()`; the rest of the case runs only if the reset returns. -/
def USBTransport_Tasks (k : TransportConstants) (w : USBWorld) (a : USBStackAnswers) :
    USBWorld :=
  match w.g_usb_transport_data.state with
  | USBTransportState.USB_STATE_INIT =>
    let w := w.emit USBEffect.deviceOpen
    let w := { w with g_usb_transport_data :=
      { w.g_usb_transport_data with usb_device := a.open_handle } }
    if w.g_usb_transport_data.usb_device ≠ USB_DEVICE_HANDLE_INVALID then
      let w := w.emit (USBEffect.eventHandlerSet w.g_usb_transport_data.usb_device)
      { w with g_usb_transport_data :=
        { w.g_usb_transport_data with state := USBTransportState.USB_STATE_WAIT_FOR_CONFIGURATION } }
    else w
  | USBTransportState.USB_STATE_WAIT_FOR_CONFIGURATION =>
    if w.g_usb_transport_data.is_configured = true then
      let endpointSize : Nat :=
        if a.speed = USB_SPEED.USB_SPEED_FULL then 64
        else if a.speed = USB_SPEED.USB_SPEED_HIGH then 512
        else 64
      let w :=
        if a.rx_endpoint_enabled = false then
          w.emit (USBEffect.endpointEnable w.g_usb_transport_data.usb_device
            w.g_usb_transport_data.rx_endpoint USB_TRANSFER_TYPE.USB_TRANSFER_TYPE_BULK endpointSize)
        else w
      let w :=
        if a.tx_endpoint_enabled = false then
          w.emit (USBEffect.endpointEnable w.g_usb_transport_data.usb_device
            w.g_usb_transport_data.tx_endpoint USB_TRANSFER_TYPE.USB_TRANSFER_TYPE_BULK endpointSize)
        else w
      { w with g_usb_transport_data :=
        { w.g_usb_transport_data with state := USBTransportState.USB_STATE_MAIN_TASK } }
    else w
  | USBTransportState.USB_STATE_MAIN_TASK =>
    if w.g_usb_transport_data.dfu_detach = true then
      let w := w.emit (USBEffect.setBootOption k.BOOT_BOOTLOADER)
      let w := w.emit USBEffect.softReset
      if a.reset_returns then USBTransport_Tasks_main k w else w
    else
      USBTransport_Tasks_main k w
  | USBTransportState.USB_STATE_ERROR => w

/-- The payload assembly loop of `USBTransport_SendResponse` over the entries
`data[i]`, from the buffer and `offset` reached so far: the result is the
buffer and `offset` after the loop.  `offset + data[i].length` is a 32-bit
unsigned sum, `offset` a `uint16_t`, and `PAYLOAD_SIZE - offset` is converted
to the `size_t` length of `memcpy`. -/
def assembleParts (k : TransportConstants) (buf : Nat → Nat) (offset : Nat) :
    List IOVec → (Nat → Nat) × Nat
  | [] => (buf, offset)
  | d :: rest =>
    if (offset + d.length) % 2 ^ 32 > k.PAYLOAD_SIZE then
      let buf := memcpy buf (offset + 8) d.base ((k.PAYLOAD_SIZE + 2 ^ 32 - offset) % 2 ^ 32)
      let offset := k.PAYLOAD_SIZE % 2 ^ 16
      let buf := setByte buf 7 (buf 7 ||| k.TRANSPORT_MSG_TRUNCATED)
      (buf, offset)
    else
      assembleParts k (memcpy buf (offset + 8) d.base d.length)
        ((offset + d.length) % 2 ^ 16) rest

/-- The function `USBTransport_SendResponse`; `flags_changed` is what
`Flags_HasChanged()` answers. -/
def USBTransport_SendResponse (k : TransportConstants) (w : USBWorld)
    (token command rc : Nat) (data : List IOVec) (flags_changed : Bool) : Bool × USBWorld :=
  let w := w.emit (USBEffect.ledToggle BSP_LED_3)
  let buf := setByte w.transmitDataBuffer 0 k.START_OF_MESSAGE_ID
  let buf := setByte buf 1 token
  let buf := setByte buf 2 (ShortLSB command)
  let buf := setByte buf 3 (ShortMSB command)
  let buf := setByte buf 6 rc
  let buf := setByte buf 7 0
  let buf := if flags_changed then setByte buf 7 (buf 7 ||| k.TRANSPORT_FLAGS_CHANGED) else buf
  let r := assembleParts k buf 0 data
  let buf := r.1
  let offset := r.2
  let buf := setByte buf 4 (ShortLSB offset)
  let buf := setByte buf 5 (ShortMSB offset)
  let buf := setByte buf (8 + offset) k.END_OF_MESSAGE_ID
  let w := { w with
    transmitDataBuffer := buf,
    g_usb_transport_data := { w.g_usb_transport_data with tx_data_pending := (offset + 9) % 2 ^ 16 } }
  (true, w)

def USBTransport_WritePending (w : USBWorld) : Bool :=
  decide (w.g_usb_transport_data.tx_data_pending ≠ 0)

def USBTransport_GetHandle (w : USBWorld) : Nat :=
  w.g_usb_transport_data.usb_device

def USBTransport_IsConfigured (w : USBWorld) : Bool :=
  w.g_usb_transport_data.is_configured

def USBTransport_SoftReset (w : USBWorld) : USBWorld := w

/-! ## Concrete transport runs -/

/-- The zero-initialised statics of usb_transport.c at program start. -/
def initialUSBWorld : USBWorld :=
  { g_usb_transport_data :=
      { rx_cb := none, usb_device := 0, state := USBTransportState.USB_STATE_INIT,
        is_configured := false, tx_data_pending := 0, tx_in_progress := false,
        rx_in_progress := false, dfu_detach := false, tx_endpoint := 0, rx_endpoint := 0,
        altSetting := 0, rx_data_size := 0 },
    receivedDataBuffer := fun _ => 0,
    transmitDataBuffer := fun _ => 0,
    g_status_response := fun _ => 0,
    trace := [] }

/-- Sample values of the absent constants, used for concrete runs only. -/
def sampleConstants : TransportConstants :=
  { START_OF_MESSAGE_ID := 0x5a, END_OF_MESSAGE_ID := 0xa5, PAYLOAD_SIZE := 513,
    USB_READ_BUFFER_SIZE := 1024, TRANSPORT_FLAGS_CHANGED := 0x01,
    TRANSPORT_MSG_TRUNCATED := 0x02, DFU_DETATCH := 0, DFU_GETSTATUS := 3,
    RUNTIME_MODE_DFU_INTERFACE_INDEX := 1, GET_STATUS_RESPONSE_SIZE := 6, DFU_STATUS_OK := 0,
    APP_STATE_IDLE := 0, BOOT_BOOTLOADER := 1, PIPELINE_TRANSPORT_RX := false }

/-- The transport right after `USBTransport_Initialize` at program start. -/
def sampleUSBInit : USBWorld := USBTransport_Initialize initialUSBWorld (some 7)

/-- The bytes of a caller array seen from its pointer, as an `IOVec` of the
array's length. -/
def iovecOf (bytes : List Nat) : IOVec :=
  { base := arrayView bytes, length := bytes.length }

/-- The combined length of the parts. -/
def sumLengths : List IOVec → Nat
  | [] => 0
  | d :: ds => d.length + sumLengths ds

/-- The bytes of the parts, concatenated in order. -/
def partsBytes : List IOVec → List Nat
  | [] => []
  | d :: ds => bufferBytes d.base d.length ++ partsBytes ds

/-- The transmit buffer of `USBTransport_SendResponse` when the payload loop
starts: bytes 0 to 3 and 6 written, byte 7 cleared and then ORed with
`TRANSPORT_FLAGS_CHANGED` if the flags have changed. -/
def frameHeader (k : TransportConstants) (buf : Nat → Nat) (token command rc : Nat)
    (flags_changed : Bool) : Nat → Nat :=
  let buf := setByte buf 0 k.START_OF_MESSAGE_ID
  let buf := setByte buf 1 token
  let buf := setByte buf 2 (ShortLSB command)
  let buf := setByte buf 3 (ShortMSB command)
  let buf := setByte buf 6 rc
  let buf := setByte buf 7 0
  if flags_changed then setByte buf 7 (buf 7 ||| k.TRANSPORT_FLAGS_CHANGED) else buf

/-- The setup packet is the DFU detach request: a class request to an
interface recipient, host to device, with bRequest `DFU_DETATCH` and wIndex
`RUNTIME_MODE_DFU_INTERFACE_INDEX`. -/
def isDFUDetachRequest (k : TransportConstants) (p : USB_SETUP_PACKET) : Prop :=
  p.RequestType = USB_SETUP_REQUEST_TYPE_CLASS ∧
  p.Recipient = USB_SETUP_REQUEST_RECIPIENT_INTERFACE ∧
  p.DataDir = USB_SETUP_REQUEST_DIRECTION_HOST_TO_DEVICE ∧
  p.bRequest = k.DFU_DETATCH ∧
  p.wIndex = k.RUNTIME_MODE_DFU_INTERFACE_INDEX

instance (k : TransportConstants) (p : USB_SETUP_PACKET) : Decidable (isDFUDetachRequest k p) := by
  unfold isDFUDetachRequest; infer_instance

/-- The setup packet is the DFU get-status request: a class request to an
interface recipient, device to host, with bRequest `DFU_GETSTATUS`, wIndex
`RUNTIME_MODE_DFU_INTERFACE_INDEX` and wLength `GET_STATUS_RESPONSE_SIZE`. -/
def isDFUGetStatusRequest (k : TransportConstants) (p : USB_SETUP_PACKET) : Prop :=
  p.RequestType = USB_SETUP_REQUEST_TYPE_CLASS ∧
  p.Recipient = USB_SETUP_REQUEST_RECIPIENT_INTERFACE ∧
  p.DataDir = USB_SETUP_REQUEST_DIRECTION_DEVICE_TO_HOST ∧
  p.bRequest = k.DFU_GETSTATUS ∧
  p.wIndex = k.RUNTIME_MODE_DFU_INTERFACE_INDEX ∧
  p.wLength = k.GET_STATUS_RESPONSE_SIZE

instance (k : TransportConstants) (p : USB_SETUP_PACKET) :
    Decidable (isDFUGetStatusRequest k p) := by
  unfold isDFUGetStatusRequest; infer_instance

/-- The answers of a full-speed stack that opens with handle 1 and reports
both endpoints as not enabled; the soft reset does not return. -/
def sampleAnswers : USBStackAnswers :=
  { open_handle := 1, speed := USB_SPEED.USB_SPEED_FULL, rx_endpoint_enabled := false,
    tx_endpoint_enabled := false, reset_returns := false }

/-- The transport opened and waiting for configuration, the host having
configured the device: one task call and a `CONFIGURED` event after
initialisation. -/
def sampleUSBConfigured : USBWorld :=
  USBTransport_EventHandler sampleConstants
    (USBTransport_Tasks sampleConstants sampleUSBInit sampleAnswers)
    (USB_DEVICE_EVENT.USB_DEVICE_EVENT_CONFIGURED 1)

/-- The transport in its main task: one more task call. -/
def sampleUSBRunning : USBWorld :=
  USBTransport_Tasks sampleConstants sampleUSBConfigured sampleAnswers

/-- The running transport after the host deconfigured the device. -/
def sampleUSBDeconfigured : USBWorld :=
  USBTransport_EventHandler sampleConstants sampleUSBRunning
    USB_DEVICE_EVENT.USB_DEVICE_EVENT_DECONFIGURED

/-- The payload lengths delivered to the receive callback or the pipeline
hook, in order. -/
def deliveries (tr : List USBEffect) : List Nat :=
  tr.filterMap (fun e => match e with
    | USBEffect.rxCallback _ size => some size
    | USBEffect.pipelineRx size => some size
    | _ => none)

/-- The byte lists handed to `USB_DEVICE_ControlSend`, in order. -/
def controlSends (tr : List USBEffect) : List (List Nat) :=
  tr.filterMap (fun e => match e with
    | USBEffect.controlSend _ bytes => some bytes
    | _ => none)

/-- One step of a run of the transport: a task call with the answers of the
collaborators, a device event, or a call of `USBTransport_SendResponse`. -/
inductive USBStep where
  | tasks (a : USBStackAnswers)
  | event (ev : USB_DEVICE_EVENT)
  | sendResponse (token command rc : Nat) (data : List IOVec) (flags_changed : Bool)

/-- The world after one step. -/
def USBStep.apply (k : TransportConstants) (w : USBWorld) : USBStep → USBWorld
  | USBStep.tasks a => USBTransport_Tasks k w a
  | USBStep.event ev => USBTransport_EventHandler k w ev
  | USBStep.sendResponse token command rc data flags_changed =>
    (USBTransport_SendResponse k w token command rc data flags_changed).2

/-- A call through a NULL pointer is in the log: the program has stopped. -/
def faulted (tr : List USBEffect) : Bool :=
  tr.any (fun e => match e with
    | USBEffect.fault => true
    | _ => false)

/-- The world after a sequence of steps; no step runs after a fault. -/
def runUSB (k : TransportConstants) (w : USBWorld) : List USBStep → USBWorld
  | [] => w
  | s :: rest => if faulted w.trace then w else runUSB k (s.apply k w) rest

/-- The step is a setup request with bRequest 0x20. -/
def USBStep.isReceiveRequest : USBStep → Bool
  | USBStep.event (USB_DEVICE_EVENT.USB_DEVICE_EVENT_CONTROL_TRANSFER_SETUP_REQUEST p) =>
    decide (p.bRequest = 0x20)
  | _ => false

/-- A setup packet of the vendor request 0x20 with the given length. -/
def receiveRequest (wLength : Nat) : USB_SETUP_PACKET :=
  { RequestType := USB_SETUP_REQUEST_TYPE_VENDOR,
    Recipient := USB_SETUP_REQUEST_RECIPIENT_INTERFACE,
    DataDir := USB_SETUP_REQUEST_DIRECTION_HOST_TO_DEVICE,
    bRequest := 0x20, wIndex := 0, wLength := wLength }

/-- A setup packet of the vendor request 0x21. -/
def sendRequest : USB_SETUP_PACKET :=
  { RequestType := USB_SETUP_REQUEST_TYPE_VENDOR,
    Recipient := USB_SETUP_REQUEST_RECIPIENT_INTERFACE,
    DataDir := USB_SETUP_REQUEST_DIRECTION_DEVICE_TO_HOST,
    bRequest := 0x21, wIndex := 0, wLength := 0 }

/-- The DFU get-status setup packet for the sample constants. -/
def sampleGetStatus : USB_SETUP_PACKET :=
  { RequestType := USB_SETUP_REQUEST_TYPE_CLASS,
    Recipient := USB_SETUP_REQUEST_RECIPIENT_INTERFACE,
    DataDir := USB_SETUP_REQUEST_DIRECTION_DEVICE_TO_HOST,
    bRequest := 3, wIndex := 1, wLength := 6 }

/-- The running transport with a frame built and the host asking for it
(request 0x21), and then a host-to-device request 0x20 of 64 bytes whose data
has not arrived. -/
def sampleUSBSendWhileReceiving : USBWorld :=
  runUSB sampleConstants sampleUSBRunning
    [USBStep.sendResponse 5 0x1234 0 [iovecOf [0x41, 0x42]] false,
     USBStep.event (USB_DEVICE_EVENT.USB_DEVICE_EVENT_CONTROL_TRANSFER_SETUP_REQUEST sendRequest),
     USBStep.event
       (USB_DEVICE_EVENT.USB_DEVICE_EVENT_CONTROL_TRANSFER_SETUP_REQUEST (receiveRequest 64))]

/-- The running transport with a frame built and the host asking for it
(request 0x21), no receive in progress. -/
def sampleUSBSendPending : USBWorld :=
  runUSB sampleConstants sampleUSBRunning
    [USBStep.sendResponse 5 0x1234 0 [iovecOf [0x41, 0x42]] false,
     USBStep.event (USB_DEVICE_EVENT.USB_DEVICE_EVENT_CONTROL_TRANSFER_SETUP_REQUEST sendRequest)]

/-- The running transport after a request 0x20 of 64 bytes whose data has
arrived. -/
def sampleUSBReceived : USBWorld :=
  runUSB sampleConstants sampleUSBRunning
    [USBStep.event
       (USB_DEVICE_EVENT.USB_DEVICE_EVENT_CONTROL_TRANSFER_SETUP_REQUEST (receiveRequest 64)),
     USBStep.event USB_DEVICE_EVENT.USB_DEVICE_EVENT_CONTROL_TRANSFER_DATA_RECEIVED]

/-- The step is a control-transfer data-received event. -/
def USBStep.isDataReceived : USBStep → Bool
  | USBStep.event USB_DEVICE_EVENT.USB_DEVICE_EVENT_CONTROL_TRANSFER_DATA_RECEIVED => true
  | _ => false

/-- A run from initialisation: the device is opened and configured and the
main task entered; the host sends a request 0x20 of 64 bytes, then
deconfigures and reconfigures the device before any data has arrived, and the
task function is called three more times.  No data-received event occurs. -/
def sampleUSBReconfiguredRun : List USBStep :=
  [USBStep.tasks sampleAnswers,
   USBStep.event (USB_DEVICE_EVENT.USB_DEVICE_EVENT_CONFIGURED 1),
   USBStep.tasks sampleAnswers,
   USBStep.event
     (USB_DEVICE_EVENT.USB_DEVICE_EVENT_CONTROL_TRANSFER_SETUP_REQUEST (receiveRequest 64)),
   USBStep.event USB_DEVICE_EVENT.USB_DEVICE_EVENT_DECONFIGURED,
   USBStep.tasks sampleAnswers,
   USBStep.event (USB_DEVICE_EVENT.USB_DEVICE_EVENT_CONFIGURED 1),
   USBStep.tasks sampleAnswers,
   USBStep.tasks sampleAnswers]

/-! ## Runs of the flash sequencer -/

/-- One step of a run of the sequencer: a public call with the answer `q` of
the bus queue, or the completion of the oldest pending bus transfer with the
bytes `rx` the device answers and the queue's answer `q` to the transfer the
handler queues next. -/
inductive FlashStep where
  | read (sector input size : Nat) (callback : Option Nat) (q : Bool)
  | write (sector : Nat) (output : Nat → Nat) (size : Nat) (callback : Option Nat) (q : Bool)
  | readStatus (q : Bool)
  | readStatus1 (q : Bool)
  | complete (rx : Nat → Nat) (q : Bool)

/-- The world after one step. -/
def FlashStep.apply (w : World) : FlashStep → World
  | FlashStep.read sector input size callback q => (Flash_Read w sector input size callback q).2
  | FlashStep.write sector output size callback q =>
    (Flash_Write w sector output size callback q).2
  | FlashStep.readStatus q => (Flash_ReadStatus w q).2
  | FlashStep.readStatus1 q => (Flash_ReadStatus1 w q).2
  | FlashStep.complete rx q => SPI_Complete w rx q

/-- The world after a sequence of steps. -/
def runFlash (w : World) (steps : List FlashStep) : World :=
  steps.foldl FlashStep.apply w

/-- The world with other caller data and another data size stored for the
write in hand. -/
def withData (w : World) (d : Nat → Nat) (n : Nat) : World :=
  { w with g_flash_state := { w.g_flash_state with data := d, data_size := n } }

/-- Caller data 0x11, 0x22, 0x44, 0x55 (zero beyond): equal to `sampleData` in
the first two bytes only. -/
def sampleDataOther : Nat → Nat := fun i => [0x11, 0x22, 0x44, 0x55].getD i 0

/-- A run from initialisation: a read of sector 3 with callback 1 that the bus
queue rejects, then a write to sector 3 (callback argument 9) that the queue
accepts, run to its end against a device that is never busy. -/
def sampleRejectedReadThenWrite : List FlashStep :=
  [FlashStep.read 3 100 16 (some 1) false,
   FlashStep.write 3 sampleData 2 (some 9) true]
    ++ (writeBusAnswers 0 [] 0 [] 0).map (fun r => FlashStep.complete r.1 r.2)

/-! ## Theorems -/

/-! ### Lemmas -/

/-- Running the bus over two lists of answers is running it over the first and then the second. -/
theorem runBus_append (w : World) (a b : List ((Nat → Nat) × Bool)) :
    runBus w (a ++ b) = runBus (runBus w a) b := by
  simp [runBus, List.foldl_append]

/-- Running the bus starts with the completion of the oldest pending transfer. -/
theorem runBus_cons (w : World) (r : (Nat → Nat) × Bool) (rs : List ((Nat → Nat) × Bool)) :
    runBus w (r :: rs) = runBus (SPI_Complete w r.1 r.2) rs := rfl

/-- With no answer left the bus run stops. -/
theorem runBus_nil (w : World) : runBus w [] = w := rfl

/-- The accepted transfers of a log are those of its parts, in order. -/
theorem queuedTransfers_append (a b : List Effect) :
    queuedTransfers (a ++ b) = queuedTransfers a ++ queuedTransfers b := by
  simp [queuedTransfers, List.filterMap_append]

/-- The attempted transfers of a log are those of its parts, in order. -/
theorem attemptedTransfers_append (a b : List Effect) :
    attemptedTransfers (a ++ b) = attemptedTransfers a ++ attemptedTransfers b := by
  simp [attemptedTransfers, List.filterMap_append]

/-- The callback invocations of a log are those of its parts, in order. -/
theorem callbacksRun_append (a b : List Effect) :
    callbacksRun (a ++ b) = callbacksRun a ++ callbacksRun b := by
  simp [callbacksRun, List.filterMap_append]

/-- Busy polls: while status reads answer busy in the given action (Erase or
Write), each completion queues one more status read and changes nothing but
`g_input` and the log. -/
theorem poll_busy (a : Action) (haw : a = Action.ACTION_ERASE ∨ a = Action.ACTION_WRITE)
    (es : List Nat) (hes : ∀ e ∈ es, e < 256 ∧ e &&& 0x01 ≠ 0) (w : World)
    (ha : w.g_flash_state.action = a) (hc : w.cmd_buffer.b0 = OP_STATUS_READ)
    (hq : w.spi_queue = [statusRead]) :
    ∃ gi tr, runBus w (es.map (fun e => (reply e, true))) = { w with g_input := gi, trace := tr } ∧
      queuedTransfers tr = queuedTransfers w.trace ++ List.replicate es.length statusRead ∧
      attemptedTransfers tr = attemptedTransfers w.trace ++ List.replicate es.length statusRead ∧
      callbacksRun tr = callbacksRun w.trace := by
  induction es generalizing w with
  | nil => exact ⟨w.g_input, w.trace, by simp [runBus], by simp, by simp, rfl⟩
  | cons e es ih =>
    have he := hes e (List.mem_cons_self _ _)
    have hb : e % 2 = 1 := by
      have := he.2; rw [Nat.and_one_is_mod] at this; omega
    have hb' : e % 256 % 2 = 1 := by omega
    obtain ⟨gs, cb, gi, sq, tr⟩ := w
    obtain ⟨b0, b1, b2, b3, b4, b5⟩ := cb
    simp only at ha hc hq
    subst hc hq
    have hstep : SPI_Complete ⟨gs, ⟨OP_STATUS_READ, b1, b2, b3, b4, b5⟩, gi, [statusRead], tr⟩ (reply e) true
        = ⟨gs, ⟨OP_STATUS_READ, b1, b2, b3, b4, b5⟩, { gi with i0 := e % 256 }, [statusRead],
            tr ++ [Effect.pinClear gs.ce_port gs.ce_bit,
                   Effect.spiReceived InputDest.g_input [e % 256],
                   Effect.pinSet gs.ce_port gs.ce_bit,
                   Effect.spiQueue statusRead true]⟩ := by
      rcases haw with h | h <;> subst h <;>
      simp [SPI_Complete, SPI_Receive, Flash_SPIComplete, ChipEnable, ChipDisable,
        PLIB_PORTS_PinSet, PLIB_PORTS_PinClear, ha, hb', abortUnlessOk, SendReadStatus,
        SPI_QueueTransfer, CmdBuffer.toList, statusRead, reply, InputBuffer.store,
        OP_STATUS_READ, OP_WRITE_ENABLE, OP_SECTOR_ERASE, OP_ENABLE_SOFTWARE_EOW,
        OP_AUTO_INCREMENT_WRITE, OP_WRITE_DISABLE, OP_DISBLE_SOFTWARE_EOW, BUSY, List.range_succ]
    obtain ⟨gi2, tr2, h1, h2, h3, h4⟩ := ih (fun x hx => hes x (List.mem_cons_of_mem _ hx))
      ⟨gs, ⟨OP_STATUS_READ, b1, b2, b3, b4, b5⟩, { gi with i0 := e % 256 }, [statusRead],
            tr ++ [Effect.pinClear gs.ce_port gs.ce_bit,
                   Effect.spiReceived InputDest.g_input [e % 256],
                   Effect.pinSet gs.ce_port gs.ce_bit,
                   Effect.spiQueue statusRead true]⟩ ha rfl rfl
    refine ⟨gi2, tr2, ?_, ?_, ?_, ?_⟩
    · rw [List.map_cons, runBus_cons, hstep, h1]
    · rw [h2]; simp [queuedTransfers, List.filterMap_append, List.replicate_succ]
    · rw [h3]; simp [attemptedTransfers, List.filterMap_append, List.replicate_succ]
    · rw [h4]; simp [callbacksRun, List.filterMap_append]

/-- RunCallback leaves the pending transfers alone. -/
theorem RunCallback_spi_queue (w : World) (r : Bool) : (RunCallback w r).spi_queue = w.spi_queue := by
  unfold RunCallback; split <;> rfl

/-- The abort tail leaves the pending transfers alone. -/
theorem abortUnlessOk_spi_queue (r : Bool × World) : (abortUnlessOk r).spi_queue = r.2.spi_queue := by
  unfold abortUnlessOk; split
  · rfl
  · rw [RunCallback_spi_queue]; rfl

/-- One call of the queue adds at most one pending transfer. -/
theorem SPI_QueueTransfer_spi_queue (w : World) (n : Nat) (i : InputDest) (m : Nat) (q : Bool) :
    (SPI_QueueTransfer w n i m q).2.spi_queue = w.spi_queue ∨
    ∃ t, (SPI_QueueTransfer w n i m q).2.spi_queue = w.spi_queue ++ [t] := by
  cases q
  · left; rfl
  · right; exact ⟨_, rfl⟩

/-- The completion handler changes the pending transfers by appending at most
one. -/
theorem Flash_SPIComplete_queue (w : World) (ev : SPIEventType) (q : Bool) :
    (Flash_SPIComplete w ev q).spi_queue = w.spi_queue ∨
    ∃ t, (Flash_SPIComplete w ev q).spi_queue = w.spi_queue ++ [t] := by
  unfold Flash_SPIComplete
  split
  · left; rfl
  · dsimp only
    split
    · left; rw [RunCallback_spi_queue]; rfl
    · rw [abortUnlessOk_spi_queue]
      split_ifs <;>
        first
          | exact SPI_QueueTransfer_spi_queue _ _ _ _ _
          | (left; rfl)
    · rw [abortUnlessOk_spi_queue]
      split_ifs <;>
        first
          | exact SPI_QueueTransfer_spi_queue _ _ _ _ _
          | (left; rfl)
    · split_ifs <;>
        first
          | exact SPI_QueueTransfer_spi_queue _ _ _ _ _
          | (left; rfl)
          | (left; rw [RunCallback_spi_queue]; rfl)
    · left; rfl
    · left; rfl
    · left; rfl

/-- One bus completion never leaves more transfers pending than before. -/
theorem SPI_Complete_queue_le (w : World) (rx : Nat → Nat) (q : Bool) :
    (SPI_Complete w rx q).spi_queue.length ≤ w.spi_queue.length := by
  unfold SPI_Complete
  split
  · exact Nat.le_refl _
  · rename_i t rest hq
    have hr : (SPI_Receive w rx).spi_queue = rest := by
      simp [SPI_Receive, hq, Flash_SPIComplete, ChipEnable, PLIB_PORTS_PinClear]
    rcases Flash_SPIComplete_queue (SPI_Receive w rx) SPIEventType.SPI_COMPLETE_TRANSFER q with h | ⟨t2, h⟩
    · rw [h, hr, hq]; simp
    · rw [h, hr, hq]; simp

/-- Running the bus never leaves more transfers pending than at the start. -/
theorem runBus_queue_le (rs : List ((Nat → Nat) × Bool)) (w : World) :
    (runBus w rs).spi_queue.length ≤ w.spi_queue.length := by
  induction rs generalizing w with
  | nil => exact Nat.le_refl _
  | cons r rs ih =>
    rw [runBus_cons]
    exact Nat.le_trans (ih _) (SPI_Complete_queue_le w r.1 r.2)

/-- In the Unlock and Erase actions a completion whose queue request is
rejected always ends with the action Idle and no callback stored: the abort
the Write action lacks. -/
theorem unlock_erase_rejection_aborts (w : World)
    (h : w.g_flash_state.action = Action.ACTION_UNLOCK ∨
      w.g_flash_state.action = Action.ACTION_ERASE) :
    (Flash_SPIComplete w SPIEventType.SPI_COMPLETE_TRANSFER false).g_flash_state.action
      = Action.ACTION_IDLE ∧
    (Flash_SPIComplete w SPIEventType.SPI_COMPLETE_TRANSFER false).g_flash_state.callback
      = none := by
  have key : ∀ r : Bool × World, r.1 = false →
      (abortUnlessOk r).g_flash_state.action = Action.ACTION_IDLE ∧
      (abortUnlessOk r).g_flash_state.callback = none := by
    intro r hr
    cases hcb : r.2.g_flash_state.callback <;>
      simp [abortUnlessOk, hr, RunCallback, setAction, hcb]
  rcases h with h | h
  · simp only [Flash_SPIComplete, ChipDisable, PLIB_PORTS_PinSet, h, reduceCtorEq, if_false]
    apply key
    split_ifs <;> rfl
  · simp only [Flash_SPIComplete, ChipDisable, PLIB_PORTS_PinSet, h, reduceCtorEq, if_false]
    apply key
    split_ifs <;> rfl

/-- The assembly loop on parts that fit: `offset` advances by the combined
length, the parts' bytes land in order from index `offset + 8` on, and no
other byte of the buffer changes. -/
theorem assembleParts_fits (k : TransportConstants) (hP : k.PAYLOAD_SIZE < 2 ^ 16)
    (ds : List IOVec) (buf : Nat → Nat) (offset : Nat)
    (hfit : offset + sumLengths ds ≤ k.PAYLOAD_SIZE) :
    (assembleParts k buf offset ds).2 = offset + sumLengths ds ∧
    (∀ j, j < offset + 8 ∨ offset + 8 + sumLengths ds ≤ j →
      (assembleParts k buf offset ds).1 j = buf j) ∧
    bufferBytes (fun i => (assembleParts k buf offset ds).1 (offset + 8 + i)) (sumLengths ds)
      = partsBytes ds := by
  induction ds generalizing buf offset with
  | nil => simp [assembleParts, sumLengths, partsBytes, bufferBytes]
  | cons d ds ih =>
    simp only [sumLengths] at hfit
    have h32 : (offset + d.length) % 2 ^ 32 = offset + d.length := Nat.mod_eq_of_lt (by omega)
    have h16 : (offset + d.length) % 2 ^ 16 = offset + d.length := Nat.mod_eq_of_lt (by omega)
    have hle : ¬ (offset + d.length > k.PAYLOAD_SIZE) := by omega
    obtain ⟨ih1, ih2, ih3⟩ := ih (memcpy buf (offset + 8) d.base d.length) (offset + d.length)
      (by omega)
    simp only [assembleParts, h32, h16, hle, if_false, sumLengths, partsBytes]
    refine ⟨by rw [ih1]; omega, ?_, ?_⟩
    · intro j hj
      rw [ih2 j (by omega)]
      have : ¬ (offset + 8 ≤ j ∧ j < offset + 8 + d.length) := by omega
      simp [memcpy, this]
    · unfold bufferBytes at ih3 ⊢
      rw [List.range_add, List.map_append, List.map_map]
      congr 1
      · apply List.map_congr_left
        intro i hi
        have hi' : i < d.length := List.mem_range.mp hi
        show (assembleParts k (memcpy buf (offset + 8) d.base d.length) (offset + d.length) ds).1
          (offset + 8 + i) = d.base i
        rw [ih2 (offset + 8 + i) (by omega)]
        have : offset + 8 ≤ offset + 8 + i ∧ offset + 8 + i < offset + 8 + d.length := by omega
        simp [memcpy, this]
      · rw [← ih3]
        apply List.map_congr_left
        intro i _
        have e : offset + 8 + (d.length + i) = offset + d.length + 8 + i := by omega
        simp only [Function.comp, e]

/-- The offset of the assembly loop never exceeds PAYLOAD_SIZE, whatever the
lengths of the parts. -/
theorem assembleParts_offset_le (k : TransportConstants) (hP : k.PAYLOAD_SIZE < 2 ^ 16)
    (ds : List IOVec) (buf : Nat → Nat) (offset : Nat) (hoff : offset ≤ k.PAYLOAD_SIZE) :
    (assembleParts k buf offset ds).2 ≤ k.PAYLOAD_SIZE := by
  induction ds generalizing buf offset with
  | nil => simpa [assembleParts] using hoff
  | cons d ds ih =>
    unfold assembleParts
    split
    · show k.PAYLOAD_SIZE % 2 ^ 16 ≤ k.PAYLOAD_SIZE
      exact Nat.mod_le _ _
    · rename_i h
      apply ih
      have h1 : (offset + d.length) % 2 ^ 32 ≤ k.PAYLOAD_SIZE := by omega
      have h2 : (offset + d.length) % 2 ^ 16 ≤ (offset + d.length) % 2 ^ 32 := by omega
      omega

/-- The first `m` bytes of a buffer are the first `m` of its first `n`. -/
theorem bufferBytes_take (buf : Nat → Nat) (m n : Nat) (h : m ≤ n) :
    (bufferBytes buf n).take m = bufferBytes buf m := by
  unfold bufferBytes
  rw [← List.map_take, List.take_range, Nat.min_eq_left h]

theorem bufferBytes_length (buf : Nat → Nat) (n : Nat) : (bufferBytes buf n).length = n := by
  simp [bufferBytes]

/-- The assembly loop on parts that do not fit, none of them long enough to
wrap the 32-bit sum: `offset` ends at PAYLOAD_SIZE, the truncated bit is ORed
into byte 7, the bytes from `offset + 8` up to `8 + PAYLOAD_SIZE` are the
first bytes of the concatenated parts, and no other byte of the buffer
changes. -/
theorem assembleParts_truncates (k : TransportConstants) (hP : k.PAYLOAD_SIZE < 2 ^ 16)
    (ds : List IOVec) (buf : Nat → Nat) (offset : Nat) (hoff : offset ≤ k.PAYLOAD_SIZE)
    (hlen : ∀ d ∈ ds, d.length ≤ 2 ^ 32 - 2 ^ 16)
    (hover : k.PAYLOAD_SIZE < offset + sumLengths ds) :
    (assembleParts k buf offset ds).2 = k.PAYLOAD_SIZE ∧
    (assembleParts k buf offset ds).1 7 = (buf 7 ||| k.TRANSPORT_MSG_TRUNCATED) % 256 ∧
    (∀ j, j ≠ 7 → j < offset + 8 ∨ 8 + k.PAYLOAD_SIZE ≤ j →
      (assembleParts k buf offset ds).1 j = buf j) ∧
    bufferBytes (fun i => (assembleParts k buf offset ds).1 (offset + 8 + i))
        (k.PAYLOAD_SIZE - offset)
      = (partsBytes ds).take (k.PAYLOAD_SIZE - offset) := by
  induction ds generalizing buf offset with
  | nil => simp [sumLengths] at hover; omega
  | cons d ds ih =>
    have hd := hlen d (List.mem_cons_self _ _)
    have h32 : (offset + d.length) % 2 ^ 32 = offset + d.length := Nat.mod_eq_of_lt (by omega)
    simp only [sumLengths] at hover
    by_cases hc : offset + d.length > k.PAYLOAD_SIZE
    · have hn : (k.PAYLOAD_SIZE + 2 ^ 32 - offset) % 2 ^ 32 = k.PAYLOAD_SIZE - offset := by omega
      have hp : k.PAYLOAD_SIZE % 2 ^ 16 = k.PAYLOAD_SIZE := Nat.mod_eq_of_lt hP
      simp only [assembleParts, h32, hc, if_true, hn, hp, partsBytes]
      refine ⟨trivial, ?_, ?_, ?_⟩
      · have : ¬ (offset + 8 ≤ 7 ∧ 7 < offset + 8 + (k.PAYLOAD_SIZE - offset)) := by omega
        simp [setByte, memcpy, this]
      · intro j hj7 hj
        have : ¬ (offset + 8 ≤ j ∧ j < offset + 8 + (k.PAYLOAD_SIZE - offset)) := by omega
        simp [setByte, memcpy, this, hj7]
      · rw [List.take_append_of_le_length (by rw [bufferBytes_length]; omega),
          bufferBytes_take _ _ _ (by omega)]
        unfold bufferBytes
        apply List.map_congr_left
        intro i hi
        have hi' : i < k.PAYLOAD_SIZE - offset := List.mem_range.mp hi
        have e7 : ¬ (offset + 8 + i = 7) := by omega
        have hin : offset + 8 ≤ offset + 8 + i ∧
            offset + 8 + i < offset + 8 + (k.PAYLOAD_SIZE - offset) := by omega
        simp [setByte, memcpy, e7, hin]
    · have h16 : (offset + d.length) % 2 ^ 16 = offset + d.length := Nat.mod_eq_of_lt (by omega)
      obtain ⟨ih1, ih2, ih3, ih4⟩ := ih (memcpy buf (offset + 8) d.base d.length)
        (offset + d.length) (by omega) (fun x hx => hlen x (List.mem_cons_of_mem _ hx)) (by omega)
      simp only [assembleParts, h32, h16, hc, if_false, partsBytes]
      refine ⟨ih1, ?_, ?_, ?_⟩
      · rw [ih2]
        have : ¬ (offset + 8 ≤ 7 ∧ 7 < offset + 8 + d.length) := by omega
        simp [memcpy, this]
      · intro j hj7 hj
        rw [ih3 j hj7 (by omega)]
        have : ¬ (offset + 8 ≤ j ∧ j < offset + 8 + d.length) := by omega
        simp [memcpy, this]
      · rw [List.take_append_eq_append_take,
          List.take_of_length_le (by rw [bufferBytes_length]; omega), bufferBytes_length]
        have hsplit : k.PAYLOAD_SIZE - offset = d.length + (k.PAYLOAD_SIZE - (offset + d.length)) := by
          omega
        have hsub : k.PAYLOAD_SIZE - offset - d.length = k.PAYLOAD_SIZE - (offset + d.length) := by
          omega
        rw [hsub, ← ih4]
        conv_lhs => rw [hsplit]
        unfold bufferBytes
        rw [List.range_add, List.map_append, List.map_map]
        congr 1
        · apply List.map_congr_left
          intro i hi
          have hi' : i < d.length := List.mem_range.mp hi
          show (assembleParts k (memcpy buf (offset + 8) d.base d.length) (offset + d.length) ds).1
            (offset + 8 + i) = d.base i
          rw [ih3 (offset + 8 + i) (by omega) (by omega)]
          have : offset + 8 ≤ offset + 8 + i ∧ offset + 8 + i < offset + 8 + d.length := by omega
          simp [memcpy, this]
        · apply List.map_congr_left
          intro i _
          have e : offset + 8 + (d.length + i) = offset + d.length + 8 + i := by omega
          simp only [Function.comp, e]

/-- The response builder in terms of its three steps: header, payload loop,
length field and end marker. -/
theorem USBTransport_SendResponse_eq (k : TransportConstants) (w : USBWorld)
    (token command rc : Nat) (data : List IOVec) (flags_changed : Bool) :
    USBTransport_SendResponse k w token command rc data flags_changed =
      (true, { (w.emit (USBEffect.ledToggle BSP_LED_3)) with
        transmitDataBuffer :=
          setByte (setByte (setByte
            (assembleParts k (frameHeader k w.transmitDataBuffer token command rc flags_changed)
              0 data).1 4
            (ShortLSB (assembleParts k
              (frameHeader k w.transmitDataBuffer token command rc flags_changed) 0 data).2)) 5
            (ShortMSB (assembleParts k
              (frameHeader k w.transmitDataBuffer token command rc flags_changed) 0 data).2))
            (8 + (assembleParts k
              (frameHeader k w.transmitDataBuffer token command rc flags_changed) 0 data).2)
            k.END_OF_MESSAGE_ID,
        g_usb_transport_data :=
          { w.g_usb_transport_data with
            tx_data_pending := ((assembleParts k
              (frameHeader k w.transmitDataBuffer token command rc flags_changed) 0 data).2 + 9)
              % 2 ^ 16 } }) := rfl

/-- Byte 7 of the header is the flags-changed constant or zero. -/
theorem frameHeader_flags (k : TransportConstants) (buf : Nat → Nat) (token command rc : Nat)
    (flags_changed : Bool) :
    frameHeader k buf token command rc flags_changed 7
      = if flags_changed then k.TRANSPORT_FLAGS_CHANGED % 256 else 0 := by
  cases flags_changed <;> simp [frameHeader, setByte]

/-- Byte 7 of the built frame when no part is long enough to wrap the 32-bit
sum: the flags-changed constant if the flags have changed, ORed with the
truncated constant exactly if the combined length exceeds PAYLOAD_SIZE. -/
theorem flags_byte_without_wrap (k : TransportConstants) (w : USBWorld)
    (token command rc : Nat) (data : List IOVec) (flags_changed : Bool)
    (hP : k.PAYLOAD_SIZE + 9 < 2 ^ 16)
    (hlen : ∀ d ∈ data, d.length ≤ 2 ^ 32 - 2 ^ 16) :
    (USBTransport_SendResponse k w token command rc data flags_changed).2.transmitDataBuffer 7
      = if k.PAYLOAD_SIZE < sumLengths data then
          ((if flags_changed then k.TRANSPORT_FLAGS_CHANGED % 256 else 0)
            ||| k.TRANSPORT_MSG_TRUNCATED) % 256
        else
          (if flags_changed then k.TRANSPORT_FLAGS_CHANGED % 256 else 0) := by
  have hP16 : k.PAYLOAD_SIZE < 2 ^ 16 := by omega
  rw [USBTransport_SendResponse_eq]
  have e7 : ∀ n, ¬ (7 = 8 + n) := fun n => by omega
  simp only [setByte, e7, if_false, Nat.reduceEqDiff, USBWorld.emit]
  by_cases hover : k.PAYLOAD_SIZE < sumLengths data
  · obtain ⟨-, h7, -, -⟩ := assembleParts_truncates k hP16 data
      (frameHeader k w.transmitDataBuffer token command rc flags_changed) 0 (by omega) hlen
      (by omega)
    simp only [hover, if_true]
    rw [h7, frameHeader_flags]
  · obtain ⟨-, h7, -⟩ := assembleParts_fits k hP16 data
      (frameHeader k w.transmitDataBuffer token command rc flags_changed) 0 (by omega)
    simp only [hover, if_false]
    rw [h7 7 (by omega), frameHeader_flags]

/-- The built frame when the parts do not fit and no part is long enough to
wrap the 32-bit sum: the length field is PAYLOAD_SIZE, the payload is the
first PAYLOAD_SIZE bytes of the concatenated parts, the end marker is at index
8 + PAYLOAD_SIZE, and no byte beyond that index is written. -/
theorem truncated_frame_without_wrap (k : TransportConstants) (w : USBWorld)
    (token command rc : Nat) (data : List IOVec) (flags_changed : Bool)
    (hP : k.PAYLOAD_SIZE + 9 < 2 ^ 16)
    (hlen : ∀ d ∈ data, d.length ≤ 2 ^ 32 - 2 ^ 16)
    (hover : k.PAYLOAD_SIZE < sumLengths data) :
    (USBTransport_SendResponse k w token command rc data flags_changed).2.transmitDataBuffer 4
      = k.PAYLOAD_SIZE % 256 ∧
    (USBTransport_SendResponse k w token command rc data flags_changed).2.transmitDataBuffer 5
      = k.PAYLOAD_SIZE / 256 ∧
    bufferBytes
      (fun i => (USBTransport_SendResponse k w token command rc data
        flags_changed).2.transmitDataBuffer (8 + i)) k.PAYLOAD_SIZE
      = (partsBytes data).take k.PAYLOAD_SIZE ∧
    (USBTransport_SendResponse k w token command rc data flags_changed).2.transmitDataBuffer
        (8 + k.PAYLOAD_SIZE) = k.END_OF_MESSAGE_ID % 256 ∧
    (∀ j, 8 + k.PAYLOAD_SIZE < j →
      (USBTransport_SendResponse k w token command rc data flags_changed).2.transmitDataBuffer j
        = w.transmitDataBuffer j) ∧
    (USBTransport_SendResponse k w token command rc data
        flags_changed).2.g_usb_transport_data.tx_data_pending = 9 + k.PAYLOAD_SIZE := by
  have hP16 : k.PAYLOAD_SIZE < 2 ^ 16 := by omega
  obtain ⟨h1, -, h3, h4⟩ := assembleParts_truncates k hP16 data
    (frameHeader k w.transmitDataBuffer token command rc flags_changed) 0 (by omega) hlen
    (by omega)
  rw [USBTransport_SendResponse_eq]
  simp only [h1, USBWorld.emit]
  simp only [Nat.zero_add, Nat.sub_zero] at h3 h4
  refine ⟨?_, ?_, ?_, ?_, ?_, ?_⟩
  · have e : ¬ (4 = 8 + k.PAYLOAD_SIZE) := by omega
    simp [setByte, ShortLSB, e]
  · have e : ¬ (5 = 8 + k.PAYLOAD_SIZE) := by omega
    simp [setByte, ShortMSB, e]
    omega
  · rw [← h4]
    unfold bufferBytes
    apply List.map_congr_left
    intro i hi
    have hi' : i < k.PAYLOAD_SIZE := List.mem_range.mp hi
    have e1 : ¬ (8 + i = 8 + k.PAYLOAD_SIZE) := by omega
    have e2 : ¬ (8 + i = 5) := by omega
    have e3 : ¬ (8 + i = 4) := by omega
    simp [setByte, e1, e2, e3]
  · simp [setByte]
  · intro j hj
    have e1 : ¬ (j = 8 + k.PAYLOAD_SIZE) := by omega
    have e2 : ¬ (j = 5) := by omega
    have e3 : ¬ (j = 4) := by omega
    simp only [setByte, e1, e2, e3, if_false]
    rw [h3 j (by omega) (by omega)]
    have e0 : ¬ (j = 0) := by omega
    have e4 : ¬ (j = 1) := by omega
    have e5 : ¬ (j = 2) := by omega
    have e6 : ¬ (j = 3) := by omega
    have e7 : ¬ (j = 6) := by omega
    have e8 : ¬ (j = 7) := by omega
    cases flags_changed <;> simp [frameHeader, setByte, e0, e4, e5, e6, e7, e8]
  · show (k.PAYLOAD_SIZE + 9) % 2 ^ 16 = 9 + k.PAYLOAD_SIZE
    omega

theorem deliveries_append (a b : List USBEffect) :
    deliveries (a ++ b) = deliveries a ++ deliveries b := by
  simp [deliveries, List.filterMap_append]

theorem controlSends_append (a b : List USBEffect) :
    controlSends (a ++ b) = controlSends a ++ controlSends b := by
  simp [controlSends, List.filterMap_append]

/-- With no pipeline hook compiled in and rx_cb NULL, the delivery of a waiting
payload faults: the call through rx_cb is the last thing the task does,
rx_data_size is not cleared and a pending frame is not sent. -/
theorem USBTransport_Tasks_null_callback (k : TransportConstants) (w : USBWorld)
    (a : USBStackAnswers)
    (hs : w.g_usb_transport_data.state = USBTransportState.USB_STATE_MAIN_TASK)
    (hc : w.g_usb_transport_data.is_configured = true)
    (hd : w.g_usb_transport_data.dfu_detach = false)
    (hrx : w.g_usb_transport_data.rx_in_progress = false)
    (hn : w.g_usb_transport_data.rx_data_size ≠ 0)
    (hpl : k.PIPELINE_TRANSPORT_RX = false)
    (hr : w.g_usb_transport_data.rx_cb = none) :
    USBTransport_Tasks k w a =
      { w with trace := w.trace ++
          [USBEffect.rxCallback none w.g_usb_transport_data.rx_data_size, USBEffect.fault] } := by
  simp [USBTransport_Tasks, USBTransport_Tasks_main, hs, hc, hd, hrx, hn, hpl, hr, USBWorld.emit]

/-- With no payload recorded, the body of the main task delivers nothing. -/
theorem USBTransport_Tasks_main_quiet (k : TransportConstants) (w : USBWorld)
    (h : w.g_usb_transport_data.rx_data_size = 0) :
    (USBTransport_Tasks_main k w).g_usb_transport_data.rx_data_size = 0 ∧
    deliveries (USBTransport_Tasks_main k w).trace = deliveries w.trace := by
  simp only [USBTransport_Tasks_main, h, ne_eq, not_true_eq_false, and_false, if_false]
  unfold USBTransport_Tasks_send
  split_ifs
  all_goals simp_all [USBWorld.emit, deliveries_append, deliveries]

/-- With no payload recorded, a task call delivers nothing. -/
theorem USBTransport_Tasks_quiet (k : TransportConstants) (w : USBWorld) (a : USBStackAnswers)
    (h : w.g_usb_transport_data.rx_data_size = 0) :
    (USBTransport_Tasks k w a).g_usb_transport_data.rx_data_size = 0 ∧
    deliveries (USBTransport_Tasks k w a).trace = deliveries w.trace := by
  unfold USBTransport_Tasks
  split
  · simp only []
    split_ifs <;> simp_all [USBWorld.emit, deliveries_append, deliveries]
  · simp only []
    split_ifs <;> simp_all [USBWorld.emit, deliveries_append, deliveries]
  · split_ifs
    · have := USBTransport_Tasks_main_quiet k
        ((w.emit (USBEffect.setBootOption k.BOOT_BOOTLOADER)).emit USBEffect.softReset) h
      simpa [USBWorld.emit, deliveries_append, deliveries] using this
    · simp_all [USBWorld.emit, deliveries_append, deliveries]
    · exact USBTransport_Tasks_main_quiet k w h
  · exact ⟨h, rfl⟩

/-- An event other than a request 0x20 keeps the recorded payload size and
delivers nothing. -/
theorem USBTransport_EventHandler_quiet (k : TransportConstants) (w : USBWorld)
    (ev : USB_DEVICE_EVENT)
    (hev : (USBStep.event ev).isReceiveRequest = false) :
    (USBTransport_EventHandler k w ev).g_usb_transport_data.rx_data_size
      = w.g_usb_transport_data.rx_data_size ∧
    deliveries (USBTransport_EventHandler k w ev).trace = deliveries w.trace := by
  cases ev with
  | USB_DEVICE_EVENT_CONTROL_TRANSFER_SETUP_REQUEST p =>
    have h20 : ¬ p.bRequest = 0x20 := by simpa [USBStep.isReceiveRequest] using hev
    simp only [USBTransport_EventHandler]
    split_ifs <;> simp [USBWorld.emit, deliveries_append, deliveries, DFUGetStatus]
  | USB_DEVICE_EVENT_CONFIGURED v =>
    simp only [USBTransport_EventHandler]
    split_ifs <;> simp
  | _ => simp [USBTransport_EventHandler, USBWorld.emit, deliveries_append, deliveries]

/-- A step other than a request 0x20, taken with no payload recorded, leaves
none recorded and delivers nothing. -/
theorem USBStep_apply_quiet (k : TransportConstants) (w : USBWorld) (s : USBStep)
    (h : w.g_usb_transport_data.rx_data_size = 0) (hs : s.isReceiveRequest = false) :
    (s.apply k w).g_usb_transport_data.rx_data_size = 0 ∧
    deliveries (s.apply k w).trace = deliveries w.trace := by
  cases s with
  | tasks a => exact USBTransport_Tasks_quiet k w a h
  | event ev =>
    have := USBTransport_EventHandler_quiet k w ev hs
    exact ⟨by simpa [USBStep.apply, h] using this.1, this.2⟩
  | sendResponse token command rc data fc =>
    simp only [USBStep.apply, USBTransport_SendResponse_eq]
    simp [USBWorld.emit, deliveries_append, deliveries, h]

/-- A run without a request 0x20, started with no payload recorded, delivers
nothing. -/
theorem runUSB_quiet (k : TransportConstants) (steps : List USBStep) :
    ∀ w : USBWorld, w.g_usb_transport_data.rx_data_size = 0 →
      (∀ s ∈ steps, s.isReceiveRequest = false) →
      deliveries (runUSB k w steps).trace = deliveries w.trace := by
  induction steps with
  | nil => intro w _ _; rfl
  | cons s rest ih =>
    intro w h hs
    have h1 := USBStep_apply_quiet k w s h (hs s (List.mem_cons_self _ _))
    have h2 := ih (s.apply k w) h1.1 (fun t ht => hs t (List.mem_cons_of_mem _ ht))
    simp only [runUSB]
    split_ifs
    · rfl
    · exact h2.trans h1.2

/-- A task call never enters the error state from another state. -/
theorem USBTransport_Tasks_state (k : TransportConstants) (w : USBWorld) (a : USBStackAnswers)
    (h : w.g_usb_transport_data.state ≠ USBTransportState.USB_STATE_ERROR) :
    (USBTransport_Tasks k w a).g_usb_transport_data.state ≠ USBTransportState.USB_STATE_ERROR := by
  unfold USBTransport_Tasks
  split
  · simp only []
    split_ifs <;> simp_all [USBWorld.emit]
  · simp only []
    split_ifs <;> simp_all [USBWorld.emit]
  · have hmain : ∀ v : USBWorld,
        v.g_usb_transport_data.state = USBTransportState.USB_STATE_MAIN_TASK →
        (USBTransport_Tasks_main k v).g_usb_transport_data.state
          ≠ USBTransportState.USB_STATE_ERROR := by
      intro v hv
      cases hcb : v.g_usb_transport_data.rx_cb <;>
        simp only [USBTransport_Tasks_main, USBTransport_Tasks_send, USBWorld.emit, hcb] <;>
        split_ifs <;> simp [hv]
    split_ifs
    · exact hmain _ (by simpa [USBWorld.emit] using ‹_›)
    · simp_all [USBWorld.emit]
    · exact hmain _ ‹_›
  · simp_all

/-- The event handler never changes the state field. -/
theorem USBTransport_EventHandler_state (k : TransportConstants) (w : USBWorld)
    (ev : USB_DEVICE_EVENT) :
    (USBTransport_EventHandler k w ev).g_usb_transport_data.state
      = w.g_usb_transport_data.state := by
  cases ev with
  | USB_DEVICE_EVENT_CONTROL_TRANSFER_SETUP_REQUEST p =>
    simp only [USBTransport_EventHandler]
    split_ifs <;> simp [USBWorld.emit, DFUGetStatus]
  | USB_DEVICE_EVENT_CONFIGURED v =>
    simp only [USBTransport_EventHandler]
    split_ifs <;> simp
  | _ => simp [USBTransport_EventHandler, USBWorld.emit]

/-- No step enters the error state from another state. -/
theorem USBStep_apply_state (k : TransportConstants) (w : USBWorld) (s : USBStep)
    (h : w.g_usb_transport_data.state ≠ USBTransportState.USB_STATE_ERROR) :
    (s.apply k w).g_usb_transport_data.state ≠ USBTransportState.USB_STATE_ERROR := by
  cases s with
  | tasks a => exact USBTransport_Tasks_state k w a h
  | event ev =>
    simp only [USBStep.apply]
    rw [USBTransport_EventHandler_state]
    exact h
  | sendResponse token command rc data fc =>
    simp only [USBStep.apply, USBTransport_SendResponse_eq]
    simpa [USBWorld.emit] using h

/-- No run enters the error state from another state. -/
theorem runUSB_state (k : TransportConstants) (steps : List USBStep) :
    ∀ w : USBWorld, w.g_usb_transport_data.state ≠ USBTransportState.USB_STATE_ERROR →
      (runUSB k w steps).g_usb_transport_data.state ≠ USBTransportState.USB_STATE_ERROR := by
  induction steps with
  | nil => intro w h; exact h
  | cons s rest ih =>
    intro w h
    have h2 := ih (s.apply k w) (USBStep_apply_state k w s h)
    simp only [runUSB]
    split_ifs
    · exact h
    · exact h2

theorem RunCallback_action (w : World) (r : Bool) :
    (RunCallback w r).g_flash_state.action = w.g_flash_state.action := by
  unfold RunCallback; split <;> rfl

/-- If the completion handler ends in the Idle action, it has queued nothing. -/
theorem Flash_SPIComplete_idle_queue (w : World) (ev : SPIEventType) (q : Bool) :
    (Flash_SPIComplete w ev q).g_flash_state.action = Action.ACTION_IDLE →
    (Flash_SPIComplete w ev q).spi_queue = w.spi_queue := by
  unfold Flash_SPIComplete
  split
  · intro _; rfl
  · dsimp only
    split
    · intro _; rw [RunCallback_spi_queue]; rfl
    · rename_i hact
      unfold abortUnlessOk
      split_ifs <;> cases q <;>
        simp_all [SPI_QueueTransfer, SendReadStatus, BeginErase, setAction, RunCallback_spi_queue,
          RunCallback_action, EnableWP, ChipDisable, PLIB_PORTS_PinSet, PLIB_PORTS_PinClear]
    · rename_i hact
      unfold abortUnlessOk
      split_ifs <;> cases q <;>
        simp_all [SPI_QueueTransfer, SendReadStatus, BeginErase, setAction, RunCallback_spi_queue,
          RunCallback_action, EnableWP, ChipDisable, PLIB_PORTS_PinSet, PLIB_PORTS_PinClear]
    · rename_i hact
      split_ifs <;> cases q <;>
        simp_all [SPI_QueueTransfer, SendReadStatus, BeginErase, setAction, RunCallback_spi_queue,
          RunCallback_action, EnableWP, ChipDisable, PLIB_PORTS_PinSet, PLIB_PORTS_PinClear]
    · intro _; rfl
    · intro _; rfl
    · intro _; rfl

/-- One bus completion keeps "at most one transfer pending, and none while
Idle". -/
theorem SPI_Complete_pending (w : World) (rx : Nat → Nat) (q : Bool)
    (h : w.spi_queue.length ≤ 1 ∧
      (w.g_flash_state.action = Action.ACTION_IDLE → w.spi_queue = [])) :
    (SPI_Complete w rx q).spi_queue.length ≤ 1 ∧
    ((SPI_Complete w rx q).g_flash_state.action = Action.ACTION_IDLE →
      (SPI_Complete w rx q).spi_queue = []) := by
  refine ⟨Nat.le_trans (SPI_Complete_queue_le w rx q) h.1, ?_⟩
  unfold SPI_Complete
  split
  · rename_i hq; intro _; exact hq
  · rename_i t rest hq
    have hrest : rest = [] := by
      have := h.1
      rw [hq] at this
      cases rest with
      | nil => rfl
      | cons a b => simp at this
    have hr : (SPI_Receive w rx).spi_queue = [] := by
      simp [SPI_Receive, hq, hrest, Flash_SPIComplete, ChipEnable, PLIB_PORTS_PinClear]
    intro hi
    rw [Flash_SPIComplete_idle_queue _ _ _ hi, hr]

/-- Every step keeps "at most one transfer pending, and none while Idle". -/
theorem FlashStep_apply_pending (w : World) (s : FlashStep)
    (h : w.spi_queue.length ≤ 1 ∧
      (w.g_flash_state.action = Action.ACTION_IDLE → w.spi_queue = [])) :
    (s.apply w).spi_queue.length ≤ 1 ∧
    ((s.apply w).g_flash_state.action = Action.ACTION_IDLE → (s.apply w).spi_queue = []) := by
  cases s with
  | complete rx q => exact SPI_Complete_pending w rx q h
  | read sector input size callback q =>
    by_cases hi : w.g_flash_state.action = Action.ACTION_IDLE
    · have hq := h.2 hi
      by_cases hg : sector ≥ w.g_flash_state.flash_sectors <;> cases q <;>
        simp [FlashStep.apply, Flash_Read, hi, hg, hq, SPI_QueueTransfer, setAction]
    · simpa [FlashStep.apply, Flash_Read, hi] using h
  | write sector output size callback q =>
    by_cases hi : w.g_flash_state.action = Action.ACTION_IDLE
    · have hq := h.2 hi
      by_cases hg : sector ≥ w.g_flash_state.flash_sectors ∨ size > SECTOR_SIZE <;>
        cases q <;> cases hu : w.g_flash_state.is_unlocked <;>
        simp [FlashStep.apply, Flash_Write, hi, hg, hq, hu, SPI_QueueTransfer, setAction,
          BeginErase, DisableWP, PLIB_PORTS_PinSet]
    · simpa [FlashStep.apply, Flash_Write, hi] using h
  | readStatus q =>
    by_cases hi : w.g_flash_state.action = Action.ACTION_IDLE
    · have hq := h.2 hi
      cases q <;> simp [FlashStep.apply, Flash_ReadStatus, hi, hq, SPI_QueueTransfer, setAction]
    · simpa [FlashStep.apply, Flash_ReadStatus, hi] using h
  | readStatus1 q =>
    by_cases hi : w.g_flash_state.action = Action.ACTION_IDLE
    · have hq := h.2 hi
      cases q <;> simp [FlashStep.apply, Flash_ReadStatus1, hi, hq, SPI_QueueTransfer, setAction]
    · simpa [FlashStep.apply, Flash_ReadStatus1, hi] using h

/-- Every run keeps "at most one transfer pending, and none while Idle". -/
theorem runFlash_pending (steps : List FlashStep) :
    ∀ w : World,
      (w.spi_queue.length ≤ 1 ∧
        (w.g_flash_state.action = Action.ACTION_IDLE → w.spi_queue = [])) →
      (runFlash w steps).spi_queue.length ≤ 1 ∧
      ((runFlash w steps).g_flash_state.action = Action.ACTION_IDLE →
        (runFlash w steps).spi_queue = []) := by
  induction steps with
  | nil => intro w h; exact h
  | cons s rest ih =>
    intro w h
    exact ih (s.apply w) (FlashStep_apply_pending w s h)

/-- The completion handler never changes the stored data pointer or size. -/
theorem Flash_SPIComplete_data (w : World) (ev : SPIEventType) (q : Bool) :
    (Flash_SPIComplete w ev q).g_flash_state.data = w.g_flash_state.data ∧
    (Flash_SPIComplete w ev q).g_flash_state.data_size = w.g_flash_state.data_size := by
  unfold Flash_SPIComplete
  split
  · exact ⟨rfl, rfl⟩
  · dsimp only
    split
    · unfold RunCallback; split <;> exact ⟨rfl, rfl⟩
    · unfold abortUnlessOk RunCallback
      split_ifs <;> (try split) <;> exact ⟨rfl, rfl⟩
    · unfold abortUnlessOk RunCallback
      split_ifs <;> (try split) <;> exact ⟨rfl, rfl⟩
    · unfold RunCallback
      split_ifs <;> (try split) <;> exact ⟨rfl, rfl⟩
    · exact ⟨rfl, rfl⟩
    · exact ⟨rfl, rfl⟩
    · exact ⟨rfl, rfl⟩

theorem RunCallback_withData (w : World) (d : Nat → Nat) (n : Nat) (r : Bool) :
    RunCallback (withData w d n) r = withData (RunCallback w r) d n := by
  cases hcb : w.g_flash_state.callback <;> simp [RunCallback, withData, hcb]

theorem abortUnlessOk_withData (r : Bool × World) (d : Nat → Nat) (n : Nat) :
    abortUnlessOk (r.1, withData r.2 d n) = withData (abortUnlessOk r) d n := by
  unfold abortUnlessOk
  split_ifs
  · rfl
  · exact RunCallback_withData (setAction r.2 Action.ACTION_IDLE) d n false

/-- The completion handler reads the stored data only at its first two
bytes: with other data that agree there, and any data size, it does the same
to everything else. -/
theorem Flash_SPIComplete_withData (w : World) (d : Nat → Nat) (n : Nat) (ev : SPIEventType)
    (q : Bool) (h0 : d 0 = w.g_flash_state.data 0) (h1 : d 1 = w.g_flash_state.data 1) :
    Flash_SPIComplete (withData w d n) ev q = withData (Flash_SPIComplete w ev q) d n := by
  cases ev
  · rfl
  · obtain ⟨gs, cbuf, gi, sq, tr⟩ := w
    obtain ⟨cep, ceb, wpp, wpb, hp, hb, fs, un, action, callback, sector, data, data_size⟩ := gs
    simp only at h0 h1
    cases action
    all_goals
      simp only [Flash_SPIComplete, withData, ChipDisable, PLIB_PORTS_PinSet, reduceCtorEq,
        if_false, EnableWP, PLIB_PORTS_PinClear]
    · cases callback <;> rfl
    · split_ifs <;> cases q <;> cases callback <;> rfl
    · split_ifs <;> cases q <;> cases callback <;> rfl
    · split_ifs <;> first
        | rfl
        | (cases callback <;> rfl)
        | (rw [h0, h1]; rfl)
    · rfl
    · rfl

/-- The first half of a bus transfer does not look at the stored data. -/
theorem SPI_Receive_withData (w : World) (d : Nat → Nat) (n : Nat) (rx : Nat → Nat) :
    SPI_Receive (withData w d n) rx = withData (SPI_Receive w rx) d n := by
  obtain ⟨gs, cbuf, gi, sq, tr⟩ := w
  cases sq <;> rfl

/-- The first half of a bus transfer keeps the stored data pointer. -/
theorem SPI_Receive_data (w : World) (rx : Nat → Nat) :
    (SPI_Receive w rx).g_flash_state.data = w.g_flash_state.data := by
  obtain ⟨gs, cbuf, gi, sq, tr⟩ := w
  cases sq <;> rfl

/-- One bus completion keeps the stored data pointer. -/
theorem SPI_Complete_data (w : World) (rx : Nat → Nat) (q : Bool) :
    (SPI_Complete w rx q).g_flash_state.data = w.g_flash_state.data := by
  unfold SPI_Complete
  split
  · rfl
  · rw [(Flash_SPIComplete_data _ _ _).1, SPI_Receive_data]

/-- One bus completion reads the stored data only at its first two bytes. -/
theorem SPI_Complete_withData (w : World) (d : Nat → Nat) (n : Nat) (rx : Nat → Nat) (q : Bool)
    (h0 : d 0 = w.g_flash_state.data 0) (h1 : d 1 = w.g_flash_state.data 1) :
    SPI_Complete (withData w d n) rx q = withData (SPI_Complete w rx q) d n := by
  cases hq : w.spi_queue with
  | nil =>
    have hq2 : (withData w d n).spi_queue = [] := hq
    simp only [SPI_Complete, hq, hq2]
  | cons t rest =>
    have hq2 : (withData w d n).spi_queue = t :: rest := hq
    simp only [SPI_Complete, hq, hq2]
    rw [SPI_Receive_withData]
    exact Flash_SPIComplete_withData _ d n _ q (by rw [SPI_Receive_data]; exact h0)
      (by rw [SPI_Receive_data]; exact h1)

/-- A run of the bus reads the stored data only at its first two bytes. -/
theorem runBus_withData (rs : List ((Nat → Nat) × Bool)) :
    ∀ (w : World) (d : Nat → Nat) (n : Nat),
      d 0 = w.g_flash_state.data 0 → d 1 = w.g_flash_state.data 1 →
      runBus (withData w d n) rs = withData (runBus w rs) d n := by
  induction rs with
  | nil => intro w d n _ _; rfl
  | cons r rs ih =>
    intro w d n h0 h1
    rw [runBus_cons, runBus_cons, SPI_Complete_withData w d n r.1 r.2 h0 h1]
    exact ih _ d n (by rw [SPI_Complete_data]; exact h0) (by rw [SPI_Complete_data]; exact h1)

/-- A step taken while the action is not Idle and nothing is pending changes
nothing. -/
theorem FlashStep_apply_stuck (w : World) (s : FlashStep)
    (ha : w.g_flash_state.action ≠ Action.ACTION_IDLE) (hq : w.spi_queue = []) :
    s.apply w = w := by
  cases s <;>
    simp [FlashStep.apply, Flash_Read, Flash_Write, Flash_ReadStatus, Flash_ReadStatus1,
      SPI_Complete, ha, hq]

/-- A run started while the action is not Idle and nothing is pending changes
nothing. -/
theorem runFlash_stuck (steps : List FlashStep) (w : World)
    (ha : w.g_flash_state.action ≠ Action.ACTION_IDLE) (hq : w.spi_queue = []) :
    runFlash w steps = w := by
  induction steps with
  | nil => rfl
  | cons s rest ih =>
    show runFlash (s.apply w) rest = w
    rw [FlashStep_apply_stuck w s ha hq]
    exact ih

/-! ### The claims -/

/-- C1: in every state whose action is not Idle, Flash_Read, Flash_Write,
Flash_ReadStatus and Flash_ReadStatus1 return false and leave the whole world
(sequencer state, command buffer, pending transfers, effect log) unchanged,
whatever the arguments and whatever the queue would have answered. -/
theorem C1_busy_calls_rejected (w : World)
    (h : w.g_flash_state.action ≠ Action.ACTION_IDLE)
    (sector input size : Nat) (output : Nat → Nat) (cb : Option Nat) (q : Bool) :
    Flash_Read w sector input size cb q = (false, w) ∧
    Flash_Write w sector output size cb q = (false, w) ∧
    Flash_ReadStatus w q = (false, w) ∧
    Flash_ReadStatus1 w q = (false, w) := by
  simp [Flash_Read, Flash_Write, Flash_ReadStatus, Flash_ReadStatus1, h]

/-- Witness for C1: a read is in flight after Flash_Initialize, and all four
entry points are then rejected without effect. -/
theorem C1_busy_calls_rejected_witness :
    (Flash_Read (Flash_Initialize initialWorld sampleSettings) 3 100 16 (some 1) true).2.g_flash_state.action
        ≠ Action.ACTION_IDLE ∧
    (Flash_Read (Flash_Read (Flash_Initialize initialWorld sampleSettings) 3 100 16 (some 1) true).2
        5 200 8 (some 2) true
      = (false, (Flash_Read (Flash_Initialize initialWorld sampleSettings) 3 100 16 (some 1) true).2) ∧
     Flash_Write (Flash_Read (Flash_Initialize initialWorld sampleSettings) 3 100 16 (some 1) true).2
        5 (fun _ => 7) 8 (some 2) true
      = (false, (Flash_Read (Flash_Initialize initialWorld sampleSettings) 3 100 16 (some 1) true).2) ∧
     Flash_ReadStatus (Flash_Read (Flash_Initialize initialWorld sampleSettings) 3 100 16 (some 1) true).2 true
      = (false, (Flash_Read (Flash_Initialize initialWorld sampleSettings) 3 100 16 (some 1) true).2) ∧
     Flash_ReadStatus1 (Flash_Read (Flash_Initialize initialWorld sampleSettings) 3 100 16 (some 1) true).2 true
      = (false, (Flash_Read (Flash_Initialize initialWorld sampleSettings) 3 100 16 (some 1) true).2)) :=
  ⟨by decide,
   C1_busy_calls_rejected _ (by decide) 5 200 8 (fun _ => 7) (some 2) true⟩

/-- C2 (the code departs from the claim): Flash_Write never stores its
callback argument, in any state and for any arguments.  After
initialisation the accepted call Flash_Write(3, data, 3, cb = 9), run with
every transfer accepted and every status read answering 0, comes back to Idle
with nothing pending and without a single callback invocation: cb is never
invoked. -/
theorem C2_write_callback_never_invoked :
    (∀ (w : World) (sector size : Nat) (output : Nat → Nat) (cb : Option Nat) (q : Bool),
      (Flash_Write w sector output size cb q).2.g_flash_state.callback
        = w.g_flash_state.callback) ∧
    (Flash_Write sampleInit 3 sampleData 3 (some 9) true).1 = true ∧
    (runBus (Flash_Write sampleInit 3 sampleData 3 (some 9) true).2
      (writeBusAnswers 0 [] 0 [] 0)).g_flash_state.action = Action.ACTION_IDLE ∧
    (runBus (Flash_Write sampleInit 3 sampleData 3 (some 9) true).2
      (writeBusAnswers 0 [] 0 [] 0)).spi_queue = [] ∧
    callbacksRun (runBus (Flash_Write sampleInit 3 sampleData 3 (some 9) true).2
      (writeBusAnswers 0 [] 0 [] 0)).trace = [] := by
  refine ⟨?_, by decide, by decide, by decide, by decide⟩
  intro w sector size output cb q
  by_cases hg : w.g_flash_state.action ≠ Action.ACTION_IDLE ∨
      sector ≥ w.g_flash_state.flash_sectors ∨ size > SECTOR_SIZE
  · simp [Flash_Write, hg]
  · cases hu : w.g_flash_state.is_unlocked <;> cases q <;>
      simp [Flash_Write, hg, hu, BeginErase, SPI_QueueTransfer, setAction, DisableWP,
        PLIB_PORTS_PinSet]

/-- C3 (the code departs from the claim): in the Write action a rejected
transfer does not abort.  After initialisation an accepted write reaches the
program phase; the completion of its write-enable hands the program command
[0xAD, ...] to the queue, the queue rejects it, and after the handler returns
the action is still Write, nothing is pending, no callback has been invoked,
and a further bus completion changes nothing. -/
theorem C3_write_phase_rejection_not_aborted :
    attemptedTransfers sampleProgramRejected.trace =
      [command [0x50], command [0x01, 0x00], statusRead, command [0x06],
       command [0x20, 0x00, 0x30, 0x00], statusRead, command [0x06],
       command [0xAD, 0x00, 0x30, 0x00, 0x11, 0x22]] ∧
    queuedTransfers sampleProgramRejected.trace =
      [command [0x50], command [0x01, 0x00], statusRead, command [0x06],
       command [0x20, 0x00, 0x30, 0x00], statusRead, command [0x06]] ∧
    sampleProgramRejected.g_flash_state.action = Action.ACTION_WRITE ∧
    sampleProgramRejected.spi_queue = [] ∧
    callbacksRun sampleProgramRejected.trace = [] ∧
    (∀ (rx : Nat → Nat) (q : Bool),
      (SPI_Complete sampleProgramRejected rx q).g_flash_state.action = Action.ACTION_WRITE ∧
      callbacksRun (SPI_Complete sampleProgramRejected rx q).trace = []) := by
  refine ⟨by decide, by decide, by decide, by decide, by decide, ?_⟩
  intro rx q
  have h : sampleProgramRejected.spi_queue = [] := by decide
  simp only [SPI_Complete, h]
  exact ⟨by decide, by decide⟩

/-- C4: in an Idle state that has the sector count Flash_Initialize sets
(Flash_Initialize itself leaves the action Idle), with a queue that accepts:
Flash_Write returns true exactly when sector < 64 and size <= 4096,
Flash_Read returns true exactly when sector < 64, and a call rejected for its
arguments returns false and leaves the whole world unchanged. -/
theorem C4_argument_checks (w0 : World) (settings : FlashHardwareSettings) (w : World)
    (hs : w.g_flash_state.flash_sectors = (Flash_Initialize w0 settings).g_flash_state.flash_sectors)
    (hidle : w.g_flash_state.action = Action.ACTION_IDLE)
    (sector input size : Nat) (output : Nat → Nat) (cb : Option Nat) :
    (Flash_Initialize w0 settings).g_flash_state.action = Action.ACTION_IDLE ∧
    ((Flash_Write w sector output size cb true).1 = true ↔ sector < 64 ∧ size ≤ 4096) ∧
    ((Flash_Read w sector input size cb true).1 = true ↔ sector < 64) ∧
    (∀ q, ¬ (sector < 64 ∧ size ≤ 4096) → Flash_Write w sector output size cb q = (false, w)) ∧
    (∀ q, ¬ sector < 64 → Flash_Read w sector input size cb q = (false, w)) := by
  have hfs : w.g_flash_state.flash_sectors = 64 := by
    rw [hs]; simp [Flash_Initialize, EnableWP, DisableHold, PLIB_PORTS_PinSet, PLIB_PORTS_PinClear,
      PLIB_PORTS_PinDirectionOutputSet, FLASH_SIZE, SECTOR_SIZE]
  have hwrite_bad : ∀ q, ¬ (sector < 64 ∧ size ≤ 4096) →
      Flash_Write w sector output size cb q = (false, w) := by
    intro q h
    have hg : 64 ≤ sector ∨ 4096 < size := by omega
    simp [Flash_Write, hidle, hfs, SECTOR_SIZE, hg]
  have hread_bad : ∀ q, ¬ sector < 64 → Flash_Read w sector input size cb q = (false, w) := by
    intro q h
    have hg : 64 ≤ sector := by omega
    simp [Flash_Read, hidle, hfs, hg]
  refine ⟨?_, ?_, ?_, hwrite_bad, hread_bad⟩
  · simp [Flash_Initialize, EnableWP, DisableHold, PLIB_PORTS_PinSet, PLIB_PORTS_PinClear,
      PLIB_PORTS_PinDirectionOutputSet]
  · constructor
    · intro h
      by_contra hn
      rw [hwrite_bad true hn] at h
      simp at h
    · intro h
      have hg : ¬ (64 ≤ sector ∨ 4096 < size) := by omega
      cases hu : w.g_flash_state.is_unlocked <;>
        simp [Flash_Write, hidle, hfs, SECTOR_SIZE, hg, hu, BeginErase, SPI_QueueTransfer, setAction,
          DisableWP, PLIB_PORTS_PinSet]
  · constructor
    · intro h
      by_contra hn
      rw [hread_bad true hn] at h
      simp at h
    · intro h
      have hg : ¬ (64 ≤ sector) := by omega
      simp [Flash_Read, hidle, hfs, hg, SPI_QueueTransfer, setAction]

/-- Witness for C4: the state right after Flash_Initialize, sector 63 and a
full sector of 4096 bytes. -/
theorem C4_argument_checks_witness :
    (Flash_Initialize initialWorld sampleSettings).g_flash_state.flash_sectors =
      (Flash_Initialize initialWorld sampleSettings).g_flash_state.flash_sectors ∧
    (Flash_Initialize initialWorld sampleSettings).g_flash_state.action = Action.ACTION_IDLE ∧
    ((Flash_Write (Flash_Initialize initialWorld sampleSettings) 63 (fun _ => 7) 4096 (some 1) true).1 = true
      ↔ 63 < 64 ∧ 4096 ≤ 4096) :=
  ⟨rfl, by decide,
   (C4_argument_checks initialWorld sampleSettings (Flash_Initialize initialWorld sampleSettings)
      rfl (by decide) 63 100 4096 (fun _ => 7) (some 1)).2.1⟩

/-- C5: from an Idle, not yet unlocked state with nothing pending on the bus
and the sector count Flash_Initialize sets, for a sector below 64 and a size
of at most 4096, with a queue that accepts every transfer and a device whose
unlock status has both block-protect bits clear and whose status polls answer
busy for any number of reads (es, ps) and then not busy (e, p): Flash_Write
returns true, and the transfers queued by the call and by the successive
completions are exactly [0x50]; [0x01, 0x00]; [0x05] reading one byte; [0x06];
[0x20, a1, a2, a3]; [0x05] once per erase poll; [0x06];
[0xAD, a1, a2, a3, data[0], data[1]]; [0x05] once per program poll; [0x04],
with a1, a2, a3 = UInt32Byte1/2/3 of sector * 4096.  After the completion of
the last one the action is Idle, nothing is pending, and the only callback
invocation of the run is RunCallback(true): the stored callback, if any, is
invoked with true.  At no point of the run is more than one transfer pending,
so each transfer is queued from the completion of the previous one. -/
theorem C5_write_transfer_sequence (w : World)
    (ha : w.g_flash_state.action = Action.ACTION_IDLE)
    (hq : w.spi_queue = [])
    (hu : w.g_flash_state.is_unlocked = false)
    (hfs : w.g_flash_state.flash_sectors = FLASH_SIZE / SECTOR_SIZE)
    (sector size : Nat) (output : Nat → Nat) (cb : Option Nat)
    (hsec : sector < 64) (hsize : size ≤ 4096)
    (u : Nat) (hu4 : u < 256 ∧ u &&& 0x04 = 0 ∧ u &&& 0x08 = 0)
    (es : List Nat) (hes : ∀ x ∈ es, x < 256 ∧ x &&& 0x01 ≠ 0)
    (e : Nat) (he : e < 256 ∧ e &&& 0x01 = 0)
    (ps : List Nat) (hps : ∀ x ∈ ps, x < 256 ∧ x &&& 0x01 ≠ 0)
    (p : Nat) (hp : p < 256 ∧ p &&& 0x01 = 0) :
    (Flash_Write w sector output size cb true).1 = true ∧
    queuedTransfers
        (runBus (Flash_Write w sector output size cb true).2 (writeBusAnswers u es e ps p)).trace
      = queuedTransfers w.trace
        ++ writeTransfers sector (output 0 % 256) (output 1 % 256) (es.length + 1) (ps.length + 1) ∧
    (runBus (Flash_Write w sector output size cb true).2
        (writeBusAnswers u es e ps p)).g_flash_state.action = Action.ACTION_IDLE ∧
    (runBus (Flash_Write w sector output size cb true).2
        (writeBusAnswers u es e ps p)).spi_queue = [] ∧
    callbacksRun
        (runBus (Flash_Write w sector output size cb true).2 (writeBusAnswers u es e ps p)).trace
      = callbacksRun w.trace ++
          (match w.g_flash_state.callback with
            | some c => [(c, true)]
            | none => []) ∧
    (∀ k, (runBus (Flash_Write w sector output size cb true).2
        ((writeBusAnswers u es e ps p).take k)).spi_queue.length ≤ 1) := by
  have hfs64 : w.g_flash_state.flash_sectors = 64 := by
    rw [hfs]; simp [FLASH_SIZE, SECTOR_SIZE]
  have hg : ¬ (64 ≤ sector ∨ 4096 < size) := by omega
  have hmod : sector * 4096 % 4294967296 = sector * 4096 := Nat.mod_eq_of_lt (by omega)
  obtain ⟨hu256, hu4, hu8⟩ := hu4
  have hum : u % 256 = u := Nat.mod_eq_of_lt hu256
  have hem : e % 256 = e := Nat.mod_eq_of_lt he.1
  have hpm : p % 256 = p := Nat.mod_eq_of_lt hp.1
  have he0 : ¬ (e % 2 = 1) := by
    have := he.2; rw [Nat.and_one_is_mod] at this; omega
  have hp0 : ¬ (p % 2 = 1) := by
    have := hp.2; rw [Nat.and_one_is_mod] at this; omega
  obtain ⟨gs, cbuf, gi, sq, tr⟩ := w
  obtain ⟨b0, b1, b2, b3, b4, b5⟩ := cbuf
  simp only at ha hq hu hfs64
  subst hq
  have hstart : (Flash_Write ⟨gs, ⟨b0, b1, b2, b3, b4, b5⟩, gi, [], tr⟩ sector output size cb
      true).2.spi_queue.length = 1 := by
    simp [Flash_Write, ha, hfs64, hg, hu, SECTOR_SIZE, SPI_QueueTransfer, setAction, DisableWP,
      PLIB_PORTS_PinSet]
  refine ⟨?_, ?_⟩
  · simp [Flash_Write, ha, hfs64, hg, hu, SECTOR_SIZE, SPI_QueueTransfer, setAction, DisableWP,
      PLIB_PORTS_PinSet]
  rw [← and_assoc, ← and_assoc, ← and_assoc]
  refine ⟨?_, fun k => hstart ▸ runBus_queue_le _ _⟩
  rw [and_assoc, and_assoc]
  unfold writeBusAnswers
  rw [runBus_append, runBus_append, runBus_append, runBus_append]
  simp only [runBus_cons, runBus_nil]
  -- unlock and erase command: five completions after the call
  obtain ⟨W5, hW5⟩ : ∃ W, W = SPI_Complete (SPI_Complete (SPI_Complete (SPI_Complete (SPI_Complete
      (Flash_Write ⟨gs, ⟨b0, b1, b2, b3, b4, b5⟩, gi, [], tr⟩ sector output size cb true).2
      (reply 0) true) (reply 0) true) (reply u) true) (reply 0) true) (reply 0) true := ⟨_, rfl⟩
  rw [← hW5]
  have f5 : W5.g_flash_state.action = Action.ACTION_ERASE ∧ W5.cmd_buffer.b0 = OP_STATUS_READ ∧
      W5.spi_queue = [statusRead] ∧ W5.g_flash_state.sector = sector ∧
      W5.g_flash_state.data = output ∧ W5.g_flash_state.callback = gs.callback ∧
      callbacksRun W5.trace = callbacksRun tr ∧
      queuedTransfers W5.trace = queuedTransfers tr ++
        [command [0x50], command [0x01, 0x00], statusRead, command [0x06],
          command [0x20, UInt32Byte1 (sector * 4096), UInt32Byte2 (sector * 4096),
                   UInt32Byte3 (sector * 4096)],
          statusRead] := by
    rw [hW5]
    simp [Flash_Write, SPI_Complete, SPI_Receive, Flash_SPIComplete, ChipEnable, ChipDisable,
      EnableWP, DisableWP, PLIB_PORTS_PinSet, PLIB_PORTS_PinClear, abortUnlessOk, SendReadStatus,
      BeginErase, RunCallback, setAction, SPI_QueueTransfer, CmdBuffer.toList, statusRead, command,
      reply, InputBuffer.store, SECTOR_SIZE, List.range_succ,
      OP_STATUS_READ, OP_WRITE_ENABLE, OP_SECTOR_ERASE, OP_ENABLE_SOFTWARE_EOW,
      OP_AUTO_INCREMENT_WRITE, OP_WRITE_DISABLE, OP_DISBLE_SOFTWARE_EOW,
      OP_ENABLE_WRITE_STATUS_REGISTER, OP_WRITE_STATUS_REGISTER, BUSY, BLOCK_PROTECT_0,
      BLOCK_PROTECT_1, queuedTransfers_append, callbacksRun_append, ha, hfs64, hg, hu, hmod, hum, hu4, hu8]
    simp [queuedTransfers, callbacksRun]
  clear hW5
  obtain ⟨f5a, f5c, f5q, f5s, f5d, f5k, f5r, f5t⟩ := f5
  obtain ⟨gi1, tr1, h1, h1q, -, h1r⟩ :=
    poll_busy Action.ACTION_ERASE (Or.inl rfl) es hes W5 f5a f5c f5q
  rw [h1]
  -- last erase poll, write enable, program command
  obtain ⟨W8, hW8⟩ : ∃ W, W = SPI_Complete (SPI_Complete (SPI_Complete
      { W5 with g_input := gi1, trace := tr1 } (reply e) true) (reply 0) true) (reply 0) true :=
    ⟨_, rfl⟩
  rw [← hW8]
  have f8 : W8.g_flash_state.action = Action.ACTION_WRITE ∧ W8.cmd_buffer.b0 = OP_STATUS_READ ∧
      W8.spi_queue = [statusRead] ∧ W8.g_flash_state.callback = gs.callback ∧
      callbacksRun W8.trace = callbacksRun tr1 ∧
      queuedTransfers W8.trace = queuedTransfers tr1 ++
        [command [0x06],
          command [0xAD, UInt32Byte1 (sector * 4096), UInt32Byte2 (sector * 4096),
                   UInt32Byte3 (sector * 4096), output 0 % 256, output 1 % 256],
          statusRead] := by
    rw [hW8]
    simp [SPI_Complete, SPI_Receive, Flash_SPIComplete, ChipEnable, ChipDisable,
      EnableWP, DisableWP, PLIB_PORTS_PinSet, PLIB_PORTS_PinClear, abortUnlessOk, SendReadStatus,
      BeginErase, RunCallback, setAction, SPI_QueueTransfer, CmdBuffer.toList, statusRead, command,
      reply, InputBuffer.store, SECTOR_SIZE, List.range_succ,
      OP_STATUS_READ, OP_WRITE_ENABLE, OP_SECTOR_ERASE, OP_ENABLE_SOFTWARE_EOW,
      OP_AUTO_INCREMENT_WRITE, OP_WRITE_DISABLE, OP_DISBLE_SOFTWARE_EOW,
      OP_ENABLE_WRITE_STATUS_REGISTER, OP_WRITE_STATUS_REGISTER, BUSY, BLOCK_PROTECT_0,
      BLOCK_PROTECT_1, queuedTransfers_append, callbacksRun_append, f5a, f5c, f5q, f5s, f5d, f5k, hmod, hem, he0]
    simp [queuedTransfers, callbacksRun]
  clear hW8
  obtain ⟨f8a, f8c, f8q, f8k, f8r, f8t⟩ := f8
  obtain ⟨gi2, tr2, h2, h2q, -, h2r⟩ :=
    poll_busy Action.ACTION_WRITE (Or.inr rfl) ps hps W8 f8a f8c f8q
  rw [h2]
  -- last program poll and write disable
  have f10 :
      queuedTransfers (SPI_Complete (SPI_Complete
        { W8 with g_input := gi2, trace := tr2 } (reply p) true) (reply 0) true).trace
        = queuedTransfers tr2 ++ [command [0x04]] ∧
      (SPI_Complete (SPI_Complete
        { W8 with g_input := gi2, trace := tr2 } (reply p) true) (reply 0) true).g_flash_state.action
        = Action.ACTION_IDLE ∧
      (SPI_Complete (SPI_Complete
        { W8 with g_input := gi2, trace := tr2 } (reply p) true) (reply 0) true).spi_queue = [] ∧
      callbacksRun (SPI_Complete (SPI_Complete
        { W8 with g_input := gi2, trace := tr2 } (reply p) true) (reply 0) true).trace
        = callbacksRun tr2 ++
          (match gs.callback with
            | some c => [(c, true)]
            | none => []) := by
    cases hcb : gs.callback <;>
    simp [SPI_Complete, SPI_Receive, Flash_SPIComplete, ChipEnable, ChipDisable,
      EnableWP, DisableWP, PLIB_PORTS_PinSet, PLIB_PORTS_PinClear, abortUnlessOk, SendReadStatus,
      BeginErase, RunCallback, setAction, SPI_QueueTransfer, CmdBuffer.toList, statusRead, command,
      reply, InputBuffer.store, SECTOR_SIZE, List.range_succ,
      OP_STATUS_READ, OP_WRITE_ENABLE, OP_SECTOR_ERASE, OP_ENABLE_SOFTWARE_EOW,
      OP_AUTO_INCREMENT_WRITE, OP_WRITE_DISABLE, OP_DISBLE_SOFTWARE_EOW,
      OP_ENABLE_WRITE_STATUS_REGISTER, OP_WRITE_STATUS_REGISTER, BUSY, BLOCK_PROTECT_0,
      BLOCK_PROTECT_1, queuedTransfers_append, callbacksRun_append, f8a, f8c, f8q, f8k, hpm, hp0, hcb] <;>
    simp [queuedTransfers, callbacksRun]
  obtain ⟨f10t, f10a, f10q, f10r⟩ := f10
  refine ⟨?_, f10a, f10q, ?_⟩
  · rw [f10t, h2q, f8t, h1q, f5t]
    simp [writeTransfers, List.replicate_succ, statusRead, command]
  · rw [f10r, h2r, f8r, h1r, f5r]

/-- Witness for C5: a write of sector 3 right after initialisation, with two
busy erase polls and one busy program poll. -/
theorem C5_write_transfer_sequence_witness :
    sampleInit.g_flash_state.action = Action.ACTION_IDLE ∧
    sampleInit.spi_queue = [] ∧
    sampleInit.g_flash_state.is_unlocked = false ∧
    sampleInit.g_flash_state.flash_sectors = FLASH_SIZE / SECTOR_SIZE ∧
    3 < 64 ∧ 3 ≤ 4096 ∧
    (0 < 256 ∧ 0 &&& 0x04 = 0 ∧ 0 &&& 0x08 = 0) ∧
    (∀ x ∈ [1, 3], x < 256 ∧ x &&& 0x01 ≠ 0) ∧ (2 < 256 ∧ 2 &&& 0x01 = 0) ∧
    (∀ x ∈ [1], x < 256 ∧ x &&& 0x01 ≠ 0) ∧ (0 < 256 ∧ 0 &&& 0x01 = 0) ∧
    queuedTransfers
        (runBus (Flash_Write sampleInit 3 sampleData 3 (some 9) true).2
          (writeBusAnswers 0 [1, 3] 2 [1] 0)).trace
      = queuedTransfers sampleInit.trace
        ++ writeTransfers 3 (sampleData 0 % 256) (sampleData 1 % 256) ([1, 3].length + 1)
            ([1].length + 1) :=
  ⟨by decide, by decide, by decide, by decide, by decide, by decide, by decide, by decide,
   by decide, by decide, by decide,
   (C5_write_transfer_sequence sampleInit (by decide) (by decide) (by decide) (by decide)
      3 3 sampleData (some 9) (by decide) (by decide) 0 (by decide) [1, 3] (by decide)
      2 (by decide) [1] (by decide) 0 (by decide)).2.1⟩

/-- C6 (the code departs from the claim): on completion of the status read
that ends the unlock sub-protocol (action Unlock, command buffer holding the
status-read opcode) the handler, in every case, sets the chip-enable pin and
then clears pin (wp_port, wp_port), not the write-protect pin
(wp_port, wp_bit).  The rest is as claimed: with both block-protect bits of
the status byte clear, is_unlocked becomes true and the write-enable transfer
[0x06] is handed to the queue, and once the queue accepts it the action is
Erase and the transfer is pending; with either bit set, is_unlocked is
unchanged, nothing is handed to the queue, the action is Idle and the stored
callback, if any, is invoked with false and cleared.  With the wiring
wp = (5, 6), after a write whose unlock status read answers 0x00 or 0x0C, the
handler clears pin (5, 5) and never pin (5, 6). -/
theorem C6_unlock_reasserts_wrong_pin :
    (∀ (w : World) (q : Bool),
      w.g_flash_state.action = Action.ACTION_UNLOCK →
      w.cmd_buffer.b0 = OP_STATUS_READ →
      (w.g_input.i0 &&& 0x04 = 0 ∧ w.g_input.i0 &&& 0x08 = 0 →
        (Flash_SPIComplete w SPIEventType.SPI_COMPLETE_TRANSFER q).g_flash_state.is_unlocked
          = true ∧
        w.trace ++
            [Effect.pinSet w.g_flash_state.ce_port w.g_flash_state.ce_bit,
             Effect.pinClear w.g_flash_state.wp_port w.g_flash_state.wp_port,
             Effect.spiQueue { output := [0x06], input := InputDest.null, input_length := 0 } q]
          <+: (Flash_SPIComplete w SPIEventType.SPI_COMPLETE_TRANSFER q).trace ∧
        attemptedTransfers (Flash_SPIComplete w SPIEventType.SPI_COMPLETE_TRANSFER q).trace =
          attemptedTransfers w.trace ++
            [{ output := [0x06], input := InputDest.null, input_length := 0 }] ∧
        (q = true →
          (Flash_SPIComplete w SPIEventType.SPI_COMPLETE_TRANSFER q).g_flash_state.action
              = Action.ACTION_ERASE ∧
          (Flash_SPIComplete w SPIEventType.SPI_COMPLETE_TRANSFER q).trace =
            w.trace ++
              [Effect.pinSet w.g_flash_state.ce_port w.g_flash_state.ce_bit,
               Effect.pinClear w.g_flash_state.wp_port w.g_flash_state.wp_port,
               Effect.spiQueue { output := [0x06], input := InputDest.null, input_length := 0 }
                 true] ∧
          (Flash_SPIComplete w SPIEventType.SPI_COMPLETE_TRANSFER q).spi_queue =
            w.spi_queue ++ [{ output := [0x06], input := InputDest.null, input_length := 0 }])) ∧
      (w.g_input.i0 &&& 0x04 ≠ 0 ∨ w.g_input.i0 &&& 0x08 ≠ 0 →
        (Flash_SPIComplete w SPIEventType.SPI_COMPLETE_TRANSFER q).g_flash_state.is_unlocked
            = w.g_flash_state.is_unlocked ∧
        (Flash_SPIComplete w SPIEventType.SPI_COMPLETE_TRANSFER q).g_flash_state.action
            = Action.ACTION_IDLE ∧
        (Flash_SPIComplete w SPIEventType.SPI_COMPLETE_TRANSFER q).spi_queue = w.spi_queue ∧
        (Flash_SPIComplete w SPIEventType.SPI_COMPLETE_TRANSFER q).g_flash_state.callback
            = none ∧
        (Flash_SPIComplete w SPIEventType.SPI_COMPLETE_TRANSFER q).trace =
          w.trace ++
            [Effect.pinSet w.g_flash_state.ce_port w.g_flash_state.ce_bit,
             Effect.pinClear w.g_flash_state.wp_port w.g_flash_state.wp_port] ++
            (match w.g_flash_state.callback with
              | some cb => [Effect.callback cb false]
              | none => []))) ∧
    ((sampleUnlockStatus 0).g_flash_state.action = Action.ACTION_UNLOCK ∧
      (sampleUnlockStatus 0).cmd_buffer.b0 = OP_STATUS_READ ∧
      (sampleUnlockStatus 0).g_input.i0 = 0 ∧
      (sampleUnlockStatus 0).g_flash_state.wp_port = 5 ∧
      (sampleUnlockStatus 0).g_flash_state.wp_bit = 6 ∧
      (Flash_SPIComplete (sampleUnlockStatus 0) SPIEventType.SPI_COMPLETE_TRANSFER true).trace =
        (sampleUnlockStatus 0).trace ++
          [Effect.pinSet 1 2, Effect.pinClear 5 5, Effect.spiQueue (command [0x06]) true] ∧
      Effect.pinClear 5 6 ∉
        (Flash_SPIComplete (sampleUnlockStatus 0) SPIEventType.SPI_COMPLETE_TRANSFER true).trace) ∧
    ((sampleUnlockStatus 0x0C).g_flash_state.action = Action.ACTION_UNLOCK ∧
      (sampleUnlockStatus 0x0C).cmd_buffer.b0 = OP_STATUS_READ ∧
      (sampleUnlockStatus 0x0C).g_input.i0 = 0x0C ∧
      (Flash_SPIComplete (sampleUnlockStatus 0x0C) SPIEventType.SPI_COMPLETE_TRANSFER
          true).g_flash_state.action = Action.ACTION_IDLE ∧
      (Flash_SPIComplete (sampleUnlockStatus 0x0C) SPIEventType.SPI_COMPLETE_TRANSFER true).trace =
        (sampleUnlockStatus 0x0C).trace ++ [Effect.pinSet 1 2, Effect.pinClear 5 5] ∧
      Effect.pinClear 5 6 ∉
        (Flash_SPIComplete (sampleUnlockStatus 0x0C) SPIEventType.SPI_COMPLETE_TRANSFER
          true).trace) := by
  refine ⟨?_, ⟨by decide, by decide, by decide, by decide, by decide, by decide, by decide⟩,
    ⟨by decide, by decide, by decide, by decide, by decide, by decide⟩⟩
  intro w q ha hc
  constructor
  · rintro ⟨h4, h8⟩
    cases q <;> cases hcb : w.g_flash_state.callback <;>
    simp [Flash_SPIComplete, ChipDisable, EnableWP, PLIB_PORTS_PinSet, PLIB_PORTS_PinClear, ha, hc,
      abortUnlessOk, BeginErase, SPI_QueueTransfer, setAction, RunCallback, CmdBuffer.toList,
      OP_STATUS_READ, OP_ENABLE_WRITE_STATUS_REGISTER, OP_WRITE_STATUS_REGISTER, OP_WRITE_ENABLE,
      BLOCK_PROTECT_0, BLOCK_PROTECT_1, h4, h8, hcb, attemptedTransfers, List.filterMap_append,
      List.prefix_append_right_inj, List.cons_prefix_cons]
  · intro h
    cases hcb : w.g_flash_state.callback <;>
    simp [Flash_SPIComplete, ChipDisable, EnableWP, PLIB_PORTS_PinSet, PLIB_PORTS_PinClear, ha, hc,
      abortUnlessOk, BeginErase, SPI_QueueTransfer, setAction, RunCallback, CmdBuffer.toList,
      OP_STATUS_READ, OP_ENABLE_WRITE_STATUS_REGISTER, OP_WRITE_STATUS_REGISTER, OP_WRITE_ENABLE,
      BLOCK_PROTECT_0, BLOCK_PROTECT_1, h, hcb]

/-- C7: in an Idle state, for a valid sector and size: when is_unlocked is
true, Flash_Write adds exactly one effect, the write-enable transfer [0x06]
handed to the queue (no pin is written, no [0x50] is sent), and the action is
Erase once the queue accepts it; when is_unlocked is false, it runs DisableWP
and hands [0x50] to the queue, and the action is Unlock once the queue accepts
it.  The call returns the queue's answer. -/
theorem C7_unlock_skipped_once_unlocked (w : World)
    (ha : w.g_flash_state.action = Action.ACTION_IDLE)
    (sector size : Nat) (output : Nat → Nat) (cb : Option Nat) (q : Bool)
    (hsec : sector < w.g_flash_state.flash_sectors) (hsize : size ≤ SECTOR_SIZE) :
    (w.g_flash_state.is_unlocked = true →
      (Flash_Write w sector output size cb q).1 = q ∧
      (Flash_Write w sector output size cb q).2.trace =
        w.trace ++ [Effect.spiQueue { output := [0x06], input := InputDest.null, input_length := 0 } q] ∧
      (q = true →
        (Flash_Write w sector output size cb q).2.g_flash_state.action = Action.ACTION_ERASE ∧
        (Flash_Write w sector output size cb q).2.spi_queue =
          w.spi_queue ++ [{ output := [0x06], input := InputDest.null, input_length := 0 }])) ∧
    (w.g_flash_state.is_unlocked = false →
      (Flash_Write w sector output size cb q).1 = q ∧
      (Flash_Write w sector output size cb q).2.trace =
        (DisableWP w).trace ++
          [Effect.spiQueue { output := [0x50], input := InputDest.null, input_length := 0 } q] ∧
      (q = true →
        (Flash_Write w sector output size cb q).2.g_flash_state.action = Action.ACTION_UNLOCK ∧
        (Flash_Write w sector output size cb q).2.spi_queue =
          w.spi_queue ++ [{ output := [0x50], input := InputDest.null, input_length := 0 }])) := by
  have hg : ¬ (sector ≥ w.g_flash_state.flash_sectors ∨ size > SECTOR_SIZE) := by omega
  constructor <;> intro hu <;> cases q <;>
    simp [Flash_Write, ha, hg, hu, BeginErase, SPI_QueueTransfer, setAction, DisableWP,
      PLIB_PORTS_PinSet, CmdBuffer.toList, OP_WRITE_ENABLE, OP_ENABLE_WRITE_STATUS_REGISTER]

/-- Witness for C7: after one complete write the state is Idle and unlocked,
and the next write to sector 5 starts with [0x06]. -/
theorem C7_unlock_skipped_once_unlocked_witness :
    sampleUnlocked.g_flash_state.action = Action.ACTION_IDLE ∧
    5 < sampleUnlocked.g_flash_state.flash_sectors ∧ 2 ≤ SECTOR_SIZE ∧
    sampleUnlocked.g_flash_state.is_unlocked = true ∧
    (Flash_Write sampleUnlocked 5 sampleData 2 (some 4) true).2.trace =
      sampleUnlocked.trace ++
        [Effect.spiQueue { output := [0x06], input := InputDest.null, input_length := 0 } true] :=
  ⟨by decide, by decide, by decide, by decide,
   ((C7_unlock_skipped_once_unlocked sampleUnlocked (by decide) 5 2 sampleData (some 4) true
      (by decide) (by decide)).1 (by decide)).2.1⟩

/-- C8: on completion of a status read (command buffer holding the
status-read opcode), in the erase and in the program phase.  Busy bit set: the
handler hands another status read [0x05] (one byte into g_input) to the queue
and, once the queue accepts it, the action is unchanged.  Busy bit clear: it
advances on that completion; in the erase phase it hands [0x06] to the queue
and the action is Write once accepted, in the program phase it hands the
write-disable [0x04] to the queue and the action stays Write. -/
theorem C8_busy_poll (w : World) (q : Bool) (hc : w.cmd_buffer.b0 = OP_STATUS_READ) :
    (w.g_flash_state.action = Action.ACTION_ERASE → w.g_input.i0 &&& 0x01 ≠ 0 →
      attemptedTransfers (Flash_SPIComplete w SPIEventType.SPI_COMPLETE_TRANSFER q).trace =
        attemptedTransfers w.trace ++
          [{ output := [0x05], input := InputDest.g_input, input_length := 1 }] ∧
      (q = true →
        (Flash_SPIComplete w SPIEventType.SPI_COMPLETE_TRANSFER q).g_flash_state.action
          = Action.ACTION_ERASE ∧
        (Flash_SPIComplete w SPIEventType.SPI_COMPLETE_TRANSFER q).spi_queue =
          w.spi_queue ++ [{ output := [0x05], input := InputDest.g_input, input_length := 1 }])) ∧
    (w.g_flash_state.action = Action.ACTION_ERASE → w.g_input.i0 &&& 0x01 = 0 →
      attemptedTransfers (Flash_SPIComplete w SPIEventType.SPI_COMPLETE_TRANSFER q).trace =
        attemptedTransfers w.trace ++
          [{ output := [0x06], input := InputDest.null, input_length := 0 }] ∧
      (q = true →
        (Flash_SPIComplete w SPIEventType.SPI_COMPLETE_TRANSFER q).g_flash_state.action
          = Action.ACTION_WRITE ∧
        (Flash_SPIComplete w SPIEventType.SPI_COMPLETE_TRANSFER q).spi_queue =
          w.spi_queue ++ [{ output := [0x06], input := InputDest.null, input_length := 0 }])) ∧
    (w.g_flash_state.action = Action.ACTION_WRITE → w.g_input.i0 &&& 0x01 ≠ 0 →
      attemptedTransfers (Flash_SPIComplete w SPIEventType.SPI_COMPLETE_TRANSFER q).trace =
        attemptedTransfers w.trace ++
          [{ output := [0x05], input := InputDest.g_input, input_length := 1 }] ∧
      (Flash_SPIComplete w SPIEventType.SPI_COMPLETE_TRANSFER q).g_flash_state.action
        = Action.ACTION_WRITE ∧
      (q = true →
        (Flash_SPIComplete w SPIEventType.SPI_COMPLETE_TRANSFER q).spi_queue =
          w.spi_queue ++ [{ output := [0x05], input := InputDest.g_input, input_length := 1 }])) ∧
    (w.g_flash_state.action = Action.ACTION_WRITE → w.g_input.i0 &&& 0x01 = 0 →
      attemptedTransfers (Flash_SPIComplete w SPIEventType.SPI_COMPLETE_TRANSFER q).trace =
        attemptedTransfers w.trace ++
          [{ output := [0x04], input := InputDest.null, input_length := 0 }] ∧
      (Flash_SPIComplete w SPIEventType.SPI_COMPLETE_TRANSFER q).g_flash_state.action
        = Action.ACTION_WRITE ∧
      (q = true →
        (Flash_SPIComplete w SPIEventType.SPI_COMPLETE_TRANSFER q).spi_queue =
          w.spi_queue ++ [{ output := [0x04], input := InputDest.null, input_length := 0 }])) := by
  have busy_set : w.g_input.i0 &&& 0x01 ≠ 0 → w.g_input.i0 % 2 = 1 := by
    intro h; rw [Nat.and_one_is_mod] at h; omega
  have busy_clear : w.g_input.i0 &&& 0x01 = 0 → ¬ (w.g_input.i0 % 2 = 1) := by
    intro h; rw [Nat.and_one_is_mod] at h; omega
  refine ⟨?_, ?_, ?_, ?_⟩ <;> intro ha hb
  · have hb1 := busy_set hb
    cases q <;> cases hcb : w.g_flash_state.callback <;>
    simp [Flash_SPIComplete, ChipDisable, PLIB_PORTS_PinSet, ha, hc, hb1, hcb,
      abortUnlessOk, SendReadStatus, SPI_QueueTransfer, setAction, RunCallback, CmdBuffer.toList,
      OP_STATUS_READ, OP_WRITE_ENABLE, OP_SECTOR_ERASE, BUSY,
      attemptedTransfers, List.filterMap_append]
  · have hb0 := busy_clear hb
    cases q <;> cases hcb : w.g_flash_state.callback <;>
    simp [Flash_SPIComplete, ChipDisable, PLIB_PORTS_PinSet, ha, hc, hb0, hcb,
      abortUnlessOk, SendReadStatus, SPI_QueueTransfer, setAction, RunCallback, CmdBuffer.toList,
      OP_STATUS_READ, OP_WRITE_ENABLE, OP_SECTOR_ERASE, BUSY,
      attemptedTransfers, List.filterMap_append]
  · have hb1 := busy_set hb
    cases q <;>
    simp [Flash_SPIComplete, ChipDisable, PLIB_PORTS_PinSet, ha, hc, hb1,
      SendReadStatus, SPI_QueueTransfer, CmdBuffer.toList,
      OP_STATUS_READ, OP_WRITE_ENABLE, OP_ENABLE_SOFTWARE_EOW,
      OP_AUTO_INCREMENT_WRITE, OP_WRITE_DISABLE, OP_DISBLE_SOFTWARE_EOW, BUSY,
      attemptedTransfers, List.filterMap_append]
  · have hb0 := busy_clear hb
    cases q <;>
    simp [Flash_SPIComplete, ChipDisable, PLIB_PORTS_PinSet, ha, hc, hb0,
      SendReadStatus, SPI_QueueTransfer, CmdBuffer.toList,
      OP_STATUS_READ, OP_WRITE_ENABLE, OP_ENABLE_SOFTWARE_EOW,
      OP_AUTO_INCREMENT_WRITE, OP_WRITE_DISABLE, OP_DISBLE_SOFTWARE_EOW, BUSY,
      attemptedTransfers, List.filterMap_append]

/-- Witness for C8: the first erase poll of a write after initialisation
answers 0x01 (busy), and the handler polls again. -/
theorem C8_busy_poll_witness :
    (sampleErasePoll 0x01).cmd_buffer.b0 = OP_STATUS_READ ∧
    (sampleErasePoll 0x01).g_flash_state.action = Action.ACTION_ERASE ∧
    (sampleErasePoll 0x01).g_input.i0 &&& 0x01 ≠ 0 ∧
    attemptedTransfers
        (Flash_SPIComplete (sampleErasePoll 0x01) SPIEventType.SPI_COMPLETE_TRANSFER true).trace =
      attemptedTransfers (sampleErasePoll 0x01).trace ++
        [{ output := [0x05], input := InputDest.g_input, input_length := 1 }] :=
  ⟨by decide, by decide, by decide,
   ((C8_busy_poll (sampleErasePoll 0x01) true (by decide)).1 (by decide) (by decide)).1⟩

/-- C9: in an Idle state with nothing pending on the bus and the sector count
Flash_Initialize sets, for every sector below 64 and every size, a Flash_Read
the queue accepts returns true and adds exactly one effect: the transfer
[0x03, UInt32Byte1 a, UInt32Byte2 a, UInt32Byte3 a] with a = sector * 4096,
reading size bytes into the caller buffer, which is then the only pending
transfer, with action Read.  When the bus completes it, the chip is enabled,
the size received bytes go to the caller buffer, the chip is disabled, the
callback is invoked with true and cleared, the action is Idle and nothing is
pending, whatever the queue would have answered. -/
theorem C9_read_single_transfer (w : World)
    (ha : w.g_flash_state.action = Action.ACTION_IDLE)
    (hq : w.spi_queue = [])
    (hfs : w.g_flash_state.flash_sectors = FLASH_SIZE / SECTOR_SIZE)
    (sector input size cb : Nat) (hsec : sector < 64) (rx : Nat → Nat) (q : Bool) :
    (Flash_Read w sector input size (some cb) true).1 = true ∧
    (Flash_Read w sector input size (some cb) true).2.trace =
      w.trace ++
        [Effect.spiQueue
          { output := [0x03, UInt32Byte1 (sector * 4096), UInt32Byte2 (sector * 4096),
                       UInt32Byte3 (sector * 4096)],
            input := InputDest.caller input, input_length := size } true] ∧
    (Flash_Read w sector input size (some cb) true).2.spi_queue =
      [{ output := [0x03, UInt32Byte1 (sector * 4096), UInt32Byte2 (sector * 4096),
                    UInt32Byte3 (sector * 4096)],
         input := InputDest.caller input, input_length := size }] ∧
    (Flash_Read w sector input size (some cb) true).2.g_flash_state.action = Action.ACTION_READ ∧
    (SPI_Complete (Flash_Read w sector input size (some cb) true).2 rx q).g_flash_state.action
      = Action.ACTION_IDLE ∧
    (SPI_Complete (Flash_Read w sector input size (some cb) true).2 rx q).g_flash_state.callback
      = none ∧
    (SPI_Complete (Flash_Read w sector input size (some cb) true).2 rx q).spi_queue = [] ∧
    (SPI_Complete (Flash_Read w sector input size (some cb) true).2 rx q).trace =
      (Flash_Read w sector input size (some cb) true).2.trace ++
        [Effect.pinClear w.g_flash_state.ce_port w.g_flash_state.ce_bit,
         Effect.spiReceived (InputDest.caller input) ((List.range size).map (fun i => rx i % 256)),
         Effect.pinSet w.g_flash_state.ce_port w.g_flash_state.ce_bit,
         Effect.callback cb true] := by
  have hfs64 : w.g_flash_state.flash_sectors = 64 := by
    rw [hfs]; simp [FLASH_SIZE, SECTOR_SIZE]
  have hg : ¬ (64 ≤ sector) := by omega
  have hmod : sector * 4096 % 4294967296 = sector * 4096 := Nat.mod_eq_of_lt (by omega)
  simp [Flash_Read, ha, hq, hfs64, hg, hmod, SPI_QueueTransfer, setAction, CmdBuffer.toList,
    SPI_Complete, SPI_Receive, Flash_SPIComplete, ChipEnable, ChipDisable, PLIB_PORTS_PinSet,
    PLIB_PORTS_PinClear, RunCallback, SECTOR_SIZE, OP_READ]

/-- Witness for C9: a read of 16 bytes of sector 3 right after
initialisation queues [0x03, 0x00, 0x30, 0x00]. -/
theorem C9_read_single_transfer_witness :
    sampleInit.g_flash_state.action = Action.ACTION_IDLE ∧
    sampleInit.spi_queue = [] ∧
    sampleInit.g_flash_state.flash_sectors = FLASH_SIZE / SECTOR_SIZE ∧
    3 < 64 ∧
    (Flash_Read sampleInit 3 100 16 (some 1) true).2.spi_queue =
      [{ output := [0x03, UInt32Byte1 (3 * 4096), UInt32Byte2 (3 * 4096), UInt32Byte3 (3 * 4096)],
         input := InputDest.caller 100, input_length := 16 }] :=
  ⟨by decide, by decide, by decide, by decide,
   (C9_read_single_transfer sampleInit (by decide) (by decide) (by decide) 3 100 16 1
      (by decide) (reply 0) true).2.2.1⟩

/-- C10 (the code departs from the claim): the write programs only data[0]
and data[1].  Against the serial flash model, after initialisation, the
accepted and completed Flash_Write(3, [0x11, 0x22, 0x33], 3, cb) followed by
the accepted and completed Flash_Read(3, buf, 3, cb2) leaves
buf = [0x11, 0x22, 0xFF], which is not the data written; a two-byte write
does round-trip. -/
theorem C10_round_trip_loses_third_byte :
    roundTrip 3 [0x11, 0x22, 0x33] = (true, true, some [0x11, 0x22, 0xFF]) ∧
    (roundTrip 3 [0x11, 0x22, 0x33]).2.2 ≠ some [0x11, 0x22, 0x33] ∧
    roundTrip 3 [0x11, 0x22] = (true, true, some [0x11, 0x22]) := by
  refine ⟨by decide, by decide, by decide⟩

/-- C11 (the code departs from the claim): EnableWP and DisableWP pass
wp_port as the bit position.  For every settings record Flash_Initialize
makes the three configured pins outputs, sets the chip-enable pin and the hold
pin, and then clears pin (wp_port, wp_port).  With the wiring ce = (1, 2),
hold = (3, 4), wp = (5, 6) the write-protect pin (5, 6) is never cleared and
pin (5, 5), which is none of the three, is driven; the following Flash_Write
sets pin (5, 5) and not (5, 6), and the unlock step clears pin (5, 5) again. -/
theorem C11_write_protect_pin_is_not_wp_bit :
    (∀ (w0 : World) (settings : FlashHardwareSettings),
      (Flash_Initialize w0 settings).trace = w0.trace ++
        [Effect.pinDirectionOutput settings.ce_port settings.ce_bit,
         Effect.pinDirectionOutput settings.hold_port settings.hold_bit,
         Effect.pinDirectionOutput settings.wp_port settings.wp_bit,
         Effect.pinSet settings.ce_port settings.ce_bit,
         Effect.pinSet settings.hold_port settings.hold_bit,
         Effect.pinClear settings.wp_port settings.wp_port]) ∧
    sampleInit.trace =
      [Effect.pinDirectionOutput 1 2, Effect.pinDirectionOutput 3 4,
       Effect.pinDirectionOutput 5 6, Effect.pinSet 1 2, Effect.pinSet 3 4,
       Effect.pinClear 5 5] ∧
    Effect.pinClear 5 6 ∉ sampleInit.trace ∧
    (Flash_Write sampleInit 3 sampleData 3 (some 9) true).2.trace =
      sampleInit.trace ++ [Effect.pinSet 5 5, Effect.spiQueue (command [0x50]) true] ∧
    (Flash_SPIComplete (sampleUnlockStatus 0) SPIEventType.SPI_COMPLETE_TRANSFER true).trace =
      (sampleUnlockStatus 0).trace ++
        [Effect.pinSet 1 2, Effect.pinClear 5 5, Effect.spiQueue (command [0x06]) true] := by
  refine ⟨?_, by decide, by decide, by decide, by decide⟩
  intro w0 settings
  simp [Flash_Initialize, EnableWP, DisableHold, PLIB_PORTS_PinSet, PLIB_PORTS_PinClear,
    PLIB_PORTS_PinDirectionOutputSet]

/-- C12: for every token, command and return code and every list of parts
whose combined length L is at most PAYLOAD_SIZE (with START_OF_MESSAGE_ID and
END_OF_MESSAGE_ID bytes and PAYLOAD_SIZE + 9 a 16-bit value), after
USBTransport_SendResponse the transmit buffer holds [0] = START_OF_MESSAGE_ID,
[1] = token, [2] and [3] = low and high byte of command, [4] and [5] = low and
high byte of L, [6] = return code, [8 .. 8+L) = the parts' bytes concatenated
in order, [8+L] = END_OF_MESSAGE_ID, and tx_data_pending = 9 + L. -/
theorem C12_frame_layout (k : TransportConstants) (w : USBWorld)
    (token command rc : Nat) (data : List IOVec) (flags_changed : Bool)
    (hk : k.START_OF_MESSAGE_ID < 256 ∧ k.END_OF_MESSAGE_ID < 256 ∧ k.PAYLOAD_SIZE + 9 < 2 ^ 16)
    (hargs : token < 256 ∧ command < 2 ^ 16 ∧ rc < 256)
    (hL : sumLengths data ≤ k.PAYLOAD_SIZE) :
    (USBTransport_SendResponse k w token command rc data flags_changed).2.transmitDataBuffer 0
      = k.START_OF_MESSAGE_ID ∧
    (USBTransport_SendResponse k w token command rc data flags_changed).2.transmitDataBuffer 1
      = token ∧
    (USBTransport_SendResponse k w token command rc data flags_changed).2.transmitDataBuffer 2
      = command % 256 ∧
    (USBTransport_SendResponse k w token command rc data flags_changed).2.transmitDataBuffer 3
      = command / 256 ∧
    (USBTransport_SendResponse k w token command rc data flags_changed).2.transmitDataBuffer 4
      = sumLengths data % 256 ∧
    (USBTransport_SendResponse k w token command rc data flags_changed).2.transmitDataBuffer 5
      = sumLengths data / 256 ∧
    (USBTransport_SendResponse k w token command rc data flags_changed).2.transmitDataBuffer 6
      = rc ∧
    bufferBytes
      (fun i => (USBTransport_SendResponse k w token command rc data
        flags_changed).2.transmitDataBuffer (8 + i)) (sumLengths data)
      = partsBytes data ∧
    (USBTransport_SendResponse k w token command rc data flags_changed).2.transmitDataBuffer
        (8 + sumLengths data)
      = k.END_OF_MESSAGE_ID ∧
    (USBTransport_SendResponse k w token command rc data
        flags_changed).2.g_usb_transport_data.tx_data_pending
      = 9 + sumLengths data := by
  obtain ⟨hS, hE, hP⟩ := hk
  obtain ⟨htok, hcmd, hrc⟩ := hargs
  have hP16 : k.PAYLOAD_SIZE < 2 ^ 16 := by omega
  -- the buffer when the loop starts
  obtain ⟨buf0, hbuf0⟩ : ∃ b, b =
      (if flags_changed then
        setByte (setByte (setByte (setByte (setByte (setByte (setByte w.transmitDataBuffer 0
          k.START_OF_MESSAGE_ID) 1 token) 2 (ShortLSB command)) 3 (ShortMSB command)) 6 rc) 7 0) 7
          ((setByte (setByte (setByte (setByte (setByte (setByte w.transmitDataBuffer 0
          k.START_OF_MESSAGE_ID) 1 token) 2 (ShortLSB command)) 3 (ShortMSB command)) 6 rc) 7 0) 7
            ||| k.TRANSPORT_FLAGS_CHANGED)
      else
        setByte (setByte (setByte (setByte (setByte (setByte w.transmitDataBuffer 0
          k.START_OF_MESSAGE_ID) 1 token) 2 (ShortLSB command)) 3 (ShortMSB command)) 6 rc) 7 0) :=
    ⟨_, rfl⟩
  have h0 : buf0 0 = k.START_OF_MESSAGE_ID ∧ buf0 1 = token ∧ buf0 2 = command % 256 ∧
      buf0 3 = command / 256 ∧ buf0 6 = rc := by
    rw [hbuf0]
    cases flags_changed <;>
      simp [setByte, ShortLSB, ShortMSB, Nat.mod_eq_of_lt hS, Nat.mod_eq_of_lt htok,
        Nat.mod_eq_of_lt hrc] <;> omega
  obtain ⟨a1, a2, a3⟩ := assembleParts_fits k hP16 data buf0 0 (by omega)
  have hres : USBTransport_SendResponse k w token command rc data flags_changed =
      (true, { (w.emit (USBEffect.ledToggle BSP_LED_3)) with
        transmitDataBuffer :=
          setByte (setByte (setByte (assembleParts k buf0 0 data).1 4
            (ShortLSB (assembleParts k buf0 0 data).2)) 5
            (ShortMSB (assembleParts k buf0 0 data).2))
            (8 + (assembleParts k buf0 0 data).2) k.END_OF_MESSAGE_ID,
        g_usb_transport_data :=
          { w.g_usb_transport_data with
            tx_data_pending := ((assembleParts k buf0 0 data).2 + 9) % 2 ^ 16 } }) := by
    rw [hbuf0]; rfl
  rw [hres]
  simp only [Nat.zero_add] at a1 a2 a3
  simp only [a1, USBWorld.emit]
  obtain ⟨g0, g1, g2, g3, g6⟩ := h0
  have hL16 : sumLengths data < 65536 := by omega
  refine ⟨?_, ?_, ?_, ?_, ?_, ?_, ?_, ?_, ?_, ?_⟩
  · simp [setByte, a2 0 (by omega), g0]; intro h; omega
  · simp [setByte, a2 1 (by omega), g1]; intro h; omega
  · simp [setByte, a2 2 (by omega), g2]; intro h; omega
  · simp [setByte, a2 3 (by omega), g3]; intro h; omega
  · simp [setByte, ShortLSB]; intro h; omega
  · have e5 : ¬ (5 = 8 + sumLengths data) := by omega
    simp [setByte, ShortMSB, e5]
    omega
  · simp [setByte, a2 6 (by omega), g6]; intro h; omega
  · rw [← a3]
    unfold bufferBytes
    apply List.map_congr_left
    intro i hi
    have hi' : i < sumLengths data := List.mem_range.mp hi
    have e1 : ¬ (8 + i = 8 + sumLengths data) := by omega
    have e2 : ¬ (8 + i = 5) := by omega
    have e3 : ¬ (8 + i = 4) := by omega
    simp [setByte, e1, e2, e3]
  · simp [setByte, Nat.mod_eq_of_lt hE]
  · show (sumLengths data + 9) % 2 ^ 16 = 9 + sumLengths data
    omega

/-- Witness for C12: token 5, command 0x1234, return code 0 and the single
part "AB", with sample values 0x5a, 0xa5 and 513 for START_OF_MESSAGE_ID,
END_OF_MESSAGE_ID and PAYLOAD_SIZE: the first eleven bytes of the transmit
buffer are [START, 5, 0x34, 0x12, 2, 0, 0, flags, 'A', 'B', END] and
tx_data_pending is 11. -/
theorem C12_frame_layout_witness :
    (sampleConstants.START_OF_MESSAGE_ID < 256 ∧ sampleConstants.END_OF_MESSAGE_ID < 256 ∧
      sampleConstants.PAYLOAD_SIZE + 9 < 2 ^ 16) ∧
    (5 < 256 ∧ 0x1234 < 2 ^ 16 ∧ 0 < 256) ∧
    sumLengths [iovecOf [0x41, 0x42]] ≤ sampleConstants.PAYLOAD_SIZE ∧
    (USBTransport_SendResponse sampleConstants sampleUSBInit 5 0x1234 0 [iovecOf [0x41, 0x42]]
        false).2.g_usb_transport_data.tx_data_pending = 9 + sumLengths [iovecOf [0x41, 0x42]] ∧
    bufferBytes (USBTransport_SendResponse sampleConstants sampleUSBInit 5 0x1234 0
        [iovecOf [0x41, 0x42]] false).2.transmitDataBuffer 11
      = [0x5a, 5, 0x34, 0x12, 2, 0, 0, 0, 0x41, 0x42, 0xa5] ∧
    (USBTransport_SendResponse sampleConstants sampleUSBInit 5 0x1234 0 [iovecOf [0x41, 0x42]]
        false).2.g_usb_transport_data.tx_data_pending = 11 :=
  ⟨by decide, by decide, by decide,
   (C12_frame_layout sampleConstants sampleUSBInit 5 0x1234 0 [iovecOf [0x41, 0x42]] false
      (by decide) (by decide) (by decide)).2.2.2.2.2.2.2.2.2,
   by decide, by decide⟩

/-- C13 (the code departs from the claim): the 32-bit sum
`offset + data[i].length` wraps.  For every PAYLOAD_SIZE from 1 up to 65526,
the parts of lengths 1 and 0xFFFFFFFF have a combined length above
PAYLOAD_SIZE, yet the second part is not recognised as too long: byte 7 is
left without the truncated bit, the length field is 0, the end marker is put
at index 8, tx_data_pending is 9, and the second part is copied whole from
index 9 on, so that the bytes at the indices above 8 + PAYLOAD_SIZE are
overwritten too. -/
theorem C13_length_sum_wraps (k : TransportConstants) (w : USBWorld)
    (token command rc : Nat) (flags_changed : Bool) (a b : Nat → Nat)
    (hP : 1 ≤ k.PAYLOAD_SIZE ∧ k.PAYLOAD_SIZE + 9 < 2 ^ 16) :
    k.PAYLOAD_SIZE < sumLengths [{ base := a, length := 1 }, { base := b, length := 2 ^ 32 - 1 }] ∧
    (USBTransport_SendResponse k w token command rc
        [{ base := a, length := 1 }, { base := b, length := 2 ^ 32 - 1 }]
        flags_changed).2.transmitDataBuffer 7
      = (if flags_changed then k.TRANSPORT_FLAGS_CHANGED % 256 else 0) ∧
    (USBTransport_SendResponse k w token command rc
        [{ base := a, length := 1 }, { base := b, length := 2 ^ 32 - 1 }]
        flags_changed).2.transmitDataBuffer 4 = 0 ∧
    (USBTransport_SendResponse k w token command rc
        [{ base := a, length := 1 }, { base := b, length := 2 ^ 32 - 1 }]
        flags_changed).2.transmitDataBuffer 5 = 0 ∧
    (USBTransport_SendResponse k w token command rc
        [{ base := a, length := 1 }, { base := b, length := 2 ^ 32 - 1 }]
        flags_changed).2.transmitDataBuffer 8 = k.END_OF_MESSAGE_ID % 256 ∧
    (USBTransport_SendResponse k w token command rc
        [{ base := a, length := 1 }, { base := b, length := 2 ^ 32 - 1 }]
        flags_changed).2.g_usb_transport_data.tx_data_pending = 9 ∧
    (∀ j, 9 ≤ j → j < 8 + 2 ^ 32 →
      (USBTransport_SendResponse k w token command rc
        [{ base := a, length := 1 }, { base := b, length := 2 ^ 32 - 1 }]
        flags_changed).2.transmitDataBuffer j = b (j - 9)) := by
  obtain ⟨hP1, hP2⟩ := hP
  have c1 : ¬ (1 > k.PAYLOAD_SIZE) := by omega
  have c2 : ¬ (0 > k.PAYLOAD_SIZE) := by omega
  refine ⟨?_, ?_, ?_, ?_, ?_, ?_, ?_⟩
  · simp [sumLengths]; omega
  · cases flags_changed <;>
      simp [USBTransport_SendResponse, assembleParts, c1, c2, setByte, memcpy, ShortLSB, ShortMSB,
        USBWorld.emit]
  · simp [USBTransport_SendResponse, assembleParts, c1, c2, setByte, ShortLSB, ShortMSB,
      USBWorld.emit]
  · simp [USBTransport_SendResponse, assembleParts, c1, c2, setByte, ShortLSB, ShortMSB,
      USBWorld.emit]
  · simp [USBTransport_SendResponse, assembleParts, c1, c2, setByte, ShortLSB, ShortMSB,
      USBWorld.emit]
  · simp [USBTransport_SendResponse, assembleParts, c1, c2, setByte, ShortLSB, ShortMSB,
      USBWorld.emit]
  · intro j h9 hj
    have e1 : ¬ (j = 8) := by omega
    have e2 : ¬ (j = 5) := by omega
    have e3 : ¬ (j = 4) := by omega
    have e4 : j < 4294967304 := by omega
    simp [USBTransport_SendResponse, assembleParts, c1, c2, setByte, memcpy, ShortLSB, ShortMSB,
      USBWorld.emit, e1, e2, e3, e4, h9]

/-- Witness for C13: PAYLOAD_SIZE 513, a one-byte part "A" and a part of
length 0xFFFFFFFF: index 8 + 513 + 1 of the transmit buffer, beyond the end
marker's place, is overwritten with a byte of the second part. -/
theorem C13_length_sum_wraps_witness :
    (1 ≤ sampleConstants.PAYLOAD_SIZE ∧ sampleConstants.PAYLOAD_SIZE + 9 < 2 ^ 16) ∧
    (USBTransport_SendResponse sampleConstants sampleUSBInit 5 0x1234 0
        [{ base := arrayView [0x41], length := 1 }, { base := reply 0x42, length := 2 ^ 32 - 1 }]
        false).2.transmitDataBuffer 7 = (if false then sampleConstants.TRANSPORT_FLAGS_CHANGED % 256 else 0) ∧
    (USBTransport_SendResponse sampleConstants sampleUSBInit 5 0x1234 0
        [{ base := arrayView [0x41], length := 1 }, { base := reply 0x42, length := 2 ^ 32 - 1 }]
        false).2.transmitDataBuffer (8 + 513 + 1) = 0x42 :=
  ⟨by decide,
   (C13_length_sum_wraps sampleConstants sampleUSBInit 5 0x1234 0 false (arrayView [0x41])
      (reply 0x42) (by decide)).2.1,
   by decide⟩

/-- C14 (the code departs from the claim): the truncated bit is missing when
the 32-bit sum `offset + data[i].length` wraps.  For every PAYLOAD_SIZE from 1
up to 65526, the parts of lengths 1 and 0xFFFFFFFF have a combined length
above PAYLOAD_SIZE, and byte 7 of the built frame is the flags-changed
constant alone if the flags have changed and zero otherwise: with
flags-changed as bit 0 and truncated as bit 1, bit 1 of byte 7 is clear. -/
theorem C14_truncated_bit_missing_on_wrap (k : TransportConstants) (w : USBWorld)
    (token command rc : Nat) (flags_changed : Bool) (a b : Nat → Nat)
    (hP : 1 ≤ k.PAYLOAD_SIZE ∧ k.PAYLOAD_SIZE + 9 < 2 ^ 16) :
    k.PAYLOAD_SIZE < sumLengths [{ base := a, length := 1 }, { base := b, length := 2 ^ 32 - 1 }] ∧
    (USBTransport_SendResponse k w token command rc
        [{ base := a, length := 1 }, { base := b, length := 2 ^ 32 - 1 }]
        flags_changed).2.transmitDataBuffer 7
      = (if flags_changed then k.TRANSPORT_FLAGS_CHANGED % 256 else 0) ∧
    (k.TRANSPORT_FLAGS_CHANGED = 0x01 → k.TRANSPORT_MSG_TRUNCATED = 0x02 →
      (USBTransport_SendResponse k w token command rc
        [{ base := a, length := 1 }, { base := b, length := 2 ^ 32 - 1 }]
        flags_changed).2.transmitDataBuffer 7 &&& 0x02 = 0) := by
  obtain ⟨hP1, hP2⟩ := hP
  have c1 : ¬ (1 > k.PAYLOAD_SIZE) := by omega
  have c2 : ¬ (0 > k.PAYLOAD_SIZE) := by omega
  have h7 : (USBTransport_SendResponse k w token command rc
        [{ base := a, length := 1 }, { base := b, length := 2 ^ 32 - 1 }]
        flags_changed).2.transmitDataBuffer 7
      = (if flags_changed then k.TRANSPORT_FLAGS_CHANGED % 256 else 0) := by
    cases flags_changed <;>
      simp [USBTransport_SendResponse, assembleParts, c1, c2, setByte, memcpy, ShortLSB, ShortMSB,
        USBWorld.emit]
  refine ⟨?_, h7, ?_⟩
  · simp [sumLengths]; omega
  · intro hf _
    rw [h7, hf]
    cases flags_changed <;> decide

/-- Witness for C14: PAYLOAD_SIZE 513, flags changed, a one-byte part and a
part of length 0xFFFFFFFF: byte 7 is 0x01, without the truncated bit 0x02. -/
theorem C14_truncated_bit_missing_on_wrap_witness :
    (1 ≤ sampleConstants.PAYLOAD_SIZE ∧ sampleConstants.PAYLOAD_SIZE + 9 < 2 ^ 16) ∧
    sampleConstants.PAYLOAD_SIZE <
      sumLengths [{ base := arrayView [0x41], length := 1 },
                  { base := reply 0x42, length := 2 ^ 32 - 1 }] ∧
    (USBTransport_SendResponse sampleConstants sampleUSBInit 5 0x1234 0
        [{ base := arrayView [0x41], length := 1 }, { base := reply 0x42, length := 2 ^ 32 - 1 }]
        true).2.transmitDataBuffer 7 = 0x01 :=
  ⟨by decide,
   (C14_truncated_bit_missing_on_wrap sampleConstants sampleUSBInit 5 0x1234 0 true
      (arrayView [0x41]) (reply 0x42) (by decide)).1,
   by decide⟩

/-- C15: for every input and every transport state (PAYLOAD_SIZE + 9 being a
16-bit value), USBTransport_SendResponse returns true; immediately afterwards
tx_data_pending is 9 plus the payload length written in bytes 4 and 5, which
is not zero, so USBTransport_WritePending() is true; after a subsequent
control-transfer data-sent event USBTransport_WritePending() is false. -/
theorem C15_send_response_pending (k : TransportConstants) (w : USBWorld)
    (token command rc : Nat) (data : List IOVec) (flags_changed : Bool)
    (hP : k.PAYLOAD_SIZE + 9 < 2 ^ 16) :
    (USBTransport_SendResponse k w token command rc data flags_changed).1 = true ∧
    (USBTransport_SendResponse k w token command rc data
        flags_changed).2.g_usb_transport_data.tx_data_pending
      = 9 + ((USBTransport_SendResponse k w token command rc data
                flags_changed).2.transmitDataBuffer 4
            + 256 * (USBTransport_SendResponse k w token command rc data
                flags_changed).2.transmitDataBuffer 5) ∧
    (USBTransport_SendResponse k w token command rc data
        flags_changed).2.g_usb_transport_data.tx_data_pending ≠ 0 ∧
    USBTransport_WritePending
      (USBTransport_SendResponse k w token command rc data flags_changed).2 = true ∧
    USBTransport_WritePending
      (USBTransport_EventHandler k
        (USBTransport_SendResponse k w token command rc data flags_changed).2
        USB_DEVICE_EVENT.USB_DEVICE_EVENT_CONTROL_TRANSFER_DATA_SENT) = false := by
  have hP16 : k.PAYLOAD_SIZE < 2 ^ 16 := by omega
  have hle := assembleParts_offset_le k hP16 data
    (frameHeader k w.transmitDataBuffer token command rc flags_changed) 0 (by omega)
  rw [USBTransport_SendResponse_eq]
  generalize (assembleParts k (frameHeader k w.transmitDataBuffer token command rc
    flags_changed) 0 data).2 = off at hle
  generalize (assembleParts k (frameHeader k w.transmitDataBuffer token command rc
    flags_changed) 0 data).1 = buf
  have e4 : ¬ (4 = 8 + off) := by omega
  have e5 : ¬ (5 = 8 + off) := by omega
  have hpend : (off + 9) % 2 ^ 16 = off + 9 := Nat.mod_eq_of_lt (by omega)
  refine ⟨rfl, ?_, ?_, ?_, ?_⟩
  · simp only [setByte, e4, e5, if_false, if_true, ShortLSB, ShortMSB, USBWorld.emit, hpend]
    simp
    omega
  · simp only [USBWorld.emit, hpend]
    omega
  · simp only [USBTransport_WritePending, USBWorld.emit, hpend]
    simp
  · simp [USBTransport_WritePending, USBTransport_EventHandler]

/-- Witness for C15: PAYLOAD_SIZE 513 and the single part "AB". -/
theorem C15_send_response_pending_witness :
    sampleConstants.PAYLOAD_SIZE + 9 < 2 ^ 16 ∧
    USBTransport_WritePending
      (USBTransport_SendResponse sampleConstants sampleUSBInit 5 0x1234 0
        [iovecOf [0x41, 0x42]] false).2 = true :=
  ⟨by decide,
   (C15_send_response_pending sampleConstants sampleUSBInit 5 0x1234 0 [iovecOf [0x41, 0x42]]
      false (by decide)).2.2.2.1⟩

/-- C16: in the main task with no detach requested and is_configured false,
one call of USBTransport_Tasks sets the state to waiting-for-configuration,
clears rx_in_progress and leaves every other transport field and both buffers
as they were; its only external actions are the two endpoint-disable calls,
for the receive and then the transmit endpoint, so nothing is delivered and no
control-send is issued. -/
theorem C16_deconfigured_while_running (k : TransportConstants) (w : USBWorld)
    (a : USBStackAnswers)
    (hs : w.g_usb_transport_data.state = USBTransportState.USB_STATE_MAIN_TASK)
    (hd : w.g_usb_transport_data.dfu_detach = false)
    (hc : w.g_usb_transport_data.is_configured = false) :
    USBTransport_Tasks k w a =
      { w with
        g_usb_transport_data :=
          { w.g_usb_transport_data with
            state := USBTransportState.USB_STATE_WAIT_FOR_CONFIGURATION,
            rx_in_progress := false },
        trace := w.trace ++
          [USBEffect.endpointDisable w.g_usb_transport_data.usb_device
             w.g_usb_transport_data.rx_endpoint,
           USBEffect.endpointDisable w.g_usb_transport_data.usb_device
             w.g_usb_transport_data.tx_endpoint] } := by
  simp [USBTransport_Tasks, USBTransport_Tasks_main, hs, hd, hc, USBWorld.emit]

/-- Witness for C16: the running transport after a DECONFIGURED event. -/
theorem C16_deconfigured_while_running_witness :
    sampleUSBDeconfigured.g_usb_transport_data.state = USBTransportState.USB_STATE_MAIN_TASK ∧
    sampleUSBDeconfigured.g_usb_transport_data.dfu_detach = false ∧
    sampleUSBDeconfigured.g_usb_transport_data.is_configured = false ∧
    (USBTransport_Tasks sampleConstants sampleUSBDeconfigured sampleAnswers).trace =
      sampleUSBDeconfigured.trace ++
        [USBEffect.endpointDisable 1 0x01, USBEffect.endpointDisable 1 0x81] :=
  ⟨by decide, by decide, by decide,
   by rw [C16_deconfigured_while_running sampleConstants sampleUSBDeconfigured sampleAnswers
        (by decide) (by decide) (by decide)]; decide⟩

/-- C17: USBTransport_Initialize sets the receive endpoint to 0x01 and the
transmit endpoint to 0x81.  In the waiting-for-configuration state with these
endpoints, one call of USBTransport_Tasks with is_configured true enables the
receive endpoint and then the transmit endpoint as bulk endpoints, each only
if the stack reports it as not enabled, with packet size 64 at full speed and
512 at high speed, and sets the state to the main task, changing no other
field; with is_configured false it changes nothing and makes no call. -/
theorem C17_configured_enables_endpoints (k : TransportConstants) (w : USBWorld)
    (a : USBStackAnswers)
    (hs : w.g_usb_transport_data.state = USBTransportState.USB_STATE_WAIT_FOR_CONFIGURATION)
    (hrx : w.g_usb_transport_data.rx_endpoint = 0x01)
    (htx : w.g_usb_transport_data.tx_endpoint = 0x81) :
    (∀ (w0 : USBWorld) (cb : Option Nat),
      (USBTransport_Initialize w0 cb).g_usb_transport_data.rx_endpoint = 0x01 ∧
      (USBTransport_Initialize w0 cb).g_usb_transport_data.tx_endpoint = 0x81) ∧
    (w.g_usb_transport_data.is_configured = true → a.speed = USB_SPEED.USB_SPEED_FULL →
      USBTransport_Tasks k w a =
        { w with
          g_usb_transport_data :=
            { w.g_usb_transport_data with state := USBTransportState.USB_STATE_MAIN_TASK },
          trace := w.trace ++
            (if a.rx_endpoint_enabled then []
             else [USBEffect.endpointEnable w.g_usb_transport_data.usb_device 0x01
                    USB_TRANSFER_TYPE.USB_TRANSFER_TYPE_BULK 64]) ++
            (if a.tx_endpoint_enabled then []
             else [USBEffect.endpointEnable w.g_usb_transport_data.usb_device 0x81
                    USB_TRANSFER_TYPE.USB_TRANSFER_TYPE_BULK 64]) }) ∧
    (w.g_usb_transport_data.is_configured = true → a.speed = USB_SPEED.USB_SPEED_HIGH →
      USBTransport_Tasks k w a =
        { w with
          g_usb_transport_data :=
            { w.g_usb_transport_data with state := USBTransportState.USB_STATE_MAIN_TASK },
          trace := w.trace ++
            (if a.rx_endpoint_enabled then []
             else [USBEffect.endpointEnable w.g_usb_transport_data.usb_device 0x01
                    USB_TRANSFER_TYPE.USB_TRANSFER_TYPE_BULK 512]) ++
            (if a.tx_endpoint_enabled then []
             else [USBEffect.endpointEnable w.g_usb_transport_data.usb_device 0x81
                    USB_TRANSFER_TYPE.USB_TRANSFER_TYPE_BULK 512]) }) ∧
    (w.g_usb_transport_data.is_configured = false → USBTransport_Tasks k w a = w) := by
  refine ⟨fun w0 cb => ⟨rfl, rfl⟩, ?_, ?_, ?_⟩
  · intro hc hsp
    cases hr : a.rx_endpoint_enabled <;> cases ht : a.tx_endpoint_enabled <;>
      simp [USBTransport_Tasks, hs, hc, hsp, hr, ht, hrx, htx, USBWorld.emit]
  · intro hc hsp
    cases hr : a.rx_endpoint_enabled <;> cases ht : a.tx_endpoint_enabled <;>
      simp [USBTransport_Tasks, hs, hc, hsp, hr, ht, hrx, htx, USBWorld.emit]
  · intro hc
    simp [USBTransport_Tasks, hs, hc]

/-- Witness for C17: the opened transport after a CONFIGURED event, on a
full-speed bus with both endpoints not yet enabled. -/
theorem C17_configured_enables_endpoints_witness :
    sampleUSBConfigured.g_usb_transport_data.state
      = USBTransportState.USB_STATE_WAIT_FOR_CONFIGURATION ∧
    sampleUSBConfigured.g_usb_transport_data.rx_endpoint = 0x01 ∧
    sampleUSBConfigured.g_usb_transport_data.tx_endpoint = 0x81 ∧
    sampleUSBConfigured.g_usb_transport_data.is_configured = true ∧
    sampleAnswers.speed = USB_SPEED.USB_SPEED_FULL ∧
    (USBTransport_Tasks sampleConstants sampleUSBConfigured sampleAnswers).trace =
      sampleUSBConfigured.trace ++
        [USBEffect.endpointEnable 1 0x01 USB_TRANSFER_TYPE.USB_TRANSFER_TYPE_BULK 64,
         USBEffect.endpointEnable 1 0x81 USB_TRANSFER_TYPE.USB_TRANSFER_TYPE_BULK 64] :=
  ⟨by decide, by decide, by decide, by decide, by decide,
   by rw [(C17_configured_enables_endpoints sampleConstants sampleUSBConfigured sampleAnswers
        (by decide) (by decide) (by decide)).2.1 (by decide) (by decide)]; decide⟩

/-- C18: USBTransport_EventHandler sets is_configured to false on a Reset and
on a Deconfigured event, sets it to true on a Configured event whose
configuration value is 1, and leaves the world as it is on a Configured event
with any other value; in each case every other transport field, the buffers
and the effect log (no call of the USB stack) are unchanged. -/
theorem C18_configuration_events (k : TransportConstants) (w : USBWorld) :
    USBTransport_EventHandler k w USB_DEVICE_EVENT.USB_DEVICE_EVENT_RESET =
      { w with g_usb_transport_data := { w.g_usb_transport_data with is_configured := false } } ∧
    USBTransport_EventHandler k w USB_DEVICE_EVENT.USB_DEVICE_EVENT_DECONFIGURED =
      { w with g_usb_transport_data := { w.g_usb_transport_data with is_configured := false } } ∧
    USBTransport_EventHandler k w (USB_DEVICE_EVENT.USB_DEVICE_EVENT_CONFIGURED 1) =
      { w with g_usb_transport_data := { w.g_usb_transport_data with is_configured := true } } ∧
    (∀ v, v ≠ 1 →
      USBTransport_EventHandler k w (USB_DEVICE_EVENT.USB_DEVICE_EVENT_CONFIGURED v) = w) := by
  refine ⟨rfl, rfl, rfl, ?_⟩
  intro v hv
  simp [USBTransport_EventHandler, hv]

/-- C19: for a setup packet that is neither the DFU detach nor the DFU
get-status request: with bRequest 0x20 the handler sets rx_data_size to
wLength, sets rx_in_progress and starts a control receive of wLength bytes
(into the receive buffer), changing nothing else; with bRequest 0x21 it sets
tx_in_progress, changes nothing else and makes no call; with bRequest none of
set-interface, get-interface, 0x20 and 0x21 it answers control status ERROR
and changes no field. -/
theorem C19_vendor_requests (k : TransportConstants) (w : USBWorld) (p : USB_SETUP_PACKET)
    (hnd : ¬ isDFUDetachRequest k p) (hng : ¬ isDFUGetStatusRequest k p) :
    (p.bRequest = 0x20 →
      USBTransport_EventHandler k w
          (USB_DEVICE_EVENT.USB_DEVICE_EVENT_CONTROL_TRANSFER_SETUP_REQUEST p) =
        { w with
          g_usb_transport_data :=
            { w.g_usb_transport_data with rx_data_size := p.wLength, rx_in_progress := true },
          trace := w.trace ++
            [USBEffect.controlReceive w.g_usb_transport_data.usb_device p.wLength] }) ∧
    (p.bRequest = 0x21 →
      USBTransport_EventHandler k w
          (USB_DEVICE_EVENT.USB_DEVICE_EVENT_CONTROL_TRANSFER_SETUP_REQUEST p) =
        { w with
          g_usb_transport_data := { w.g_usb_transport_data with tx_in_progress := true } }) ∧
    (p.bRequest ≠ USB_REQUEST_SET_INTERFACE → p.bRequest ≠ USB_REQUEST_GET_INTERFACE →
      p.bRequest ≠ 0x20 → p.bRequest ≠ 0x21 →
      USBTransport_EventHandler k w
          (USB_DEVICE_EVENT.USB_DEVICE_EVENT_CONTROL_TRANSFER_SETUP_REQUEST p) =
        { w with
          trace := w.trace ++
            [USBEffect.controlStatus w.g_usb_transport_data.usb_device
              USB_DEVICE_CONTROL_STATUS.USB_DEVICE_CONTROL_STATUS_ERROR] }) := by
  unfold isDFUDetachRequest at hnd
  unfold isDFUGetStatusRequest at hng
  refine ⟨?_, ?_, ?_⟩
  · intro h
    simp only [USBTransport_EventHandler, hnd, hng, if_false, USBWorld.emit]
    simp [h, USB_REQUEST_SET_INTERFACE, USB_REQUEST_GET_INTERFACE]
  · intro h
    simp only [USBTransport_EventHandler, hnd, hng, if_false, USBWorld.emit]
    simp [h, USB_REQUEST_SET_INTERFACE, USB_REQUEST_GET_INTERFACE]
  · intro h1 h2 h3 h4
    simp only [USBTransport_EventHandler, hnd, hng, if_false, USBWorld.emit]
    simp [h1, h2, h3, h4]

/-- Witness for C19: a vendor request 0x20 with wLength 64 to the running
transport. -/
theorem C19_vendor_requests_witness :
    ¬ isDFUDetachRequest sampleConstants
        { RequestType := 2, Recipient := 1, DataDir := 0, bRequest := 0x20, wIndex := 0,
          wLength := 64 } ∧
    ¬ isDFUGetStatusRequest sampleConstants
        { RequestType := 2, Recipient := 1, DataDir := 0, bRequest := 0x20, wIndex := 0,
          wLength := 64 } ∧
    (USBTransport_EventHandler sampleConstants sampleUSBRunning
        (USB_DEVICE_EVENT.USB_DEVICE_EVENT_CONTROL_TRANSFER_SETUP_REQUEST
          { RequestType := 2, Recipient := 1, DataDir := 0, bRequest := 0x20, wIndex := 0,
            wLength := 64 })).trace =
      sampleUSBRunning.trace ++ [USBEffect.controlReceive 1 64] :=
  ⟨by decide, by decide,
   by rw [(C19_vendor_requests sampleConstants sampleUSBRunning
        { RequestType := 2, Recipient := 1, DataDir := 0, bRequest := 0x20, wIndex := 0,
          wLength := 64 } (by decide) (by decide)).1 rfl]; decide⟩

/-- C20: the event handler leaves dfu_detach true exactly when it was true
before or the event is a setup packet that is a class request to an interface
recipient, host to device, with bRequest DFU_DETATCH and wIndex
RUNTIME_MODE_DFU_INTERFACE_INDEX; for such a packet the handler sets
dfu_detach, sends control status OK and changes nothing else.  The task
function and the response builder never change dfu_detach.  In the main task
with dfu_detach set, the external actions of USBTransport_Tasks start with
BootloaderOptions_SetBootOption(BOOT_BOOTLOADER) followed by
Reset_SoftReset(), before anything else; if the reset does not return they are
its only actions. -/
theorem C20_dfu_detach (k : TransportConstants) (w : USBWorld) :
    (∀ ev : USB_DEVICE_EVENT,
      (USBTransport_EventHandler k w ev).g_usb_transport_data.dfu_detach = true ↔
        (w.g_usb_transport_data.dfu_detach = true ∨
          ∃ p, ev = USB_DEVICE_EVENT.USB_DEVICE_EVENT_CONTROL_TRANSFER_SETUP_REQUEST p ∧
            isDFUDetachRequest k p)) ∧
    (∀ p, isDFUDetachRequest k p →
      USBTransport_EventHandler k w
          (USB_DEVICE_EVENT.USB_DEVICE_EVENT_CONTROL_TRANSFER_SETUP_REQUEST p) =
        { w with
          g_usb_transport_data := { w.g_usb_transport_data with dfu_detach := true },
          trace := w.trace ++
            [USBEffect.controlStatus w.g_usb_transport_data.usb_device
              USB_DEVICE_CONTROL_STATUS.USB_DEVICE_CONTROL_STATUS_OK] }) ∧
    (∀ a, (USBTransport_Tasks k w a).g_usb_transport_data.dfu_detach
        = w.g_usb_transport_data.dfu_detach) ∧
    (∀ token command rc data flags_changed,
      (USBTransport_SendResponse k w token command rc data
        flags_changed).2.g_usb_transport_data.dfu_detach = w.g_usb_transport_data.dfu_detach) ∧
    (∀ a, w.g_usb_transport_data.state = USBTransportState.USB_STATE_MAIN_TASK →
      w.g_usb_transport_data.dfu_detach = true →
      (w.trace ++ [USBEffect.setBootOption k.BOOT_BOOTLOADER, USBEffect.softReset]
          <+: (USBTransport_Tasks k w a).trace) ∧
      (a.reset_returns = false →
        USBTransport_Tasks k w a =
          { w with trace := w.trace ++
              [USBEffect.setBootOption k.BOOT_BOOTLOADER, USBEffect.softReset] })) := by
  have main_detach : ∀ v : USBWorld, (USBTransport_Tasks_main k v).g_usb_transport_data.dfu_detach
      = v.g_usb_transport_data.dfu_detach := by
    intro v
    cases hcb : v.g_usb_transport_data.rx_cb <;>
      simp only [USBTransport_Tasks_main, USBTransport_Tasks_send, USBWorld.emit, hcb] <;>
      split_ifs <;> simp
  have main_trace : ∀ v : USBWorld, v.trace <+: (USBTransport_Tasks_main k v).trace := by
    intro v
    cases hcb : v.g_usb_transport_data.rx_cb <;>
      simp only [USBTransport_Tasks_main, USBTransport_Tasks_send, USBWorld.emit, hcb] <;>
      split_ifs <;> simp
  refine ⟨?_, ?_, ?_, ?_, ?_⟩
  · intro ev
    cases ev with
    | USB_DEVICE_EVENT_CONTROL_TRANSFER_SETUP_REQUEST p =>
      by_cases hd : isDFUDetachRequest k p
      · have hd' := hd
        unfold isDFUDetachRequest at hd'
        simp [USBTransport_EventHandler, hd', USBWorld.emit]
        exact Or.inr hd
      · have hd' := hd
        unfold isDFUDetachRequest at hd'
        simp only [USBTransport_EventHandler, hd', if_false]
        have : (∃ q, USB_DEVICE_EVENT.USB_DEVICE_EVENT_CONTROL_TRANSFER_SETUP_REQUEST p =
            USB_DEVICE_EVENT.USB_DEVICE_EVENT_CONTROL_TRANSFER_SETUP_REQUEST q ∧
            isDFUDetachRequest k q) ↔ False := by
          constructor
          · rintro ⟨q, hq, hq2⟩
            cases hq
            exact hd hq2
          · exact False.elim
        rw [this, or_false]
        split_ifs <;> simp [DFUGetStatus, USBWorld.emit]
    | USB_DEVICE_EVENT_CONFIGURED v =>
      simp only [USBTransport_EventHandler]
      split_ifs <;> simp
    | _ => simp [USBTransport_EventHandler, USBWorld.emit]
  · intro p hp
    unfold isDFUDetachRequest at hp
    simp [USBTransport_EventHandler, hp, USBWorld.emit]
  · intro a
    cases hst : w.g_usb_transport_data.state
    · by_cases hh : a.open_handle = USB_DEVICE_HANDLE_INVALID <;>
        simp [USBTransport_Tasks, hst, hh, USBWorld.emit]
    · by_cases hc : w.g_usb_transport_data.is_configured = true
      · cases hr : a.rx_endpoint_enabled <;> cases ht : a.tx_endpoint_enabled <;>
          simp [USBTransport_Tasks, hst, hc, hr, ht, USBWorld.emit]
      · simp [USBTransport_Tasks, hst, hc, USBWorld.emit]
    · cases hd : w.g_usb_transport_data.dfu_detach
      · simp only [USBTransport_Tasks, hst, hd, Bool.false_eq_true, if_false]
        rw [main_detach, hd]
      · cases hr : a.reset_returns
        · simp [USBTransport_Tasks, hst, hd, hr, USBWorld.emit]
        · simp only [USBTransport_Tasks, hst, hd, hr, if_true]
          rw [main_detach]
          simp [USBWorld.emit, hd]
    · simp [USBTransport_Tasks, hst]
  · intro token command rc data flags_changed
    simp only [USBTransport_SendResponse_eq, USBWorld.emit]
  · intro a hs hd
    constructor
    · simp only [USBTransport_Tasks, hs, hd, if_true]
      split_ifs
      · refine List.IsPrefix.trans ?_ (main_trace _)
        simp [USBWorld.emit]
      · simp [USBWorld.emit]
    · intro hr
      simp [USBTransport_Tasks, hs, hd, hr, USBWorld.emit]

/-- C21: for every setup packet that is the DFU get-status request (a class
request to an interface recipient, device to host, bRequest DFU_GETSTATUS,
wIndex RUNTIME_MODE_DFU_INTERFACE_INDEX, wLength GET_STATUS_RESPONSE_SIZE = 6),
with DFU_STATUS_OK and APP_STATE_IDLE bytes, the handler's only external
action is the control-send of the six bytes
[DFU_STATUS_OK, 0, 0, 0, APP_STATE_IDLE, 0], and it changes no transport field
and neither the receive nor the transmit buffer. -/
theorem C21_dfu_get_status (k : TransportConstants) (w : USBWorld) (p : USB_SETUP_PACKET)
    (hp : isDFUGetStatusRequest k p)
    (hsize : k.GET_STATUS_RESPONSE_SIZE = 6)
    (hb : k.DFU_STATUS_OK < 256 ∧ k.APP_STATE_IDLE < 256) :
    (USBTransport_EventHandler k w
        (USB_DEVICE_EVENT.USB_DEVICE_EVENT_CONTROL_TRANSFER_SETUP_REQUEST p)).trace =
      w.trace ++ [USBEffect.controlSend w.g_usb_transport_data.usb_device
        [k.DFU_STATUS_OK, 0, 0, 0, k.APP_STATE_IDLE, 0]] ∧
    (USBTransport_EventHandler k w
        (USB_DEVICE_EVENT.USB_DEVICE_EVENT_CONTROL_TRANSFER_SETUP_REQUEST p)).g_usb_transport_data
      = w.g_usb_transport_data ∧
    (USBTransport_EventHandler k w
        (USB_DEVICE_EVENT.USB_DEVICE_EVENT_CONTROL_TRANSFER_SETUP_REQUEST p)).receivedDataBuffer
      = w.receivedDataBuffer ∧
    (USBTransport_EventHandler k w
        (USB_DEVICE_EVENT.USB_DEVICE_EVENT_CONTROL_TRANSFER_SETUP_REQUEST p)).transmitDataBuffer
      = w.transmitDataBuffer := by
  have hp' := hp
  unfold isDFUGetStatusRequest at hp'
  have hnd : ¬ (p.RequestType = USB_SETUP_REQUEST_TYPE_CLASS ∧
      p.Recipient = USB_SETUP_REQUEST_RECIPIENT_INTERFACE ∧
      p.DataDir = USB_SETUP_REQUEST_DIRECTION_HOST_TO_DEVICE ∧
      p.bRequest = k.DFU_DETATCH ∧
      p.wIndex = k.RUNTIME_MODE_DFU_INTERFACE_INDEX) := by
    rintro ⟨-, -, hdir, -, -⟩
    rw [hp'.2.2.1] at hdir
    exact absurd hdir (by decide)
  have hev : USBTransport_EventHandler k w
      (USB_DEVICE_EVENT.USB_DEVICE_EVENT_CONTROL_TRANSFER_SETUP_REQUEST p) = DFUGetStatus k w := by
    simp only [USBTransport_EventHandler]
    rw [if_neg hnd, if_pos hp']
  rw [hev]
  refine ⟨?_, rfl, rfl, rfl⟩
  simp [DFUGetStatus, USBWorld.emit, hsize, bufferBytes, setByte, List.range_succ,
    Nat.mod_eq_of_lt hb.1, Nat.mod_eq_of_lt hb.2]

/-- Witness for C21: the get-status packet of the sample constants, sent to
the running transport. -/
theorem C21_dfu_get_status_witness :
    isDFUGetStatusRequest sampleConstants sampleGetStatus ∧
    sampleConstants.GET_STATUS_RESPONSE_SIZE = 6 ∧
    (sampleConstants.DFU_STATUS_OK < 256 ∧ sampleConstants.APP_STATE_IDLE < 256) ∧
    (USBTransport_EventHandler sampleConstants sampleUSBRunning
        (USB_DEVICE_EVENT.USB_DEVICE_EVENT_CONTROL_TRANSFER_SETUP_REQUEST sampleGetStatus)).trace =
      sampleUSBRunning.trace ++ [USBEffect.controlSend sampleUSBRunning.g_usb_transport_data.usb_device
        [sampleConstants.DFU_STATUS_OK, 0, 0, 0, sampleConstants.APP_STATE_IDLE, 0]] :=
  ⟨by decide, by decide, by decide,
   (C21_dfu_get_status sampleConstants sampleUSBRunning sampleGetStatus (by decide) (by decide)
      (by decide)).1⟩

/-- C22, as stated, fails: after initialisation the transport is running and
configured with no detach requested, a frame of 11 bytes is pending and the
host has asked for it (tx_in_progress), but a request 0x20 is in progress; one
call of USBTransport_Tasks then issues no control-send and leaves
tx_in_progress set. -/
theorem C22_counterexample :
    sampleUSBSendWhileReceiving.g_usb_transport_data.state
      = USBTransportState.USB_STATE_MAIN_TASK ∧
    sampleUSBSendWhileReceiving.g_usb_transport_data.is_configured = true ∧
    sampleUSBSendWhileReceiving.g_usb_transport_data.dfu_detach = false ∧
    sampleUSBSendWhileReceiving.g_usb_transport_data.tx_in_progress = true ∧
    sampleUSBSendWhileReceiving.g_usb_transport_data.tx_data_pending = 11 ∧
    (USBTransport_Tasks sampleConstants sampleUSBSendWhileReceiving sampleAnswers).trace
      = sampleUSBSendWhileReceiving.trace ∧
    controlSends (USBTransport_Tasks sampleConstants sampleUSBSendWhileReceiving sampleAnswers).trace
      = [] ∧
    (USBTransport_Tasks sampleConstants sampleUSBSendWhileReceiving
      sampleAnswers).g_usb_transport_data.tx_in_progress = true := by
  refine ⟨by decide, by decide, by decide, by decide, by decide, by decide, by decide, by decide⟩

/-- C22, amended: in the main task with the device configured, no detach
requested, no receive in progress (rx_in_progress false) and a receiver for
the payload that waits for delivery, if one does (rx_data_size is zero, or the
pipeline hook is compiled in, or rx_cb is not NULL), for every state in which
tx_in_progress is true and tx_data_pending is non-zero, one call of
USBTransport_Tasks issues exactly one control-send, of the first
tx_data_pending bytes of the transmit buffer, as its last action, and clears
tx_in_progress, leaving tx_data_pending and the transmit buffer unchanged. -/
theorem C22_pending_frame_sent (k : TransportConstants) (w : USBWorld) (a : USBStackAnswers)
    (hs : w.g_usb_transport_data.state = USBTransportState.USB_STATE_MAIN_TASK)
    (hc : w.g_usb_transport_data.is_configured = true)
    (hd : w.g_usb_transport_data.dfu_detach = false)
    (hrx : w.g_usb_transport_data.rx_in_progress = false)
    (hcb : w.g_usb_transport_data.rx_data_size = 0 ∨ k.PIPELINE_TRANSPORT_RX = true ∨
      w.g_usb_transport_data.rx_cb ≠ none)
    (htx : w.g_usb_transport_data.tx_in_progress = true)
    (hp : w.g_usb_transport_data.tx_data_pending ≠ 0) :
    controlSends (USBTransport_Tasks k w a).trace =
      controlSends w.trace ++
        [bufferBytes w.transmitDataBuffer w.g_usb_transport_data.tx_data_pending] ∧
    (USBTransport_Tasks k w a).trace.getLast? =
      some (USBEffect.controlSend w.g_usb_transport_data.usb_device
        (bufferBytes w.transmitDataBuffer w.g_usb_transport_data.tx_data_pending)) ∧
    (USBTransport_Tasks k w a).g_usb_transport_data.tx_in_progress = false ∧
    (USBTransport_Tasks k w a).g_usb_transport_data.tx_data_pending
      = w.g_usb_transport_data.tx_data_pending ∧
    (USBTransport_Tasks k w a).transmitDataBuffer = w.transmitDataBuffer := by
  by_cases hz : w.g_usb_transport_data.rx_data_size = 0
  · simp [USBTransport_Tasks, USBTransport_Tasks_main, USBTransport_Tasks_send, hs, hc, hd, hrx,
      htx, hp, hz, USBWorld.emit, controlSends, List.filterMap_append]
  · cases hpl : k.PIPELINE_TRANSPORT_RX
    · cases hr : w.g_usb_transport_data.rx_cb with
      | none => simp [hz, hpl, hr] at hcb
      | some cb =>
        simp [USBTransport_Tasks, USBTransport_Tasks_main, USBTransport_Tasks_send, hs, hc, hd,
          hrx, htx, hp, hz, hpl, hr, USBWorld.emit, controlSends, List.filterMap_append]
    · simp [USBTransport_Tasks, USBTransport_Tasks_main, USBTransport_Tasks_send, hs, hc, hd, hrx,
        htx, hp, hz, hpl, USBWorld.emit, controlSends, List.filterMap_append]

/-- Witness for C22 as amended: the running transport with a frame of 11
bytes pending and requested, no receive in progress. -/
theorem C22_pending_frame_sent_witness :
    sampleUSBSendPending.g_usb_transport_data.state = USBTransportState.USB_STATE_MAIN_TASK ∧
    sampleUSBSendPending.g_usb_transport_data.is_configured = true ∧
    sampleUSBSendPending.g_usb_transport_data.dfu_detach = false ∧
    sampleUSBSendPending.g_usb_transport_data.rx_in_progress = false ∧
    (sampleUSBSendPending.g_usb_transport_data.rx_data_size = 0 ∨
      sampleConstants.PIPELINE_TRANSPORT_RX = true ∨
      sampleUSBSendPending.g_usb_transport_data.rx_cb ≠ none) ∧
    sampleUSBSendPending.g_usb_transport_data.tx_in_progress = true ∧
    sampleUSBSendPending.g_usb_transport_data.tx_data_pending ≠ 0 ∧
    (USBTransport_Tasks sampleConstants sampleUSBSendPending
      sampleAnswers).g_usb_transport_data.tx_in_progress = false :=
  ⟨by decide, by decide, by decide, by decide, by decide, by decide, by decide,
   (C22_pending_frame_sent sampleConstants sampleUSBSendPending sampleAnswers (by decide)
      (by decide) (by decide) (by decide) (by decide) (by decide) (by decide)).2.2.1⟩

/-- C23: in the main task with the device configured, no detach requested, no
receive in progress, a non-zero rx_data_size and a receiver configured (rx_cb
not NULL, or the pipeline hook compiled in), one call of USBTransport_Tasks
delivers the payload exactly once, with the size rx_data_size (to the receive
callback when the pipeline hook is not compiled in, and before anything else
the call does), without a fault, and clears rx_data_size; no later step
delivers anything until a new request 0x20 arrives. -/
theorem C23_payload_delivered_once (k : TransportConstants) (w : USBWorld) (a : USBStackAnswers)
    (hs : w.g_usb_transport_data.state = USBTransportState.USB_STATE_MAIN_TASK)
    (hc : w.g_usb_transport_data.is_configured = true)
    (hd : w.g_usb_transport_data.dfu_detach = false)
    (hrx : w.g_usb_transport_data.rx_in_progress = false)
    (hn : w.g_usb_transport_data.rx_data_size ≠ 0)
    (hcb : k.PIPELINE_TRANSPORT_RX = true ∨ w.g_usb_transport_data.rx_cb ≠ none) :
    deliveries (USBTransport_Tasks k w a).trace
      = deliveries w.trace ++ [w.g_usb_transport_data.rx_data_size] ∧
    (k.PIPELINE_TRANSPORT_RX = false →
      (w.trace ++ [USBEffect.rxCallback w.g_usb_transport_data.rx_cb
        w.g_usb_transport_data.rx_data_size]) <+: (USBTransport_Tasks k w a).trace) ∧
    (faulted w.trace = false → faulted (USBTransport_Tasks k w a).trace = false) ∧
    (USBTransport_Tasks k w a).g_usb_transport_data.rx_data_size = 0 ∧
    (∀ steps : List USBStep, (∀ s ∈ steps, s.isReceiveRequest = false) →
      deliveries (runUSB k (USBTransport_Tasks k w a) steps).trace
        = deliveries w.trace ++ [w.g_usb_transport_data.rx_data_size]) := by
  have hcall : k.PIPELINE_TRANSPORT_RX = true ∨
      (k.PIPELINE_TRANSPORT_RX = false ∧ ∃ cb, w.g_usb_transport_data.rx_cb = some cb) := by
    cases hpl : k.PIPELINE_TRANSPORT_RX
    · right
      refine ⟨rfl, ?_⟩
      cases hr : w.g_usb_transport_data.rx_cb with
      | none => simp [hpl, hr] at hcb
      | some cb => exact ⟨cb, rfl⟩
    · left; rfl
  have hT : USBTransport_Tasks k w a = USBTransport_Tasks_send
      { w with
        g_usb_transport_data := { w.g_usb_transport_data with rx_data_size := 0 },
        trace := w.trace ++
          [if k.PIPELINE_TRANSPORT_RX then
            USBEffect.pipelineRx w.g_usb_transport_data.rx_data_size
          else
            USBEffect.rxCallback w.g_usb_transport_data.rx_cb
              w.g_usb_transport_data.rx_data_size] } := by
    rcases hcall with hpl | ⟨hpl, cb, hr⟩
    · simp [USBTransport_Tasks, USBTransport_Tasks_main, hs, hc, hd, hrx, hn, hpl, USBWorld.emit]
    · simp [USBTransport_Tasks, USBTransport_Tasks_main, hs, hc, hd, hrx, hn, hpl, hr,
        USBWorld.emit]
  have h1 : deliveries (USBTransport_Tasks k w a).trace
      = deliveries w.trace ++ [w.g_usb_transport_data.rx_data_size] := by
    rw [hT]
    unfold USBTransport_Tasks_send
    cases hpl : k.PIPELINE_TRANSPORT_RX <;> split_ifs <;>
      simp [USBWorld.emit, deliveries, List.filterMap_append]
  have h3 : (USBTransport_Tasks k w a).g_usb_transport_data.rx_data_size = 0 := by
    rw [hT]
    unfold USBTransport_Tasks_send
    split_ifs <;> simp [USBWorld.emit]
  refine ⟨h1, ?_, ?_, h3, ?_⟩
  · intro hpl
    rw [hT]
    unfold USBTransport_Tasks_send
    simp only [hpl, Bool.false_eq_true, if_false]
    split_ifs <;> simp [USBWorld.emit]
  · intro hf
    rw [hT]
    unfold USBTransport_Tasks_send
    simp only [faulted] at hf
    cases hpl : k.PIPELINE_TRANSPORT_RX <;> split_ifs <;>
      simp [USBWorld.emit, faulted, hf]
  · intro steps hsteps
    rw [runUSB_quiet k steps _ h3 hsteps, h1]

/-- Witness for C23: the running transport after a request 0x20 of 64 bytes
and its data-received event. -/
theorem C23_payload_delivered_once_witness :
    sampleUSBReceived.g_usb_transport_data.state = USBTransportState.USB_STATE_MAIN_TASK ∧
    sampleUSBReceived.g_usb_transport_data.is_configured = true ∧
    sampleUSBReceived.g_usb_transport_data.dfu_detach = false ∧
    sampleUSBReceived.g_usb_transport_data.rx_in_progress = false ∧
    sampleUSBReceived.g_usb_transport_data.rx_data_size ≠ 0 ∧
    (sampleConstants.PIPELINE_TRANSPORT_RX = true ∨
      sampleUSBReceived.g_usb_transport_data.rx_cb ≠ none) ∧
    deliveries (USBTransport_Tasks sampleConstants sampleUSBReceived sampleAnswers).trace
      = deliveries sampleUSBReceived.trace ++ [sampleUSBReceived.g_usb_transport_data.rx_data_size] :=
  ⟨by decide, by decide, by decide, by decide, by decide, by decide,
   (C23_payload_delivered_once sampleConstants sampleUSBReceived sampleAnswers (by decide)
      (by decide) (by decide) (by decide) (by decide) (by decide)).1⟩

/-- C24: in every state reached from Flash_Initialize (called with no bus
transfer pending) by public flash calls and bus-transfer completions, at most
one transfer queued by the sequencer is pending, and none is pending while the
action is Idle; so after any further step, too, at most one is pending: no
call and no handler run queues a transfer while another is pending. -/
theorem C24_one_transfer_outstanding (w0 : World) (settings : FlashHardwareSettings)
    (steps : List FlashStep) (h0 : w0.spi_queue = []) :
    (runFlash (Flash_Initialize w0 settings) steps).spi_queue.length ≤ 1 ∧
    ((runFlash (Flash_Initialize w0 settings) steps).g_flash_state.action = Action.ACTION_IDLE →
      (runFlash (Flash_Initialize w0 settings) steps).spi_queue = []) ∧
    (∀ s : FlashStep,
      (s.apply (runFlash (Flash_Initialize w0 settings) steps)).spi_queue.length ≤ 1) := by
  have hinit : (Flash_Initialize w0 settings).spi_queue.length ≤ 1 ∧
      ((Flash_Initialize w0 settings).g_flash_state.action = Action.ACTION_IDLE →
        (Flash_Initialize w0 settings).spi_queue = []) := by
    simp [Flash_Initialize, h0, PLIB_PORTS_PinDirectionOutputSet, PLIB_PORTS_PinSet,
      PLIB_PORTS_PinClear, DisableHold, EnableWP]
  have h := runFlash_pending steps _ hinit
  exact ⟨h.1, h.2, fun s => (FlashStep_apply_pending _ s h).1⟩

/-- Witness for C24: from program start, a write to sector 3 accepted by the
queue, then three completions. -/
theorem C24_one_transfer_outstanding_witness :
    initialWorld.spi_queue = [] ∧
    (runFlash (Flash_Initialize initialWorld sampleSettings)
      [FlashStep.write 3 sampleData 2 (some 1) true,
       FlashStep.complete (reply 0) true,
       FlashStep.complete (reply 0) true,
       FlashStep.complete (reply 0) true]).spi_queue.length ≤ 1 :=
  ⟨rfl,
   (C24_one_transfer_outstanding initialWorld sampleSettings
      [FlashStep.write 3 sampleData 2 (some 1) true,
       FlashStep.complete (reply 0) true,
       FlashStep.complete (reply 0) true,
       FlashStep.complete (reply 0) true] rfl).1⟩

/-- C25: the run of the completion callback always clears the stored
callback, but a read whose bus transfer is rejected by the queue does not:
after initialisation, Flash_Read of sector 3 with callback 1 and the queue
rejecting returns false with the action Idle and callback 1 still stored; the
next write, accepted and run to its end, then invokes callback 1 with true. -/
theorem C25_rejected_read_leaves_callback :
    (∀ (w : World) (r : Bool), (RunCallback w r).g_flash_state.callback = none) ∧
    sampleInit = Flash_Initialize initialWorld sampleSettings ∧
    (Flash_Read sampleInit 3 100 16 (some 1) false).1 = false ∧
    (Flash_Read sampleInit 3 100 16 (some 1) false).2.g_flash_state.action
      = Action.ACTION_IDLE ∧
    (Flash_Read sampleInit 3 100 16 (some 1) false).2.g_flash_state.callback = some 1 ∧
    (runFlash sampleInit sampleRejectedReadThenWrite).g_flash_state.action
      = Action.ACTION_IDLE ∧
    callbacksRun (runFlash sampleInit sampleRejectedReadThenWrite).trace = [(1, true)] := by
  refine ⟨?_, rfl, by decide, by decide, by decide, by decide, by decide⟩
  intro w r
  unfold RunCallback
  split
  · rfl
  · assumption

/-- C26: no run of task calls, events and responses from
USBTransport_Initialize ever has the state USB_STATE_ERROR: the value is never
assigned (a failed device open keeps the transport in USB_STATE_INIT). -/
theorem C26_error_state_never_entered (k : TransportConstants) (w0 : USBWorld)
    (rx_cb : Option Nat) (steps : List USBStep) :
    (runUSB k (USBTransport_Initialize w0 rx_cb) steps).g_usb_transport_data.state
      ≠ USBTransportState.USB_STATE_ERROR ∧
    (∀ (w : USBWorld) (a : USBStackAnswers),
      w.g_usb_transport_data.state = USBTransportState.USB_STATE_INIT →
      a.open_handle = USB_DEVICE_HANDLE_INVALID →
      (USBTransport_Tasks k w a).g_usb_transport_data.state
        = USBTransportState.USB_STATE_INIT) := by
  refine ⟨runUSB_state k steps _ (by simp [USBTransport_Initialize]), ?_⟩
  intro w a hs ha
  simp [USBTransport_Tasks, hs, ha, USBWorld.emit]

/-- C27: Flash_Read and Flash_Write called in the Idle state leave the action
Idle whenever they return false, but Flash_ReadStatus and Flash_ReadStatus1 do
not: with nothing pending, if the bus queue rejects the transfer they return
false and leave the action at status-read with nothing pending, and from then
on no public call is accepted and no run of calls and completions changes the
state. -/
theorem C27_status_read_rejection_sticks :
    (∀ (w : World) (sector input size : Nat) (cb : Option Nat) (q : Bool),
      w.g_flash_state.action = Action.ACTION_IDLE →
      (Flash_Read w sector input size cb q).1 = false →
      (Flash_Read w sector input size cb q).2.g_flash_state.action = Action.ACTION_IDLE) ∧
    (∀ (w : World) (sector : Nat) (output : Nat → Nat) (size : Nat) (cb : Option Nat) (q : Bool),
      w.g_flash_state.action = Action.ACTION_IDLE →
      (Flash_Write w sector output size cb q).1 = false →
      (Flash_Write w sector output size cb q).2.g_flash_state.action = Action.ACTION_IDLE) ∧
    (∀ w : World, w.g_flash_state.action = Action.ACTION_IDLE → w.spi_queue = [] →
      (Flash_ReadStatus w false).1 = false ∧
      (Flash_ReadStatus w false).2.g_flash_state.action = Action.ACTION_STATUS_READ ∧
      (Flash_ReadStatus1 w false).1 = false ∧
      (Flash_ReadStatus1 w false).2.g_flash_state.action = Action.ACTION_STATUS1_READ ∧
      (∀ steps : List FlashStep,
        runFlash (Flash_ReadStatus w false).2 steps = (Flash_ReadStatus w false).2) ∧
      (∀ steps : List FlashStep,
        runFlash (Flash_ReadStatus1 w false).2 steps = (Flash_ReadStatus1 w false).2)) ∧
    (sampleInit.g_flash_state.action = Action.ACTION_IDLE ∧ sampleInit.spi_queue = [] ∧
      (Flash_ReadStatus sampleInit false).1 = false ∧
      (Flash_ReadStatus sampleInit false).2.g_flash_state.action = Action.ACTION_STATUS_READ ∧
      (Flash_Read (Flash_ReadStatus sampleInit false).2 3 100 16 (some 1) true).1 = false ∧
      (Flash_ReadStatus (Flash_ReadStatus sampleInit false).2 true).1 = false) := by
  refine ⟨?_, ?_, ?_, by decide⟩
  · intro w sector input size cb q hi
    by_cases hg : sector ≥ w.g_flash_state.flash_sectors <;> cases q <;>
      simp [Flash_Read, hi, hg, SPI_QueueTransfer, setAction]
  · intro w sector output size cb q hi
    by_cases hg : sector ≥ w.g_flash_state.flash_sectors ∨ size > SECTOR_SIZE <;> cases q <;>
      cases hu : w.g_flash_state.is_unlocked <;>
      simp [Flash_Write, hi, hg, hu, SPI_QueueTransfer, setAction, BeginErase, DisableWP,
        PLIB_PORTS_PinSet]
  · intro w hi hq
    have ha : (Flash_ReadStatus w false).2.g_flash_state.action = Action.ACTION_STATUS_READ := by
      simp [Flash_ReadStatus, hi, SPI_QueueTransfer, setAction]
    have ha1 : (Flash_ReadStatus1 w false).2.g_flash_state.action
        = Action.ACTION_STATUS1_READ := by
      simp [Flash_ReadStatus1, hi, SPI_QueueTransfer, setAction]
    have hq0 : (Flash_ReadStatus w false).2.spi_queue = [] := by
      simp [Flash_ReadStatus, hi, SPI_QueueTransfer, setAction, hq]
    have hq1 : (Flash_ReadStatus1 w false).2.spi_queue = [] := by
      simp [Flash_ReadStatus1, hi, SPI_QueueTransfer, setAction, hq]
    refine ⟨?_, ha, ?_, ha1, ?_, ?_⟩
    · simp [Flash_ReadStatus, hi, SPI_QueueTransfer]
    · simp [Flash_ReadStatus1, hi, SPI_QueueTransfer]
    · intro steps
      exact runFlash_stuck steps _ (by rw [ha]; decide) hq0
    · intro steps
      exact runFlash_stuck steps _ (by rw [ha1]; decide) hq1

/-- C28: for every sector and any two writes to it that pass the argument
checks in the same Idle state, get the same answer from the bus queue and are
run against the same bus behaviour, if their data agree in the first two bytes
then, whatever the two size arguments and the data from the third byte on,
the whole effect logs are identical, and with them the sequences of bus
transfers (command bytes and lengths): the final states differ in the stored
data pointer and data size only. -/
theorem C28_transfers_ignore_size_and_tail (w : World) (sector : Nat)
    (output output2 : Nat → Nat) (size size2 : Nat) (cb cb2 : Option Nat) (q : Bool)
    (rs : List ((Nat → Nat) × Bool))
    (hi : w.g_flash_state.action = Action.ACTION_IDLE)
    (hs : sector < w.g_flash_state.flash_sectors)
    (hsz : size ≤ SECTOR_SIZE) (hsz2 : size2 ≤ SECTOR_SIZE)
    (h0 : output2 0 = output 0) (h1 : output2 1 = output 1) :
    (Flash_Write w sector output2 size2 cb2 q).1 = q ∧
    (Flash_Write w sector output size cb q).1 = q ∧
    runBus (Flash_Write w sector output2 size2 cb2 q).2 rs
      = withData (runBus (Flash_Write w sector output size cb q).2 rs) output2 size2 ∧
    (runBus (Flash_Write w sector output2 size2 cb2 q).2 rs).trace
      = (runBus (Flash_Write w sector output size cb q).2 rs).trace ∧
    attemptedTransfers (runBus (Flash_Write w sector output2 size2 cb2 q).2 rs).trace
      = attemptedTransfers (runBus (Flash_Write w sector output size cb q).2 rs).trace := by
  have hg : ¬ (sector ≥ w.g_flash_state.flash_sectors ∨ size > SECTOR_SIZE) := by omega
  have hg2 : ¬ (sector ≥ w.g_flash_state.flash_sectors ∨ size2 > SECTOR_SIZE) := by omega
  have hw : (Flash_Write w sector output2 size2 cb2 q).2
      = withData (Flash_Write w sector output size cb q).2 output2 size2 := by
    cases q <;> cases hu : w.g_flash_state.is_unlocked <;>
      simp [Flash_Write, hi, hg, hg2, hu, withData, BeginErase, setAction, SPI_QueueTransfer,
        DisableWP, PLIB_PORTS_PinSet]
  have hd : (Flash_Write w sector output size cb q).2.g_flash_state.data = output := by
    cases q <;> cases hu : w.g_flash_state.is_unlocked <;>
      simp [Flash_Write, hi, hg, hu, BeginErase, setAction, SPI_QueueTransfer,
        DisableWP, PLIB_PORTS_PinSet]
  have hr : runBus (Flash_Write w sector output2 size2 cb2 q).2 rs
      = withData (runBus (Flash_Write w sector output size cb q).2 rs) output2 size2 := by
    rw [hw]
    exact runBus_withData rs _ output2 size2 (by rw [hd]; exact h0) (by rw [hd]; exact h1)
  refine ⟨?_, ?_, hr, ?_, ?_⟩
  · cases q <;> cases hu : w.g_flash_state.is_unlocked <;>
      simp [Flash_Write, hi, hg2, hu, BeginErase, setAction, SPI_QueueTransfer]
  · cases q <;> cases hu : w.g_flash_state.is_unlocked <;>
      simp [Flash_Write, hi, hg, hu, BeginErase, setAction, SPI_QueueTransfer]
  · rw [hr]; rfl
  · rw [hr]; rfl

/-- Witness for C28: after initialisation, a write of the 3 bytes
0x11, 0x22, 0x33 and a write of 100 bytes starting 0x11, 0x22, 0x44, 0x55 to
sector 3, against the same device answers. -/
theorem C28_transfers_ignore_size_and_tail_witness :
    sampleInit.g_flash_state.action = Action.ACTION_IDLE ∧
    3 < sampleInit.g_flash_state.flash_sectors ∧
    3 ≤ SECTOR_SIZE ∧ 100 ≤ SECTOR_SIZE ∧
    sampleDataOther 0 = sampleData 0 ∧ sampleDataOther 1 = sampleData 1 ∧
    sampleDataOther 2 ≠ sampleData 2 ∧
    (runBus (Flash_Write sampleInit 3 sampleDataOther 100 (some 8) true).2
        (writeBusAnswers 0 [] 0 [] 0)).trace
      = (runBus (Flash_Write sampleInit 3 sampleData 3 (some 9) true).2
        (writeBusAnswers 0 [] 0 [] 0)).trace :=
  ⟨by decide, by decide, by decide, by decide, by decide, by decide, by decide,
   (C28_transfers_ignore_size_and_tail sampleInit 3 sampleData sampleDataOther 3 100 (some 9)
      (some 8) true (writeBusAnswers 0 [] 0 [] 0) (by decide) (by decide) (by decide) (by decide)
      (by decide) (by decide)).2.2.2.1⟩

/-- C29: while rx_in_progress is true a call of USBTransport_Tasks in the main
task delivers no payload and issues no control-send, whatever tx_in_progress
and tx_data_pending are, and keeps rx_data_size and the transmit fields; yet
the receive callback can run between a request 0x20 and its data-received
event: in the run from USBTransport_Initialize in which the host sends a
request 0x20 of 64 bytes and then deconfigures and reconfigures the device,
no data-received event occurs and the callback is invoked with 64 bytes. -/
theorem C29_delivery_before_data_received :
    (∀ (k : TransportConstants) (w : USBWorld) (a : USBStackAnswers),
      w.g_usb_transport_data.state = USBTransportState.USB_STATE_MAIN_TASK →
      w.g_usb_transport_data.rx_in_progress = true →
      deliveries (USBTransport_Tasks k w a).trace = deliveries w.trace ∧
      controlSends (USBTransport_Tasks k w a).trace = controlSends w.trace ∧
      (USBTransport_Tasks k w a).g_usb_transport_data.rx_data_size
        = w.g_usb_transport_data.rx_data_size ∧
      (USBTransport_Tasks k w a).g_usb_transport_data.tx_in_progress
        = w.g_usb_transport_data.tx_in_progress ∧
      (USBTransport_Tasks k w a).g_usb_transport_data.tx_data_pending
        = w.g_usb_transport_data.tx_data_pending) ∧
    (sampleUSBSendWhileReceiving.g_usb_transport_data.state
        = USBTransportState.USB_STATE_MAIN_TASK ∧
      sampleUSBSendWhileReceiving.g_usb_transport_data.rx_in_progress = true ∧
      sampleUSBSendWhileReceiving.g_usb_transport_data.tx_in_progress = true ∧
      sampleUSBSendWhileReceiving.g_usb_transport_data.tx_data_pending = 11) ∧
    (sampleUSBInit = USBTransport_Initialize initialUSBWorld (some 7) ∧
      sampleUSBReconfiguredRun.map USBStep.isReceiveRequest
        = [false, false, false, true, false, false, false, false, false] ∧
      sampleUSBReconfiguredRun.all (fun s => !s.isDataReceived) = true ∧
      (runUSB sampleConstants sampleUSBInit
          (sampleUSBReconfiguredRun.take 8)).g_usb_transport_data.rx_data_size = 64 ∧
      deliveries (runUSB sampleConstants sampleUSBInit (sampleUSBReconfiguredRun.take 8)).trace
        = [] ∧
      (runUSB sampleConstants sampleUSBInit sampleUSBReconfiguredRun).trace.getLast?
        = some (USBEffect.rxCallback (some 7) 64) ∧
      deliveries (runUSB sampleConstants sampleUSBInit sampleUSBReconfiguredRun).trace
        = [64]) := by
  refine ⟨?_, by decide, ?_⟩
  · intro k w a hs hrx
    cases hc : w.g_usb_transport_data.is_configured <;>
      cases hd : w.g_usb_transport_data.dfu_detach <;>
      cases hr : a.reset_returns <;>
      simp [USBTransport_Tasks, USBTransport_Tasks_main, hs, hrx, hc, hd, hr, USBWorld.emit,
        deliveries, controlSends, List.filterMap_append]
  · refine ⟨rfl, by decide, by decide, by decide, by decide, by decide, by decide⟩

/-- C30: the request 0x20 handler applies no bound to the host-supplied
length.  For every setup packet that reaches the bRequest 0x20 branch with
wLength greater than USB_READ_BUFFER_SIZE, the handler starts a control receive
of wLength bytes and records rx_data_size = wLength; after the data-received
event, a call of USBTransport_Tasks in the main task (configured, no detach)
delivers a payload of that size, wLength, unchanged. -/
theorem C30_receive_length_unbounded (k : TransportConstants) (w : USBWorld)
    (p : USB_SETUP_PACKET) (a : USBStackAnswers)
    (hnd : ¬ isDFUDetachRequest k p) (hng : ¬ isDFUGetStatusRequest k p)
    (h20 : p.bRequest = 0x20)
    (hlen : k.USB_READ_BUFFER_SIZE < p.wLength)
    (hs : w.g_usb_transport_data.state = USBTransportState.USB_STATE_MAIN_TASK)
    (hc : w.g_usb_transport_data.is_configured = true)
    (hd : w.g_usb_transport_data.dfu_detach = false) :
    (USBTransport_EventHandler k w
        (USB_DEVICE_EVENT.USB_DEVICE_EVENT_CONTROL_TRANSFER_SETUP_REQUEST p)).trace
      = w.trace ++ [USBEffect.controlReceive w.g_usb_transport_data.usb_device p.wLength] ∧
    (USBTransport_EventHandler k w
        (USB_DEVICE_EVENT.USB_DEVICE_EVENT_CONTROL_TRANSFER_SETUP_REQUEST p)
      ).g_usb_transport_data.rx_data_size = p.wLength ∧
    deliveries (USBTransport_Tasks k
        (USBTransport_EventHandler k
          (USBTransport_EventHandler k w
            (USB_DEVICE_EVENT.USB_DEVICE_EVENT_CONTROL_TRANSFER_SETUP_REQUEST p))
          USB_DEVICE_EVENT.USB_DEVICE_EVENT_CONTROL_TRANSFER_DATA_RECEIVED) a).trace
      = deliveries w.trace ++ [p.wLength] ∧
    (k.PIPELINE_TRANSPORT_RX = false →
      USBEffect.rxCallback w.g_usb_transport_data.rx_cb p.wLength ∈
        (USBTransport_Tasks k
          (USBTransport_EventHandler k
            (USBTransport_EventHandler k w
              (USB_DEVICE_EVENT.USB_DEVICE_EVENT_CONTROL_TRANSFER_SETUP_REQUEST p))
            USB_DEVICE_EVENT.USB_DEVICE_EVENT_CONTROL_TRANSFER_DATA_RECEIVED) a).trace) := by
  have hnd' := hnd
  have hng' := hng
  unfold isDFUDetachRequest at hnd'
  unfold isDFUGetStatusRequest at hng'
  have hne : p.wLength ≠ 0 := by omega
  have hev : USBTransport_EventHandler k w
      (USB_DEVICE_EVENT.USB_DEVICE_EVENT_CONTROL_TRANSFER_SETUP_REQUEST p) =
      { w with
        g_usb_transport_data := { w.g_usb_transport_data with
          rx_data_size := p.wLength, rx_in_progress := true },
        trace := w.trace ++
          [USBEffect.controlReceive w.g_usb_transport_data.usb_device p.wLength] } := by
    simp only [USBTransport_EventHandler]
    rw [if_neg hnd', if_neg hng']
    simp [h20, USB_REQUEST_SET_INTERFACE, USB_REQUEST_GET_INTERFACE, USBWorld.emit]
  rw [hev]
  refine ⟨rfl, rfl, ?_, ?_⟩
  · by_cases ht : w.g_usb_transport_data.tx_in_progress = true ∧
        w.g_usb_transport_data.tx_data_pending ≠ 0 <;>
      cases hpl : k.PIPELINE_TRANSPORT_RX <;>
      cases hr : w.g_usb_transport_data.rx_cb <;>
      simp [USBTransport_EventHandler, USBTransport_Tasks, USBTransport_Tasks_main,
        USBTransport_Tasks_send, hs, hc, hd, hne, hpl, hr, ht, USBWorld.emit, deliveries,
        List.filterMap_append]
  · intro hpl
    by_cases ht : w.g_usb_transport_data.tx_in_progress = true ∧
        w.g_usb_transport_data.tx_data_pending ≠ 0 <;>
      cases hr : w.g_usb_transport_data.rx_cb <;>
      simp [USBTransport_EventHandler, USBTransport_Tasks, USBTransport_Tasks_main,
        USBTransport_Tasks_send, hs, hc, hd, hne, hpl, hr, ht, USBWorld.emit]

/-- Witness for C30: a request 0x20 with the largest 16-bit length, 65535,
against a receive buffer of 1024 bytes. -/
theorem C30_receive_length_unbounded_witness :
    ¬ isDFUDetachRequest sampleConstants (receiveRequest 65535) ∧
    ¬ isDFUGetStatusRequest sampleConstants (receiveRequest 65535) ∧
    (receiveRequest 65535).bRequest = 0x20 ∧
    sampleConstants.USB_READ_BUFFER_SIZE < (receiveRequest 65535).wLength ∧
    sampleUSBRunning.g_usb_transport_data.state = USBTransportState.USB_STATE_MAIN_TASK ∧
    sampleUSBRunning.g_usb_transport_data.is_configured = true ∧
    sampleUSBRunning.g_usb_transport_data.dfu_detach = false ∧
    deliveries (USBTransport_Tasks sampleConstants
        (USBTransport_EventHandler sampleConstants
          (USBTransport_EventHandler sampleConstants sampleUSBRunning
            (USB_DEVICE_EVENT.USB_DEVICE_EVENT_CONTROL_TRANSFER_SETUP_REQUEST
              (receiveRequest 65535)))
          USB_DEVICE_EVENT.USB_DEVICE_EVENT_CONTROL_TRANSFER_DATA_RECEIVED) sampleAnswers).trace
      = deliveries sampleUSBRunning.trace ++ [(receiveRequest 65535).wLength] :=
  ⟨by decide, by decide, by decide, by decide, by decide, by decide, by decide,
   (C30_receive_length_unbounded sampleConstants sampleUSBRunning (receiveRequest 65535)
      sampleAnswers (by decide) (by decide) (by decide) (by decide) (by decide) (by decide)
      (by decide)).2.2.1⟩

end JaRule
